import Mathlib

/-!
Verification of the historical column-name resolution engine of the
reacchpna-eddyflux-timelapse repository (`python/definitions.py`, with an
older copy of the resolver in `python/obj2core.py`).

The Python code resolves a historical `(table, column)` name pair to its
canonical names by recursively following the alias dictionary `col_alias`.
This file embeds the alias dictionary, the two copies of the recursive
resolver `current_names`, the canonical schema lists `table_definitions`,
and the offline checker `_verify_col_alias`, and settles the spec's claims
about them.

Modelling conventions:
* a Python dict literal with tuple keys becomes an association list
  (`col_alias` has 765 pairwise-distinct keys, so the list and the dict
  define the same mapping, looked up by `dictGet`);
* a value tuple `(None, None)` becomes `none`, a tuple of two strings
  becomes `some (t, c)`;
* the recursive resolver takes explicit fuel; an outermost `none` means
  the call has not returned within that recursion depth, so the Python
  call returns result `r` exactly when some fuel yields `some r`
  (`resolvesTo`);
* a raised Python exception becomes the `Except.error` branch of the
  result; `PyExc` distinguishes `KeyError` from `ColumnNotFoundError`
  because `_verify_col_alias` catches only `KeyError`.

For bulk facts over all 765 keys, kernel evaluation over string data is
too slow, so the development also builds an injective encoding of strings
into `Nat` (`strCode`, base-2097152 digits), mirrors the resolver on the
encoded table (`cnP` over `encTable`), proves the mirror agrees with the
source embedding everywhere (`cnP_encTable`), and evaluates only the
encoded mirror.
-/

/-- A `(table name, column name)` pair, the key type of `col_alias`. -/
abbrev ColKey := String × String

/-- A value of `col_alias`: `none` models Python's `(None, None)`
retirement sentinel, `some (t, c)` a tuple of two strings (`("", "")`
marks a canonical pair, a blank component means "unchanged"). -/
abbrev ColVal := Option (String × String)

/-- An alias dictionary: an association list standing for a Python dict
with `(table, column)` tuple keys.  Every dict this file builds has
pairwise-distinct keys, so first-match lookup is the dict's mapping. -/
abbrev AliasTable := List (ColKey × ColVal)

/-- The Python dict lookup `tbl[k]` as a total function: `some v` when key
`k` is present with value `v`, and `none` when `k` is absent (where Python
raises `KeyError`; callers of `dictGet` translate that case). -/
def dictGet (tbl : AliasTable) (k : ColKey) : Option ColVal :=
  match tbl with
  | [] => none
  | (k₂, v) :: rest => if k₂ = k then some v else dictGet rest k

/-- The Python exceptions in the resolution code paths: `KeyError` from a
failed dict lookup, and `definitions.py`'s `ColumnNotFoundError`.  The
latter is declared as `class ColumnNotFoundError(Exception)`: it is a
direct `Exception` subclass, not a `KeyError`, so an `except KeyError`
clause does not catch it. -/
inductive PyExc where
  | keyError : PyExc
  | columnNotFoundError : PyExc
deriving DecidableEq, Repr

deriving instance DecidableEq for Except

/-- The outcome of a `current_names` call that returns: a raised exception
(`Except.error`), or the returned tuple, where `none` models the returned
retirement marker `(None, None)` and `some (t, c)` a pair of names. -/
abbrev CNResult := Except PyExc (Option (String × String))

namespace definitions

/-- The resolver `current_names` of `python/definitions.py` (lines
397-412), generalised over the dictionary it reads and fuel-indexed:

```
def current_names(table, column):
    try:
        tbl, col = col_alias[(table, column)]
    except KeyError:
        raise ColumnNotFoundError
    if (tbl, col) == (None, None):
        return (None, None)
    elif (tbl, col) == ('', ''):
        return (table, column)
    elif tbl == '':
        return current_names(table, col)
    elif col == '':
        return current_names(tbl, column)
    else:
        return current_names(tbl, col)
```

The `Nat` argument is fuel: result `none` means the call has not returned
within that recursion depth. -/
def current_names (tbl : AliasTable) : Nat → String → String → Option CNResult
  | 0, _, _ => none
  | n + 1, table, column =>
    match dictGet tbl (table, column) with
    | none => some (.error .columnNotFoundError)
    | some none => some (.ok none)
    | some (some (tb, co)) =>
      if tb = "" ∧ co = "" then some (.ok (some (table, column)))
      else if tb = "" then current_names tbl n table co
      else if co = "" then current_names tbl n tb column
      else current_names tbl n tb co

end definitions

namespace obj2core

/-- The resolver `current_names` of `python/obj2core.py` (lines
1089-1106).  Its body is identical to the copy in `definitions.py` except
that the dict lookup is bare, so a missing key raises `KeyError` instead
of `ColumnNotFoundError`:

```
def current_names(table, column):
    tbl, col = col_alias[(table, column)]
    if (tbl, col) == (None, None):
        return (None, None)
    elif (tbl, col) == ('', ''):
        return (table, column)
    elif tbl == '':
        return current_names(table, col)
    elif col == '':
        return current_names(tbl, column)
    else:
        return current_names(tbl, col)
```
-/
def current_names (tbl : AliasTable) : Nat → String → String → Option CNResult
  | 0, _, _ => none
  | n + 1, table, column =>
    match dictGet tbl (table, column) with
    | none => some (.error .keyError)
    | some none => some (.ok none)
    | some (some (tb, co)) =>
      if tb = "" ∧ co = "" then some (.ok (some (table, column)))
      else if tb = "" then current_names tbl n table co
      else if co = "" then current_names tbl n tb column
      else current_names tbl n tb co

end obj2core

/-- The Python call `current_names(t, c)` (the `definitions.py` copy,
reading dictionary `tbl`) terminates and yields `r`: some recursion depth
suffices. -/
def resolvesTo (tbl : AliasTable) (t c : String) (r : CNResult) : Prop :=
  ∃ n, definitions.current_names tbl n t c = some r

/-- The `col_alias` dictionary of `python/definitions.py` (lines
802-1647), every entry in source order.  The 765 keys are pairwise
distinct, so this association list defines the same mapping as the Python
dict literal. -/
def col_alias : AliasTable := [
  (("stats30_ui", "TIMESTAMP"), (some ("", ""))),
  (("stats30_ui", "RECORD"), (some ("", ""))),
  (("stats30_ui", "dec_ndvi_up1_Avg"), (some ("", ""))),
  (("stats30_ui", "dec_ndvi_up2_Avg"), (some ("", ""))),
  (("stats30_ui", "dec_ndvi_dn1_Avg"), (some ("", ""))),
  (("stats30_ui", "dec_ndvi_dn2_Avg"), (some ("", ""))),
  (("stats30_ui", "dec_pri_up1_Avg"), (some ("", ""))),
  (("stats30_ui", "dec_pri_up2_Avg"), (some ("", ""))),
  (("stats30_ui", "dec_pri_dn1_Avg"), (some ("", ""))),
  (("stats30_ui", "dec_pri_dn2_Avg"), (some ("", ""))),
  (("stats30_ui", "tblcalls_Tot"), (some ("", ""))),
  (("stats5_ui", "TIMESTAMP"), (some ("", ""))),
  (("stats5_ui", "RECORD"), (some ("", ""))),
  (("stats5_ui", "dec_ndvi_up1_Avg"), (some ("", ""))),
  (("stats5_ui", "dec_ndvi_up2_Avg"), (some ("", ""))),
  (("stats5_ui", "dec_ndvi_dn1_Avg"), (some ("", ""))),
  (("stats5_ui", "dec_ndvi_dn2_Avg"), (some ("", ""))),
  (("stats5_ui", "dec_pri_up1_Avg"), (some ("", ""))),
  (("stats5_ui", "dec_pri_up2_Avg"), (some ("", ""))),
  (("stats5_ui", "dec_pri_dn1_Avg"), (some ("", ""))),
  (("stats5_ui", "dec_pri_dn2_Avg"), (some ("", ""))),
  (("stats5_ui", "tblcalls_Tot"), (some ("", ""))),
  (("diagnostics", "TIMESTAMP"), (some ("", ""))),
  (("diagnostics", "RECORD"), (some ("", ""))),
  (("diagnostics", "total_scans"), (some ("", ""))),
  (("diagnostics", "scans_1hz"), (some ("", ""))),
  (("diagnostics", "scans_5s"), (some ("", ""))),
  (("diagnostics", "skipped_10hz_scans"), (some ("", ""))),
  (("diagnostics", "skipped_1hz_scans"), (some ("", ""))),
  (("diagnostics", "skipped_5s_scans"), (some ("", ""))),
  (("diagnostics", "watchdog_errors"), (some ("", ""))),
  (("tsdata_extra", "TIMESTAMP"), (some ("", ""))),
  (("tsdata_extra", "RECORD"), (some ("", ""))),
  (("tsdata_extra", "lgr_n2o"), (some ("", ""))),
  (("tsdata_extra", "lgr_co"), (some ("", ""))),
  (("tsdata_extra", "lgr_h2o"), (some ("", ""))),
  (("tsdata_extra", "pic_co2"), (some ("", ""))),
  (("tsdata_extra", "pic_ch4"), (some ("", ""))),
  (("tsdata_extra", "pic_h2o"), (some ("", ""))),
  (("extra_info", "TIMESTAMP"), (some ("", ""))),
  (("extra_info", "RECORD"), (some ("", ""))),
  (("extra_info", "Decagon_NDVI_installed"), (some ("", ""))),
  (("extra_info", "Decagon_PRI_installed"), (some ("", ""))),
  (("extra_info", "LGR_n2oco_installed"), (some ("", ""))),
  (("extra_info", "lgr_n2o_mult"), (some ("", ""))),
  (("extra_info", "lgr_n2o_offset"), (some ("", ""))),
  (("extra_info", "lgr_co_mult"), (some ("", ""))),
  (("extra_info", "lgr_co_offset"), (some ("", ""))),
  (("extra_info", "lgr_h2o_mult"), (some ("", ""))),
  (("extra_info", "lgr_h2o_offset"), (some ("", ""))),
  (("extra_info", "Picarro_co2ch4_installed"), (some ("", ""))),
  (("extra_info", "pic_co2_mult"), (some ("", ""))),
  (("extra_info", "pic_co2_offset"), (some ("", ""))),
  (("extra_info", "pic_ch4_mult"), (some ("", ""))),
  (("extra_info", "pic_ch4_offset"), (some ("", ""))),
  (("extra_info", "pic_h2o_mult"), (some ("", ""))),
  (("extra_info", "pic_h2o_offset"), (some ("", ""))),
  (("stats30_hfp", "TIMESTAMP"), none),
  (("stats30_hfp", "RECORD"), none),
  (("stats30_hfp", "soil_hfp1_heat_flux_Avg"), (some ("stats30", ""))),
  (("stats30_hfp", "soil_hfp1_sensitivity"), (some ("stats30", ""))),
  (("stats30_hfp", "soil_hfp2_heat_flux_Avg"), (some ("stats30", ""))),
  (("stats30_hfp", "soil_hfp2_sensitivity"), (some ("stats30", ""))),
  (("stats30_hfp", "hfp1_samples_Tot"), none),
  (("stats30_hfp", "hfp2_samples_Tot"), none),
  (("stats30_hfp", "tblcalls_Tot"), none),
  (("stats5_hfp", "TIMESTAMP"), none),
  (("stats5_hfp", "RECORD"), none),
  (("stats5_hfp", "soil_hfp1_heat_flux_Avg"), (some ("stats5", ""))),
  (("stats5_hfp", "soil_hfp1_sensitivity"), (some ("stats5", ""))),
  (("stats5_hfp", "soil_hfp2_heat_flux_Avg"), (some ("stats5", ""))),
  (("stats5_hfp", "soil_hfp2_sensitivity"), (some ("stats5", ""))),
  (("stats5_hfp", "hfp1_samples_Tot"), none),
  (("stats5_hfp", "hfp2_samples_Tot"), none),
  (("stats5_hfp", "tblcalls_Tot"), none),
  (("site_info", "TIMESTAMP"), (some ("", ""))),
  (("site_info", "RECORD"), (some ("", ""))),
  (("site_info", "UTC_offset"), (some ("", ""))),
  (("site_info", "sonic_azimuth"), (some ("", ""))),
  (("site_info", "NRLite2_sens"), (some ("", ""))),
  (("site_info", "LI190SB_sens"), (some ("", ""))),
  (("site_info", "HFP_1_sens"), (some ("", ""))),
  (("site_info", "HFP_2_sens"), (some ("", ""))),
  (("site_info", "CompileResults"), (some ("", ""))),
  (("site_info", "CardStatus"), (some ("", ""))),
  (("site_info", "RunSig"), (some ("", ""))),
  (("site_info", "ProgSig"), (some ("", ""))),
  (("site_info", "SENSOR_DEC_5TM"), none),
  (("site_info", "SENSOR_DEC_6RAD"), (some ("", "Dec_6rad_installed"))),
  (("site_info", "Dec_6rad_installed"), none),
  (("site_info", "SENSOR_LGR_N2OCO"), (some ("", "LGR_n2o_co_installed"))),
  (("site_info", "LGR_n2o_co_installed"), (some ("extra_info", "LGR_n2oco_installed"))),
  (("site_info", "SENSOR_PIC_CO2CH4"), (some ("", "Pic_co2_ch4_installed"))),
  (("site_info", "Pic_co2_ch4_installed"), (some ("extra_info", "Picarro_co2ch4_installed"))),
  (("site_info", "SENSOR_HFP01SC"), (some ("", "hfp_installed"))),
  (("site_info", "hfp_installed"), (some ("", ""))),
  (("stats30_6rad", "TIMESTAMP"), (some ("", ""))),
  (("stats30_6rad", "RECORD"), (some ("", ""))),
  (("stats30_6rad", "dec_6rad_up_Avg(1)"), (some ("", "dec_6rad_uplook_Avg(1)"))),
  (("stats30_6rad", "dec_6rad_up_Avg(2)"), (some ("", "dec_6rad_uplook_Avg(2)"))),
  (("stats30_6rad", "dec_6rad_up_Avg(3)"), (some ("", "dec_6rad_uplook_Avg(3)"))),
  (("stats30_6rad", "dec_6rad_up_Avg(4)"), (some ("", "dec_6rad_uplook_Avg(4)"))),
  (("stats30_6rad", "dec_6rad_up_Avg(5)"), (some ("", "dec_6rad_uplook_Avg(5)"))),
  (("stats30_6rad", "dec_6rad_up_Avg(6)"), (some ("", "dec_6rad_uplook_Avg(6)"))),
  (("stats30_6rad", "dec_6rad_dn_Avg(1)"), (some ("", "dec_6rad_dnlook_Avg(1)"))),
  (("stats30_6rad", "dec_6rad_dn_Avg(2)"), (some ("", "dec_6rad_dnlook_Avg(2)"))),
  (("stats30_6rad", "dec_6rad_dn_Avg(3)"), (some ("", "dec_6rad_dnlook_Avg(3)"))),
  (("stats30_6rad", "dec_6rad_dn_Avg(4)"), (some ("", "dec_6rad_dnlook_Avg(4)"))),
  (("stats30_6rad", "dec_6rad_dn_Avg(5)"), (some ("", "dec_6rad_dnlook_Avg(5)"))),
  (("stats30_6rad", "dec_6rad_dn_Avg(6)"), (some ("", "dec_6rad_dnlook_Avg(6)"))),
  (("stats30_6rad", "dec_6rad_uplook_Avg(1)"), (some ("", ""))),
  (("stats30_6rad", "dec_6rad_uplook_Avg(2)"), (some ("", ""))),
  (("stats30_6rad", "dec_6rad_uplook_Avg(3)"), (some ("", ""))),
  (("stats30_6rad", "dec_6rad_uplook_Avg(4)"), (some ("", ""))),
  (("stats30_6rad", "dec_6rad_uplook_Avg(5)"), (some ("", ""))),
  (("stats30_6rad", "dec_6rad_uplook_Avg(6)"), (some ("", ""))),
  (("stats30_6rad", "dec_6rad_dnlook_Avg(1)"), (some ("", ""))),
  (("stats30_6rad", "dec_6rad_dnlook_Avg(2)"), (some ("", ""))),
  (("stats30_6rad", "dec_6rad_dnlook_Avg(3)"), (some ("", ""))),
  (("stats30_6rad", "dec_6rad_dnlook_Avg(4)"), (some ("", ""))),
  (("stats30_6rad", "dec_6rad_dnlook_Avg(5)"), (some ("", ""))),
  (("stats30_6rad", "dec_6rad_dnlook_Avg(6)"), (some ("", ""))),
  (("stats30_6rad", "tblcalls_Tot"), (some ("", ""))),
  (("stats5_6rad", "TIMESTAMP"), (some ("", ""))),
  (("stats5_6rad", "RECORD"), (some ("", ""))),
  (("stats5_6rad", "dec_6rad_up_Avg(1)"), (some ("", "dec_6rad_uplook_Avg(1)"))),
  (("stats5_6rad", "dec_6rad_up_Avg(2)"), (some ("", "dec_6rad_uplook_Avg(2)"))),
  (("stats5_6rad", "dec_6rad_up_Avg(3)"), (some ("", "dec_6rad_uplook_Avg(3)"))),
  (("stats5_6rad", "dec_6rad_up_Avg(4)"), (some ("", "dec_6rad_uplook_Avg(4)"))),
  (("stats5_6rad", "dec_6rad_up_Avg(5)"), (some ("", "dec_6rad_uplook_Avg(5)"))),
  (("stats5_6rad", "dec_6rad_up_Avg(6)"), (some ("", "dec_6rad_uplook_Avg(6)"))),
  (("stats5_6rad", "dec_6rad_dn_Avg(1)"), (some ("", "dec_6rad_dnlook_Avg(1)"))),
  (("stats5_6rad", "dec_6rad_dn_Avg(2)"), (some ("", "dec_6rad_dnlook_Avg(2)"))),
  (("stats5_6rad", "dec_6rad_dn_Avg(3)"), (some ("", "dec_6rad_dnlook_Avg(3)"))),
  (("stats5_6rad", "dec_6rad_dn_Avg(4)"), (some ("", "dec_6rad_dnlook_Avg(4)"))),
  (("stats5_6rad", "dec_6rad_dn_Avg(5)"), (some ("", "dec_6rad_dnlook_Avg(5)"))),
  (("stats5_6rad", "dec_6rad_dn_Avg(6)"), (some ("", "dec_6rad_dnlook_Avg(6)"))),
  (("stats5_6rad", "dec_6rad_uplook_Avg(1)"), (some ("", ""))),
  (("stats5_6rad", "dec_6rad_uplook_Avg(2)"), (some ("", ""))),
  (("stats5_6rad", "dec_6rad_uplook_Avg(3)"), (some ("", ""))),
  (("stats5_6rad", "dec_6rad_uplook_Avg(4)"), (some ("", ""))),
  (("stats5_6rad", "dec_6rad_uplook_Avg(5)"), (some ("", ""))),
  (("stats5_6rad", "dec_6rad_uplook_Avg(6)"), (some ("", ""))),
  (("stats5_6rad", "dec_6rad_dnlook_Avg(1)"), (some ("", ""))),
  (("stats5_6rad", "dec_6rad_dnlook_Avg(2)"), (some ("", ""))),
  (("stats5_6rad", "dec_6rad_dnlook_Avg(3)"), (some ("", ""))),
  (("stats5_6rad", "dec_6rad_dnlook_Avg(4)"), (some ("", ""))),
  (("stats5_6rad", "dec_6rad_dnlook_Avg(5)"), (some ("", ""))),
  (("stats5_6rad", "dec_6rad_dnlook_Avg(6)"), (some ("", ""))),
  (("stats5_6rad", "tblcalls_Tot"), (some ("", ""))),
  (("tsdata", "TIMESTAMP"), (some ("", ""))),
  (("tsdata", "RECORD"), (some ("", ""))),
  (("tsdata", "Ux"), (some ("", ""))),
  (("tsdata", "Uy"), (some ("", ""))),
  (("tsdata", "Uz"), (some ("", ""))),
  (("tsdata", "Ts"), (some ("", ""))),
  (("tsdata", "diag_sonic"), (some ("", ""))),
  (("tsdata", "CO2"), (some ("", ""))),
  (("tsdata", "H2O"), (some ("", ""))),
  (("tsdata", "diag_irga"), (some ("", ""))),
  (("tsdata", "amb_tmpr"), (some ("", ""))),
  (("tsdata", "amb_press"), (some ("", ""))),
  (("tsdata", "CO2_signal"), (some ("", ""))),
  (("tsdata", "H2O_signal"), (some ("", ""))),
  (("stats30", "TIMESTAMP"), (some ("", ""))),
  (("stats30", "RECORD"), (some ("", ""))),
  (("stats30", "L"), (some ("", ""))),
  (("stats30", "u_star"), (some ("", ""))),
  (("stats30", "tau"), (some ("", ""))),
  (("stats30", "Fc_wpl"), (some ("", ""))),
  (("stats30", "LE_wpl"), (some ("", ""))),
  (("stats30", "Hc"), (some ("", ""))),
  (("stats30", "Ts_Avg"), (some ("", ""))),
  (("stats30", "Ts_Std"), (some ("", ""))),
  (("stats30", "Tc_Avg"), (some ("", ""))),
  (("stats30", "Uz_Std"), (some ("", ""))),
  (("stats30", "wnd_spd"), (some ("", ""))),
  (("stats30", "rslt_wnd_spd"), (some ("", ""))),
  (("stats30", "rslt_wnd_dir"), (some ("", ""))),
  (("stats30", "std_wnd_dir"), (some ("", ""))),
  (("stats30", "sonic_uptime"), (some ("", ""))),
  (("stats30", "CO2_ppm_Avg_Avg"), (some ("", "CO2_ppm_Avg"))),
  (("stats30", "CO2_ppm_Avg"), (some ("", ""))),
  (("stats30", "CO2_mg_m3_Avg"), (some ("", ""))),
  (("stats30", "CO2_mg_m3_Std"), (some ("", ""))),
  (("stats30", "CO2_signal_Avg"), (some ("", ""))),
  (("stats30", "H2O_g_kg_Avg"), (some ("", ""))),
  (("stats30", "H2O_g_m3_Avg"), (some ("", ""))),
  (("stats30", "H2O_g_m3_Std"), (some ("", ""))),
  (("stats30", "H2O_signal_Avg"), (some ("", ""))),
  (("stats30", "amb_tmpr_Avg"), (some ("", ""))),
  (("stats30", "amb_press_Avg"), (some ("", ""))),
  (("stats30", "irga_uptime"), (some ("", ""))),
  (("stats30", "T_hmp_Avg"), (some ("", ""))),
  (("stats30", "RH_hmp_Avg"), (some ("", ""))),
  (("stats30", "e_hmp_Avg"), (some ("", ""))),
  (("stats30", "e_sat_hmp_Avg"), (some ("", ""))),
  (("stats30", "Rn_Avg"), (some ("", ""))),
  (("stats30", "Rn_meas_Avg"), (some ("", ""))),
  (("stats30", "PAR_totflx_Tot"), (some ("", ""))),
  (("stats30", "PAR_flxdens_Avg"), (some ("", ""))),
  (("stats30", "Met1_wnd_spd"), (some ("", ""))),
  (("stats30", "Met1_rslt_wnd_spd"), (some ("", ""))),
  (("stats30", "Met1_wnd_dir"), (some ("", "Met1_rslt_wnd_dir"))),
  (("stats30", "Met1_rslt_wnd_dir"), (some ("", ""))),
  (("stats30", "Met1_std_wnd_dir"), (some ("", ""))),
  (("stats30", "Rain_mm_Tot"), (some ("", ""))),
  (("stats30", "soil_5TM_ID5_epsilon_Avg"), (some ("", "soil_5TM_ID5_E_Avg"))),
  (("stats30", "soil_5TM_ID5_E_Avg"), (some ("", ""))),
  (("stats30", "soil_5TM_ID5_T_Avg"), (some ("", ""))),
  (("stats30", "soil_5TM_ID5_VWC_Avg"), (some ("", ""))),
  (("stats30", "soil_5TM_ID6_epsilon_Avg"), (some ("", "soil_5TM_ID6_E_Avg"))),
  (("stats30", "soil_5TM_ID6_E_Avg"), (some ("", ""))),
  (("stats30", "soil_5TM_ID6_T_Avg"), (some ("", ""))),
  (("stats30", "soil_5TM_ID6_VWC_Avg"), (some ("", ""))),
  (("stats30", "soil_5TM_ID7_epsilon_Avg"), (some ("", "soil_5TM_ID7_E_Avg"))),
  (("stats30", "soil_5TM_ID7_E_Avg"), (some ("", ""))),
  (("stats30", "soil_5TM_ID7_T_Avg"), (some ("", ""))),
  (("stats30", "soil_5TM_ID7_VWC_Avg"), (some ("", ""))),
  (("stats30", "soil_5TM_ID8_epsilon_Avg"), (some ("", "soil_5TM_ID8_E_Avg"))),
  (("stats30", "soil_5TM_ID8_E_Avg"), (some ("", ""))),
  (("stats30", "soil_5TM_ID8_T_Avg"), (some ("", ""))),
  (("stats30", "soil_5TM_ID8_VWC_Avg"), (some ("", ""))),
  (("stats30", "soil_5TM_ID9_epsilon_Avg"), (some ("", "soil_5TM_ID9_E_Avg"))),
  (("stats30", "soil_5TM_ID9_E_Avg"), (some ("", ""))),
  (("stats30", "soil_5TM_ID9_T_Avg"), (some ("", ""))),
  (("stats30", "soil_5TM_ID9_VWC_Avg"), (some ("", ""))),
  (("stats30", "soil_hfp1_heat_flux_Avg"), (some ("", ""))),
  (("stats30", "soil_hfp1_sensitivity"), (some ("", ""))),
  (("stats30", "soil_hfp2_heat_flux_Avg"), (some ("", ""))),
  (("stats30", "soil_hfp2_sensitivity"), (some ("", ""))),
  (("stats30", "panel_tmpr_Avg"), (some ("", ""))),
  (("stats30", "batt_volt_Avg"), (some ("", ""))),
  (("stats5", "TIMESTAMP"), (some ("", ""))),
  (("stats5", "RECORD"), (some ("", ""))),
  (("stats5", "L"), (some ("", ""))),
  (("stats5", "u_star"), (some ("", ""))),
  (("stats5", "tau"), (some ("", ""))),
  (("stats5", "Fc_wpl"), (some ("", ""))),
  (("stats5", "LE_wpl"), (some ("", ""))),
  (("stats5", "Hc"), (some ("", ""))),
  (("stats5", "Ts_Avg"), (some ("", ""))),
  (("stats5", "Ts_Std"), (some ("", ""))),
  (("stats5", "Tc_Avg"), (some ("", ""))),
  (("stats5", "Uz_Std"), (some ("", ""))),
  (("stats5", "wnd_spd"), (some ("", ""))),
  (("stats5", "rslt_wnd_spd"), (some ("", ""))),
  (("stats5", "rslt_wnd_dir"), (some ("", ""))),
  (("stats5", "std_wnd_dir"), (some ("", ""))),
  (("stats5", "sonic_uptime"), (some ("", ""))),
  (("stats5", "CO2_ppm_Avg_Avg"), (some ("", "CO2_ppm_Avg"))),
  (("stats5", "CO2_ppm_Avg"), (some ("", ""))),
  (("stats5", "CO2_mg_m3_Avg"), (some ("", ""))),
  (("stats5", "CO2_mg_m3_Std"), (some ("", ""))),
  (("stats5", "CO2_signal_Avg"), (some ("", ""))),
  (("stats5", "H2O_g_kg_Avg"), (some ("", ""))),
  (("stats5", "H2O_g_m3_Avg"), (some ("", ""))),
  (("stats5", "H2O_g_m3_Std"), (some ("", ""))),
  (("stats5", "H2O_signal_Avg"), (some ("", ""))),
  (("stats5", "amb_tmpr_Avg"), (some ("", ""))),
  (("stats5", "amb_press_Avg"), (some ("", ""))),
  (("stats5", "irga_uptime"), (some ("", ""))),
  (("stats5", "T_hmp_Avg"), (some ("", ""))),
  (("stats5", "RH_hmp_Avg"), (some ("", ""))),
  (("stats5", "e_hmp_Avg"), (some ("", ""))),
  (("stats5", "e_sat_hmp_Avg"), (some ("", ""))),
  (("stats5", "Rn_Avg"), (some ("", ""))),
  (("stats5", "Rn_meas_Avg"), (some ("", ""))),
  (("stats5", "PAR_totflx_Tot"), (some ("", ""))),
  (("stats5", "PAR_flxdens_Avg"), (some ("", ""))),
  (("stats5", "Met1_wnd_spd"), (some ("", ""))),
  (("stats5", "Met1_rslt_wnd_spd"), (some ("", ""))),
  (("stats5", "Met1_wnd_dir"), (some ("", "Met1_rslt_wnd_dir"))),
  (("stats5", "Met1_rslt_wnd_dir"), (some ("", ""))),
  (("stats5", "Met1_std_wnd_dir"), (some ("", ""))),
  (("stats5", "Rain_mm_Tot"), (some ("", ""))),
  (("stats5", "soil_5TM_ID5_epsilon_Avg"), (some ("", "soil_5TM_ID5_E_Avg"))),
  (("stats5", "soil_5TM_ID5_E_Avg"), (some ("", ""))),
  (("stats5", "soil_5TM_ID5_T_Avg"), (some ("", ""))),
  (("stats5", "soil_5TM_ID5_VWC_Avg"), (some ("", ""))),
  (("stats5", "soil_5TM_ID6_epsilon_Avg"), (some ("", "soil_5TM_ID6_E_Avg"))),
  (("stats5", "soil_5TM_ID6_E_Avg"), (some ("", ""))),
  (("stats5", "soil_5TM_ID6_T_Avg"), (some ("", ""))),
  (("stats5", "soil_5TM_ID6_VWC_Avg"), (some ("", ""))),
  (("stats5", "soil_5TM_ID7_epsilon_Avg"), (some ("", "soil_5TM_ID7_E_Avg"))),
  (("stats5", "soil_5TM_ID7_E_Avg"), (some ("", ""))),
  (("stats5", "soil_5TM_ID7_T_Avg"), (some ("", ""))),
  (("stats5", "soil_5TM_ID7_VWC_Avg"), (some ("", ""))),
  (("stats5", "soil_5TM_ID8_epsilon_Avg"), (some ("", "soil_5TM_ID8_E_Avg"))),
  (("stats5", "soil_5TM_ID8_E_Avg"), (some ("", ""))),
  (("stats5", "soil_5TM_ID8_T_Avg"), (some ("", ""))),
  (("stats5", "soil_5TM_ID8_VWC_Avg"), (some ("", ""))),
  (("stats5", "soil_5TM_ID9_epsilon_Avg"), (some ("", "soil_5TM_ID9_E_Avg"))),
  (("stats5", "soil_5TM_ID9_E_Avg"), (some ("", ""))),
  (("stats5", "soil_5TM_ID9_T_Avg"), (some ("", ""))),
  (("stats5", "soil_5TM_ID9_VWC_Avg"), (some ("", ""))),
  (("stats5", "soil_hfp1_heat_flux_Avg"), (some ("", ""))),
  (("stats5", "soil_hfp1_sensitivity"), (some ("", ""))),
  (("stats5", "soil_hfp2_heat_flux_Avg"), (some ("", ""))),
  (("stats5", "soil_hfp2_sensitivity"), (some ("", ""))),
  (("stats5", "panel_tmpr_Avg"), (some ("", ""))),
  (("stats5", "batt_volt_Avg"), (some ("", ""))),
  (("site_daily", "TIMESTAMP"), (some ("", ""))),
  (("site_daily", "RECORD"), (some ("", ""))),
  (("site_daily", "sonic_azimuth"), none),
  (("site_daily", "latitude"), (some ("", "latitude_Med"))),
  (("site_daily", "latitude_Med"), (some ("", ""))),
  (("site_daily", "latitude_a_Avg"), none),
  (("site_daily", "latitude_b_Avg"), none),
  (("site_daily", "longitude"), (some ("", "longitude_Med"))),
  (("site_daily", "longitude_Med"), (some ("", ""))),
  (("site_daily", "longitude_a_Avg"), none),
  (("site_daily", "longitude_b_Avg"), none),
  (("site_daily", "magnetic_variation_Med"), (some ("", ""))),
  (("site_daily", "magnetic_variation_Avg"), none),
  (("site_daily", "nmbr_satellites_Avg"), (some ("", ""))),
  (("site_daily", "altitude_Med"), (some ("", ""))),
  (("site_daily", "altitude_Avg"), (some ("", ""))),
  (("site_daily", "gps_ready_Min"), (some ("", ""))),
  (("site_daily", "max_clock_change"), (some ("", ""))),
  (("site_daily", "nmbr_clock_change"), (some ("", ""))),
  (("site_daily", "RunSig"), none),
  (("site_daily", "ProgSig"), none),
  (("site_daily", "batt_volt_Min"), (some ("", ""))),
  (("site_daily", "batt_volt_TMn"), (some ("", ""))),
  (("site_daily", "batt_volt_Max"), (some ("", ""))),
  (("site_daily", "batt_volt_TMx"), (some ("", ""))),
  (("site_daily", "T_hmp_Min"), (some ("", ""))),
  (("site_daily", "T_hmp_TMn"), (some ("", ""))),
  (("site_daily", "T_hmp_Max"), (some ("", ""))),
  (("site_daily", "T_hmp_TMx"), (some ("", ""))),
  (("stats30_soil", "TIMESTAMP"), none),
  (("stats30_soil", "RECORD"), none),
  (("stats30_soil", "soil_5TM_ID5_epsilon_Avg"), (some ("stats30", ""))),
  (("stats30_soil", "soil_5TM_ID5_T_Avg"), (some ("stats30", ""))),
  (("stats30_soil", "soil_5TM_ID5_VWC_Avg"), (some ("stats30", ""))),
  (("stats30_soil", "soil_5TM_ID6_epsilon_Avg"), (some ("stats30", ""))),
  (("stats30_soil", "soil_5TM_ID6_T_Avg"), (some ("stats30", ""))),
  (("stats30_soil", "soil_5TM_ID6_VWC_Avg"), (some ("stats30", ""))),
  (("stats30_soil", "soil_5TM_ID7_epsilon_Avg"), (some ("stats30", ""))),
  (("stats30_soil", "soil_5TM_ID7_T_Avg"), (some ("stats30", ""))),
  (("stats30_soil", "soil_5TM_ID7_VWC_Avg"), (some ("stats30", ""))),
  (("stats30_soil", "soil_5TM_ID8_epsilon_Avg"), (some ("stats30", ""))),
  (("stats30_soil", "soil_5TM_ID8_T_Avg"), (some ("stats30", ""))),
  (("stats30_soil", "soil_5TM_ID8_VWC_Avg"), (some ("stats30", ""))),
  (("stats30_soil", "soil_5TM_ID9_epsilon_Avg"), (some ("stats30", ""))),
  (("stats30_soil", "soil_5TM_ID9_T_Avg"), (some ("stats30", ""))),
  (("stats30_soil", "soil_5TM_ID9_VWC_Avg"), (some ("stats30", ""))),
  (("stats30_soil", "soil_hfp1_heat_flux_Avg"), (some ("stats30_hfp", ""))),
  (("stats30_soil", "soil_hfp1_sensitivity"), (some ("stats30_hfp", ""))),
  (("stats30_soil", "soil_hfp2_heat_flux_Avg"), (some ("stats30_hfp", ""))),
  (("stats30_soil", "soil_hfp2_sensitivity"), (some ("stats30_hfp", ""))),
  (("stats5_soil", "TIMESTAMP"), none),
  (("stats5_soil", "RECORD"), none),
  (("stats5_soil", "soil_5TM_ID5_epsilon_Avg"), (some ("stats5", ""))),
  (("stats5_soil", "soil_5TM_ID5_T_Avg"), (some ("stats5", ""))),
  (("stats5_soil", "soil_5TM_ID5_VWC_Avg"), (some ("stats5", ""))),
  (("stats5_soil", "soil_5TM_ID6_epsilon_Avg"), (some ("stats5", ""))),
  (("stats5_soil", "soil_5TM_ID6_T_Avg"), (some ("stats5", ""))),
  (("stats5_soil", "soil_5TM_ID6_VWC_Avg"), (some ("stats5", ""))),
  (("stats5_soil", "soil_5TM_ID7_epsilon_Avg"), (some ("stats5", ""))),
  (("stats5_soil", "soil_5TM_ID7_T_Avg"), (some ("stats5", ""))),
  (("stats5_soil", "soil_5TM_ID7_VWC_Avg"), (some ("stats5", ""))),
  (("stats5_soil", "soil_5TM_ID8_epsilon_Avg"), (some ("stats5", ""))),
  (("stats5_soil", "soil_5TM_ID8_T_Avg"), (some ("stats5", ""))),
  (("stats5_soil", "soil_5TM_ID8_VWC_Avg"), (some ("stats5", ""))),
  (("stats5_soil", "soil_5TM_ID9_epsilon_Avg"), (some ("stats5", ""))),
  (("stats5_soil", "soil_5TM_ID9_T_Avg"), (some ("stats5", ""))),
  (("stats5_soil", "soil_5TM_ID9_VWC_Avg"), (some ("stats5", ""))),
  (("stats5_soil", "soil_hfp1_heat_flux_Avg"), (some ("stats5_hfp", ""))),
  (("stats5_soil", "soil_hfp1_sensitivity"), (some ("stats5_hfp", ""))),
  (("stats5_soil", "soil_hfp2_heat_flux_Avg"), (some ("stats5_hfp", ""))),
  (("stats5_soil", "soil_hfp2_sensitivity"), (some ("stats5_hfp", ""))),
  (("tsdata_n2o_co", "TIMESTAMP"), none),
  (("tsdata_n2o_co", "RECORD"), none),
  (("tsdata_n2o_co", "lgr_n2o"), (some ("tsdata_extra", "lgr_n2o"))),
  (("tsdata_n2o_co", "lgr_co"), (some ("tsdata_extra", "lgr_co"))),
  (("stats30_n2o_co", "TIMESTAMP"), (some ("", ""))),
  (("stats30_n2o_co", "RECORD"), (some ("", ""))),
  (("stats30_n2o_co", "lgr_n2o_Avg"), (some ("", ""))),
  (("stats30_n2o_co", "lgr_n2o_Std"), (some ("", ""))),
  (("stats30_n2o_co", "lgr_co_Avg"), (some ("", ""))),
  (("stats30_n2o_co", "lgr_co_Std"), (some ("", ""))),
  (("stats30_n2o_co", "lgr_uptime"), (some ("", "lgr_n2o_co_uptime"))),
  (("stats30_n2o_co", "cov_n2o_Uz"), none),
  (("stats30_n2o_co", "cov_co_Uz"), none),
  (("stats30_n2o_co", "lgr_n2o_co_uptime"), (some ("", ""))),
  (("stats5_n2o_co", "TIMESTAMP"), (some ("", ""))),
  (("stats5_n2o_co", "RECORD"), (some ("", ""))),
  (("stats5_n2o_co", "lgr_n2o_Avg"), (some ("", ""))),
  (("stats5_n2o_co", "lgr_n2o_Std"), (some ("", ""))),
  (("stats5_n2o_co", "lgr_co_Avg"), (some ("", ""))),
  (("stats5_n2o_co", "lgr_co_Std"), (some ("", ""))),
  (("stats5_n2o_co", "lgr_uptime"), (some ("", "lgr_n2o_co_uptime"))),
  (("stats5_n2o_co", "cov_n2o_Uz"), none),
  (("stats5_n2o_co", "cov_co_Uz"), none),
  (("stats5_n2o_co", "lgr_n2o_co_uptime"), (some ("", ""))),
  (("stats30_extra", "TIMESTAMP"), (some ("stats30_n2o_co", ""))),
  (("stats30_extra", "RECORD"), (some ("stats30_n2o_co", ""))),
  (("stats30_extra", "lgr_n2o_Avg"), (some ("stats30_n2o_co", ""))),
  (("stats30_extra", "lgr_n2o_Std"), (some ("stats30_n2o_co", ""))),
  (("stats30_extra", "lgr_co_Avg"), (some ("stats30_n2o_co", ""))),
  (("stats30_extra", "lgr_co_Std"), (some ("stats30_n2o_co", ""))),
  (("stats30_extra", "lgr_uptime"), (some ("stats30_n2o_co", ""))),
  (("stats30_extra", "cov_n2o_Uz"), (some ("stats30_n2o_co", ""))),
  (("stats30_extra", "cov_co_Uz"), (some ("stats30_n2o_co", ""))),
  (("stats5_extra", "TIMESTAMP"), (some ("stats5_n2o_co", ""))),
  (("stats5_extra", "RECORD"), (some ("stats5_n2o_co", ""))),
  (("stats5_extra", "lgr_n2o_Avg"), (some ("stats5_n2o_co", ""))),
  (("stats5_extra", "lgr_n2o_Std"), (some ("stats5_n2o_co", ""))),
  (("stats5_extra", "lgr_co_Avg"), (some ("stats5_n2o_co", ""))),
  (("stats5_extra", "lgr_co_Std"), (some ("stats5_n2o_co", ""))),
  (("stats5_extra", "lgr_uptime"), (some ("stats5_n2o_co", ""))),
  (("stats5_extra", "cov_n2o_Uz"), (some ("stats5_n2o_co", ""))),
  (("stats5_extra", "cov_co_Uz"), (some ("stats5_n2o_co", ""))),
  (("CFNT_tsdata", "TIMESTAMP"), (some ("tsdata", ""))),
  (("CFNT_tsdata", "RECORD"), (some ("tsdata", ""))),
  (("CFNT_tsdata", "Ux"), (some ("tsdata", ""))),
  (("CFNT_tsdata", "Uy"), (some ("tsdata", ""))),
  (("CFNT_tsdata", "Uz"), (some ("tsdata", ""))),
  (("CFNT_tsdata", "Ts"), (some ("tsdata", ""))),
  (("CFNT_tsdata", "diag_sonic"), (some ("tsdata", ""))),
  (("CFNT_tsdata", "CO2"), (some ("tsdata", ""))),
  (("CFNT_tsdata", "H2O"), (some ("tsdata", ""))),
  (("CFNT_tsdata", "diag_irga"), (some ("tsdata", ""))),
  (("CFNT_tsdata", "amb_tmpr"), (some ("tsdata", ""))),
  (("CFNT_tsdata", "amb_press"), (some ("tsdata", ""))),
  (("CFNT_tsdata", "CO2_signal"), (some ("tsdata", ""))),
  (("CFNT_tsdata", "H2O_signal"), (some ("tsdata", ""))),
  (("CFNT_stats30", "TIMESTAMP"), (some ("stats30", ""))),
  (("CFNT_stats30", "RECORD"), (some ("stats30", ""))),
  (("CFNT_stats30", "L"), (some ("stats30", ""))),
  (("CFNT_stats30", "u_star"), (some ("stats30", ""))),
  (("CFNT_stats30", "tau"), (some ("stats30", ""))),
  (("CFNT_stats30", "Fc_wpl"), (some ("stats30", ""))),
  (("CFNT_stats30", "LE_wpl"), (some ("stats30", ""))),
  (("CFNT_stats30", "Hc"), (some ("stats30", ""))),
  (("CFNT_stats30", "Ts_Avg"), (some ("stats30", ""))),
  (("CFNT_stats30", "Ts_Std"), (some ("stats30", ""))),
  (("CFNT_stats30", "Tc_Avg"), (some ("stats30", ""))),
  (("CFNT_stats30", "Tc_Std"), none),
  (("CFNT_stats30", "Uz_Std"), (some ("stats30", ""))),
  (("CFNT_stats30", "wnd_spd"), (some ("stats30", ""))),
  (("CFNT_stats30", "rslt_wnd_spd"), (some ("stats30", ""))),
  (("CFNT_stats30", "std_wnd_dir"), (some ("stats30", ""))),
  (("CFNT_stats30", "wnd_dir_compass"), (some ("stats30", "rslt_wnd_dir"))),
  (("CFNT_stats30", "sonic_samples_Tot"), none),
  (("CFNT_stats30", "sonic_uptime"), (some ("stats30", ""))),
  (("CFNT_stats30", "CO2_ppm_Avg"), (some ("stats30", ""))),
  (("CFNT_stats30", "CO2_ppm_Std"), none),
  (("CFNT_stats30", "CO2_mg_m3_Avg"), (some ("stats30", ""))),
  (("CFNT_stats30", "CO2_mg_m3_Std"), (some ("stats30", ""))),
  (("CFNT_stats30", "CO2_signal_Avg"), (some ("stats30", ""))),
  (("CFNT_stats30", "H2O_g_kg_Avg"), (some ("stats30", ""))),
  (("CFNT_stats30", "H2O_g_kg_Std"), none),
  (("CFNT_stats30", "H2O_g_m3_Avg"), (some ("stats30", ""))),
  (("CFNT_stats30", "H2O_g_m3_Std"), (some ("stats30", ""))),
  (("CFNT_stats30", "H2O_signal_Avg"), (some ("stats30", ""))),
  (("CFNT_stats30", "amb_tmpr_Avg"), (some ("stats30", ""))),
  (("CFNT_stats30", "amb_press_Avg"), (some ("stats30", ""))),
  (("CFNT_stats30", "irga_samples_Tot"), none),
  (("CFNT_stats30", "irga_uptime"), (some ("stats30", ""))),
  (("CFNT_stats30", "T_hmp_Avg"), (some ("stats30", ""))),
  (("CFNT_stats30", "RH_hmp_Avg"), (some ("stats30", ""))),
  (("CFNT_stats30", "e_hmp_Avg"), (some ("stats30", ""))),
  (("CFNT_stats30", "e_sat_hmp_Avg"), (some ("stats30", ""))),
  (("CFNT_stats30", "hmp_uptime"), none),
  (("CFNT_stats30", "Rn_Avg"), (some ("stats30", ""))),
  (("CFNT_stats30", "Rn_meas_Avg"), (some ("stats30", ""))),
  (("CFNT_stats30", "PAR_totflx_Tot"), (some ("stats30", ""))),
  (("CFNT_stats30", "PAR_flxdens_Avg"), (some ("stats30", ""))),
  (("CFNT_stats30", "Met1_wnd_spd"), (some ("stats30", ""))),
  (("CFNT_stats30", "Met1_rslt_wnd_spd"), (some ("stats30", ""))),
  (("CFNT_stats30", "Met1_wnd_dir"), (some ("stats30", ""))),
  (("CFNT_stats30", "Met1_std_wnd_dir"), (some ("stats30", ""))),
  (("CFNT_stats30", "Met1_uptime"), none),
  (("CFNT_stats30", "Rain_mm_Tot"), (some ("stats30", ""))),
  (("CFNT_stats30", "panel_tmpr_Avg"), (some ("stats30", ""))),
  (("CFNT_stats30", "batt_volt_Avg"), (some ("stats30", ""))),
  (("CFNT_stats5", "TIMESTAMP"), (some ("stats5", ""))),
  (("CFNT_stats5", "RECORD"), (some ("stats5", ""))),
  (("CFNT_stats5", "L"), (some ("stats5", ""))),
  (("CFNT_stats5", "u_star"), (some ("stats5", ""))),
  (("CFNT_stats5", "tau"), (some ("stats5", ""))),
  (("CFNT_stats5", "Fc_wpl"), (some ("stats5", ""))),
  (("CFNT_stats5", "LE_wpl"), (some ("stats5", ""))),
  (("CFNT_stats5", "Hc"), (some ("stats5", ""))),
  (("CFNT_stats5", "Ts_Avg"), (some ("stats5", ""))),
  (("CFNT_stats5", "Ts_Std"), (some ("stats5", ""))),
  (("CFNT_stats5", "Tc_Avg"), (some ("stats5", ""))),
  (("CFNT_stats5", "Tc_Std"), none),
  (("CFNT_stats5", "Uz_Std"), (some ("stats5", ""))),
  (("CFNT_stats5", "wnd_spd"), (some ("stats5", ""))),
  (("CFNT_stats5", "rslt_wnd_spd"), (some ("stats5", ""))),
  (("CFNT_stats5", "std_wnd_dir"), (some ("stats5", ""))),
  (("CFNT_stats5", "wnd_dir_compass"), (some ("stats5", "rslt_wnd_spd"))),
  (("CFNT_stats5", "sonic_samples_Tot"), none),
  (("CFNT_stats5", "sonic_uptime"), (some ("stats5", ""))),
  (("CFNT_stats5", "CO2_ppm_Avg"), (some ("stats5", ""))),
  (("CFNT_stats5", "CO2_ppm_Std"), none),
  (("CFNT_stats5", "CO2_mg_m3_Avg"), (some ("stats5", ""))),
  (("CFNT_stats5", "CO2_mg_m3_Std"), (some ("stats5", ""))),
  (("CFNT_stats5", "CO2_signal_Avg"), (some ("stats5", ""))),
  (("CFNT_stats5", "H2O_g_kg_Avg"), (some ("stats5", ""))),
  (("CFNT_stats5", "H2O_g_kg_Std"), none),
  (("CFNT_stats5", "H2O_g_m3_Avg"), (some ("stats5", ""))),
  (("CFNT_stats5", "H2O_g_m3_Std"), (some ("stats5", ""))),
  (("CFNT_stats5", "H2O_signal_Avg"), (some ("stats5", ""))),
  (("CFNT_stats5", "amb_tmpr_Avg"), (some ("stats5", ""))),
  (("CFNT_stats5", "amb_press_Avg"), (some ("stats5", ""))),
  (("CFNT_stats5", "irga_samples_Tot"), none),
  (("CFNT_stats5", "irga_uptime"), (some ("stats5", ""))),
  (("CFNT_stats5", "T_hmp_Avg"), (some ("stats5", ""))),
  (("CFNT_stats5", "RH_hmp_Avg"), (some ("stats5", ""))),
  (("CFNT_stats5", "e_hmp_Avg"), (some ("stats5", ""))),
  (("CFNT_stats5", "e_sat_hmp_Avg"), (some ("stats5", ""))),
  (("CFNT_stats5", "hmp_uptime"), none),
  (("CFNT_stats5", "Rn_Avg"), (some ("stats5", ""))),
  (("CFNT_stats5", "Rn_meas_Avg"), (some ("stats5", ""))),
  (("CFNT_stats5", "PAR_totflx_Tot"), (some ("stats5", ""))),
  (("CFNT_stats5", "PAR_flxdens_Avg"), (some ("stats5", ""))),
  (("CFNT_stats5", "Met1_wnd_spd"), (some ("stats5", ""))),
  (("CFNT_stats5", "Met1_rslt_wnd_spd"), (some ("stats5", ""))),
  (("CFNT_stats5", "Met1_wnd_dir"), (some ("stats5", ""))),
  (("CFNT_stats5", "Met1_std_wnd_dir"), (some ("stats5", ""))),
  (("CFNT_stats5", "Met1_uptime"), none),
  (("CFNT_stats5", "Rain_mm_Tot"), (some ("stats5", ""))),
  (("CFNT_stats5", "panel_tmpr_Avg"), (some ("stats5", ""))),
  (("CFNT_stats5", "batt_volt_Avg"), (some ("stats5", ""))),
  (("CFNT_site_daily", "TIMESTAMP"), (some ("site_daily", ""))),
  (("CFNT_site_daily", "RECORD"), (some ("site_daily", ""))),
  (("CFNT_site_daily", "sonic_azimuth"), (some ("site_daily", ""))),
  (("CFNT_site_daily", "latitude_a_Avg"), (some ("site_daily", ""))),
  (("CFNT_site_daily", "latitude_b_Avg"), (some ("site_daily", ""))),
  (("CFNT_site_daily", "longitude_a_Avg"), (some ("site_daily", ""))),
  (("CFNT_site_daily", "longitude_b_Avg"), (some ("site_daily", ""))),
  (("CFNT_site_daily", "latitude_a_Std"), none),
  (("CFNT_site_daily", "latitude_b_Std"), none),
  (("CFNT_site_daily", "longitude_a_Std"), none),
  (("CFNT_site_daily", "longitude_b_Std"), none),
  (("CFNT_site_daily", "magnetic_variation_Avg"), (some ("site_daily", ""))),
  (("CFNT_site_daily", "magnetic_variation_Std"), none),
  (("CFNT_site_daily", "nmbr_satellites_Avg"), (some ("site_daily", ""))),
  (("CFNT_site_daily", "altitude_Avg"), (some ("site_daily", ""))),
  (("CFNT_site_daily", "altitude_Std"), none),
  (("CFNT_site_daily", "gps_ready_Min"), (some ("site_daily", ""))),
  (("CFNT_site_daily", "max_clock_change"), (some ("site_daily", ""))),
  (("CFNT_site_daily", "nmbr_clock_change"), (some ("site_daily", ""))),
  (("CFNT_met_5min", "TIMESTAMP"), (some ("CFNT_stats5", ""))),
  (("CFNT_met_5min", "RECORD"), (some ("CFNT_stats5", ""))),
  (("CFNT_met_5min", "L"), (some ("CFNT_stats5", ""))),
  (("CFNT_met_5min", "Hs"), none),
  (("CFNT_met_5min", "u_star"), (some ("CFNT_stats5", ""))),
  (("CFNT_met_5min", "Ts_stdev"), (some ("CFNT_stats5", "Ts_Std"))),
  (("CFNT_met_5min", "Uz_stdev"), (some ("CFNT_stats5", "Uz_Std"))),
  (("CFNT_met_5min", "wnd_spd"), (some ("CFNT_stats5", ""))),
  (("CFNT_met_5min", "rslt_wnd_spd"), (some ("CFNT_stats5", ""))),
  (("CFNT_met_5min", "std_wnd_dir"), (some ("CFNT_stats5", ""))),
  (("CFNT_met_5min", "wnd_dir_compass"), (some ("CFNT_stats5", ""))),
  (("CFNT_met_5min", "Ts_Avg"), (some ("CFNT_stats5", ""))),
  (("CFNT_met_5min", "sonic_samples_Tot"), (some ("CFNT_stats5", ""))),
  (("CFNT_met_5min", "Fc_wpl"), (some ("CFNT_stats5", ""))),
  (("CFNT_met_5min", "LE_wpl"), (some ("CFNT_stats5", ""))),
  (("CFNT_met_5min", "Hc"), (some ("CFNT_stats5", ""))),
  (("CFNT_met_5min", "CO2_stdev"), (some ("CFNT_stats5", "CO2_mg_m3_Std"))),
  (("CFNT_met_5min", "H2O_stdev"), (some ("CFNT_stats5", "H2O_g_m3_Std"))),
  (("CFNT_met_5min", "Tc_stdev"), (some ("CFNT_stats5", "Tc_Std"))),
  (("CFNT_met_5min", "CO2_mean"), (some ("CFNT_stats5", "CO2_mg_m3_Avg"))),
  (("CFNT_met_5min", "H2O_mean"), (some ("CFNT_stats5", "H2O_g_m3_Avg"))),
  (("CFNT_met_5min", "amb_press_mean"), (some ("CFNT_stats5", "amb_press_Avg"))),
  (("CFNT_met_5min", "Tc_mean"), (some ("CFNT_stats5", "Tc_Avg"))),
  (("CFNT_met_5min", "CO2_sig_strgth_mean"), (some ("CFNT_stats5", "CO2_signal_Avg"))),
  (("CFNT_met_5min", "H2O_sig_strgth_mean"), (some ("CFNT_stats5", "H2O_signal_Avg"))),
  (("CFNT_met_5min", "T_hmp_mean"), (some ("CFNT_stats5", "T_hmp_Avg"))),
  (("CFNT_met_5min", "RH_hmp_mean"), (some ("CFNT_stats5", "RH_hmp_Avg"))),
  (("CFNT_met_5min", "Rn_Avg"), (some ("CFNT_stats5", ""))),
  (("CFNT_met_5min", "Rn_meas_Avg"), (some ("CFNT_stats5", ""))),
  (("CFNT_met_5min", "PAR_totflx_Tot"), (some ("CFNT_stats5", ""))),
  (("CFNT_met_5min", "PAR_flxdens_Avg"), (some ("CFNT_stats5", ""))),
  (("CFNT_met_5min", "034b_ws2"), (some ("CFNT_stats5", "Met1_wnd_spd"))),
  (("CFNT_met_5min", "034b_wd2"), none),
  (("CFNT_met_5min", "034b_stdwd2"), none),
  (("CFNT_met_5min", "Rain_mm_Tot"), (some ("CFNT_stats5", ""))),
  (("CFNT_met_5min", "latitude_a"), none),
  (("CFNT_met_5min", "latitude_b"), none),
  (("CFNT_met_5min", "longitude_a"), none),
  (("CFNT_met_5min", "longitude_b"), none),
  (("CFNT_met_5min", "magnetic_variation"), none),
  (("CFNT_met_5min", "altitude"), none),
  (("CFNT_met_5min", "max_clock_change"), none),
  (("CFNT_met_5min", "nmbr_clock_change"), none),
  (("CFNT_met_5min", "panel_tmpr_Avg"), (some ("CFNT_stats5", ""))),
  (("CFNT_met_5min", "batt_volt_Avg"), (some ("CFNT_stats5", ""))),
  (("extra_gas", "TIMESTAMP"), none),
  (("extra_gas", "RECORD"), none),
  (("extra_gas", "n2o_Avg"), none),
  (("extra_gas", "c_monoxide_Avg"), none),
  (("extra_gas", "ch4_Avg"), none),
  (("extra_gas", "co2_picarro_Avg"), none),
  (("extra_gas", "co2_mix_ratio_Avg"), none),
  (("extra_gas", "h2o_mix_ratio_Avg"), none),
  (("extra_gas", "034b_ws"), none),
  (("extra_gas", "034b_wd"), none),
  (("extra_gas", "034b_stdwd"), none),
  (("ts_data", "TIMESTAMP"), (some ("CFNT_tsdata", ""))),
  (("ts_data", "RECORD"), (some ("CFNT_tsdata", ""))),
  (("ts_data", "Ux"), (some ("CFNT_tsdata", ""))),
  (("ts_data", "Uy"), (some ("CFNT_tsdata", ""))),
  (("ts_data", "Uz"), (some ("CFNT_tsdata", ""))),
  (("ts_data", "Ts"), (some ("CFNT_tsdata", ""))),
  (("ts_data", "diag_sonic"), (some ("CFNT_tsdata", ""))),
  (("ts_data", "atiUx"), none),
  (("ts_data", "atiUy"), none),
  (("ts_data", "atiUz"), none),
  (("ts_data", "atiTs"), none),
  (("ts_data", "CO2_molar"), (some ("", "co2_molar_density"))),
  (("ts_data", "H2O_molar"), (some ("", "h2o_molar_density"))),
  (("ts_data", "co2_molar_density"), none),
  (("ts_data", "h2o_molar_density"), none),
  (("ts_data", "co2_mix_ratio"), (some ("", "co2_molar_density"))),
  (("ts_data", "h2o_mix_ratio"), (some ("", "h2o_molar_density"))),
  (("ts_data", "n2o"), (some ("tsdata_extra", "lgr_n2o"))),
  (("ts_data", "c_monoxide"), (some ("tsdata_extra", "lgr_co"))),
  (("ts_data", "ch4"), (some ("tsdata_extra", "pic_ch4"))),
  (("ts_data", "co2_picarro"), (some ("tsdata_extra", "pic_co2"))),
  (("ts_data", "CO2"), (some ("CFNT_tsdata", ""))),
  (("ts_data", "H2O"), (some ("CFNT_tsdata", ""))),
  (("ts_data", "diag_irga"), (some ("CFNT_tsdata", ""))),
  (("ts_data", "amb_tmpr"), (some ("CFNT_tsdata", ""))),
  (("ts_data", "amb_press"), (some ("CFNT_tsdata", ""))),
  (("ts_data", "CO2_sig_strgth"), (some ("CFNT_tsdata", "CO2_signal"))),
  (("ts_data", "H2O_sig_strgth"), (some ("CFNT_tsdata", "H2O_signal"))),
  (("flux", "TIMESTAMP"), (some ("CFNT_stats30", ""))),
  (("flux", "RECORD"), (some ("CFNT_stats30", ""))),
  (("flux", "l"), (some ("", "L"))),
  (("flux", "L"), (some ("CFNT_stats30", ""))),
  (("flux", "Hs"), none),
  (("flux", "tau"), (some ("CFNT_stats30", ""))),
  (("flux", "u_star"), (some ("CFNT_stats30", ""))),
  (("flux", "Ts_stdev"), (some ("CFNT_stats30", "Ts_Std"))),
  (("flux", "Ts_Ux_cov"), none),
  (("flux", "Ts_Uy_cov"), none),
  (("flux", "Ts_Uz_cov"), none),
  (("flux", "Ux_stdev"), none),
  (("flux", "Ux_Uy_cov"), none),
  (("flux", "Ux_Uz_cov"), none),
  (("flux", "Uy_stdev"), none),
  (("flux", "Uy_Uz_cov"), none),
  (("flux", "Uz_stdev"), (some ("CFNT_stats30", "Uz_Std"))),
  (("flux", "wnd_spd"), (some ("CFNT_stats30", ""))),
  (("flux", "rslt_wnd_spd"), (some ("CFNT_stats30", ""))),
  (("flux", "wnd_dir_sonic"), none),
  (("flux", "std_wnd_dir"), (some ("CFNT_stats30", ""))),
  (("flux", "wnd_dir_compass"), (some ("CFNT_stats30", ""))),
  (("flux", "Ux_Avg"), none),
  (("flux", "Uy_Avg"), none),
  (("flux", "Uz_Avg"), none),
  (("flux", "Ts_Avg"), (some ("CFNT_stats30", ""))),
  (("flux", "sonic_azimuth"), none),
  (("flux", "sonic_samples_Tot"), none),
  (("flux", "no_sonic_head_Tot"), none),
  (("flux", "no_new_sonic_data_Tot"), none),
  (("flux", "amp_l_f_Tot"), none),
  (("flux", "amp_h_f_Tot"), none),
  (("flux", "sig_lck_f_Tot"), none),
  (("flux", "del_T_f_Tot"), none),
  (("flux", "aq_sig_f_Tot"), none),
  (("flux", "sonic_cal_err_f_Tot"), none),
  (("flux", "Fc_wpl"), (some ("CFNT_stats30", ""))),
  (("flux", "LE_wpl"), (some ("CFNT_stats30", ""))),
  (("flux", "Hc"), (some ("CFNT_stats30", ""))),
  (("flux", "CO2_stdev"), (some ("CFNT_stats30", "CO2_mg_m3_Std"))),
  (("flux", "CO2_Ux_cov"), none),
  (("flux", "CO2_Uy_cov"), none),
  (("flux", "CO2_Uz_cov"), none),
  (("flux", "H2O_stdev"), (some ("CFNT_stats30", "H2O_g_m3_Std"))),
  (("flux", "H2O_Ux_cov"), none),
  (("flux", "H2O_Uy_cov"), none),
  (("flux", "H2O_Uz_cov"), none),
  (("flux", "Tc_stdev"), (some ("CFNT_stats30", "Tc_Std"))),
  (("flux", "Tc_Ux_cov"), none),
  (("flux", "Tc_Uy_cov"), none),
  (("flux", "Tc_Uz_cov"), none),
  (("flux", "CO2_mean"), (some ("CFNT_stats30", "CO2_mg_m3_Avg"))),
  (("flux", "H2O_mean"), (some ("CFNT_stats30", "H2O_g_m3_Avg"))),
  (("flux", "amb_press_mean"), (some ("CFNT_stats30", "amb_press_Avg"))),
  (("flux", "Tc_mean"), (some ("CFNT_stats30", "Tc_Avg"))),
  (("flux", "rho_a_mean"), none),
  (("flux", "Fc_irga"), none),
  (("flux", "LE_irga"), none),
  (("flux", "CO2_wpl_LE"), none),
  (("flux", "CO2_wpl_H"), none),
  (("flux", "H2O_wpl_LE"), none),
  (("flux", "H2O_wpl_H"), none),
  (("flux", "irga_samples_Tot"), none),
  (("flux", "no_irga_head_Tot"), none),
  (("flux", "no_new_irga_data_Tot"), none),
  (("flux", "irga_bad_data_f_Tot"), none),
  (("flux", "gen_sys_fault_f_Tot"), none),
  (("flux", "sys_startup_f_Tot"), none),
  (("flux", "motor_spd_f_Tot"), none),
  (("flux", "tec_tmpr_f_Tot"), none),
  (("flux", "src_pwr_f_Tot"), none),
  (("flux", "src_tmpr_f_Tot"), none),
  (("flux", "src_curr_f_Tot"), none),
  (("flux", "irga_off_f_Tot"), none),
  (("flux", "irga_sync_f_Tot"), none),
  (("flux", "amb_tmpr_f_Tot"), none),
  (("flux", "amb_press_f_Tot"), none),
  (("flux", "CO2_I_f_Tot"), none),
  (("flux", "CO2_Io_f_Tot"), none),
  (("flux", "H2O_I_f_Tot"), none),
  (("flux", "H2O_Io_f_Tot"), none),
  (("flux", "CO2_Io_var_f_Tot"), none),
  (("flux", "H2O_Io_var_f_Tot"), none),
  (("flux", "CO2_sig_strgth_f_Tot"), none),
  (("flux", "H2O_sig_strgth_f_Tot"), none),
  (("flux", "CO2_sig_strgth_mean"), (some ("CFNT_stats30", "CO2_signal_Avg"))),
  (("flux", "H2O_sig_strgth_mean"), (some ("CFNT_stats30", "H2O_signal_Avg"))),
  (("flux", "T_hmp_mean"), (some ("CFNT_stats30", "T_hmp_Avg"))),
  (("flux", "e_hmp_mean"), (some ("CFNT_stats30", "e_hmp_Avg"))),
  (("flux", "e_sat_hmp_mean"), (some ("CFNT_stats30", "e_sat_hmp_Avg"))),
  (("flux", "H2O_hmp_mean"), none),
  (("flux", "RH_hmp_mean"), (some ("CFNT_stats30", "RH_hmp_Avg"))),
  (("flux", "rho_a_mean_hmp"), none),
  (("flux", "Rn_Avg"), (some ("CFNT_stats30", ""))),
  (("flux", "Rn_meas_Avg"), (some ("CFNT_stats30", ""))),
  (("flux", "par_totflx_Tot"), (some ("", "PAR_totflx_Tot"))),
  (("flux", "PAR_totflx_Tot"), (some ("CFNT_stats30", ""))),
  (("flux", "par_flxdens_Avg"), (some ("", "PAR_flxdens_Avg"))),
  (("flux", "PAR_flxdens_Avg"), (some ("CFNT_stats30", ""))),
  (("flux", "WS_ms_Avg"), none),
  (("flux", "WS_ms_WVc(1)"), (some ("", "034b_ws"))),
  (("flux", "034b_ws"), (some ("CFNT_stats30", "Met1_wnd_spd"))),
  (("flux", "WS_ms_WVc(2)"), (some ("", "034b_wd"))),
  (("flux", "034b_wd"), none),
  (("flux", "WS_ms_WVc(3)"), (some ("", "034b_stdwd"))),
  (("flux", "034b_stdwd"), none),
  (("flux", "ati_azimuth"), none),
  (("flux", "ati_ws"), none),
  (("flux", "ati_wd"), none),
  (("flux", "ati_stdwd"), none),
  (("flux", "atiUavg"), none),
  (("flux", "atiVavg"), none),
  (("flux", "atiWavg"), none),
  (("flux", "atitmpavg"), none),
  (("flux", "Rain_mm_Tot"), (some ("CFNT_stats30", ""))),
  (("flux", "latitude_a"), none),
  (("flux", "latitude_b"), none),
  (("flux", "longitude_a"), none),
  (("flux", "longitude_b"), none),
  (("flux", "speed"), none),
  (("flux", "course"), none),
  (("flux", "magnetic_variation"), none),
  (("flux", "fix_quality"), none),
  (("flux", "nmbr_satellites"), none),
  (("flux", "altitude"), none),
  (("flux", "pps"), none),
  (("flux", "dt_since_gprmc"), none),
  (("flux", "gps_ready"), none),
  (("flux", "max_clock_change"), none),
  (("flux", "nmbr_clock_change"), none),
  (("flux", "panel_tmpr_Avg"), (some ("CFNT_stats30", ""))),
  (("flux", "batt_volt_Avg"), (some ("CFNT_stats30", ""))),
  (("flux", "slowsequence_Tot"), none)
]

/-- The ordered column lists of `table_definitions` in
`python/definitions.py` (lines 545-727), one definition per key of the
dict literal. -/
def cols_tsdata : List String := [
  "TIMESTAMP",
  "RECORD",
  "Ux",
  "Uy",
  "Uz",
  "Ts",
  "diag_sonic",
  "CO2",
  "H2O",
  "diag_irga",
  "amb_tmpr",
  "amb_press",
  "CO2_signal",
  "H2O_signal"]

def cols_stats30 : List String := [
  "TIMESTAMP",
  "RECORD",
  "L",
  "u_star",
  "tau",
  "Fc_wpl",
  "LE_wpl",
  "Hc",
  "Ts_Avg",
  "Ts_Std",
  "Tc_Avg",
  "Uz_Std",
  "wnd_spd",
  "rslt_wnd_spd",
  "rslt_wnd_dir",
  "std_wnd_dir",
  "sonic_uptime",
  "CO2_ppm_Avg",
  "CO2_mg_m3_Avg",
  "CO2_mg_m3_Std",
  "CO2_signal_Avg",
  "H2O_g_kg_Avg",
  "H2O_g_m3_Avg",
  "H2O_g_m3_Std",
  "H2O_signal_Avg",
  "amb_tmpr_Avg",
  "amb_press_Avg",
  "irga_uptime",
  "T_hmp_Avg",
  "RH_hmp_Avg",
  "e_hmp_Avg",
  "e_sat_hmp_Avg",
  "Rn_Avg",
  "Rn_meas_Avg",
  "PAR_totflx_Tot",
  "PAR_flxdens_Avg",
  "Met1_wnd_spd",
  "Met1_rslt_wnd_spd",
  "Met1_rslt_wnd_dir",
  "Met1_std_wnd_dir",
  "Rain_mm_Tot",
  "soil_5TM_ID5_E_Avg",
  "soil_5TM_ID5_T_Avg",
  "soil_5TM_ID5_VWC_Avg",
  "soil_5TM_ID6_E_Avg",
  "soil_5TM_ID6_T_Avg",
  "soil_5TM_ID6_VWC_Avg",
  "soil_5TM_ID7_E_Avg",
  "soil_5TM_ID7_T_Avg",
  "soil_5TM_ID7_VWC_Avg",
  "soil_5TM_ID8_E_Avg",
  "soil_5TM_ID8_T_Avg",
  "soil_5TM_ID8_VWC_Avg",
  "soil_5TM_ID9_E_Avg",
  "soil_5TM_ID9_T_Avg",
  "soil_5TM_ID9_VWC_Avg",
  "soil_hfp1_heat_flux_Avg",
  "soil_hfp1_sensitivity",
  "soil_hfp2_heat_flux_Avg",
  "soil_hfp2_sensitivity",
  "panel_tmpr_Avg",
  "batt_volt_Avg"]

def cols_site_daily : List String := [
  "TIMESTAMP",
  "RECORD",
  "latitude_Med",
  "longitude_Med",
  "magnetic_variation_Med",
  "nmbr_satellites_Avg",
  "altitude_Med",
  "altitude_Avg",
  "gps_ready_Min",
  "max_clock_change",
  "nmbr_clock_change",
  "batt_volt_Min",
  "batt_volt_TMn",
  "batt_volt_Max",
  "batt_volt_TMx",
  "T_hmp_Min",
  "T_hmp_TMn",
  "T_hmp_Max",
  "T_hmp_TMx"]

def cols_diagnostics : List String := [
  "TIMESTAMP",
  "RECORD",
  "total_scans",
  "scans_1hz",
  "scans_5s",
  "skipped_10hz_scans",
  "skipped_1hz_scans",
  "skipped_5s_scans",
  "watchdog_errors"]

def cols_site_info : List String := [
  "TIMESTAMP",
  "RECORD",
  "UTC_offset",
  "sonic_azimuth",
  "NRLite2_sens",
  "LI190SB_sens",
  "HFP_1_sens",
  "HFP_2_sens",
  "CompileResults",
  "CardStatus",
  "RunSig",
  "ProgSig",
  "hfp_installed"]

def cols_extra_info : List String := [
  "TIMESTAMP",
  "RECORD",
  "Decagon_NDVI_installed",
  "Decagon_PRI_installed",
  "LGR_n2oco_installed",
  "lgr_n2o_mult",
  "lgr_n2o_offset",
  "lgr_co_mult",
  "lgr_co_offset",
  "lgr_h2o_mult",
  "lgr_h2o_offset",
  "Picarro_co2ch4_installed",
  "pic_co2_mult",
  "pic_co2_offset",
  "pic_ch4_mult",
  "pic_ch4_offset",
  "pic_h2o_mult",
  "pic_h2o_offset"]

def cols_tsdata_extra : List String := [
  "TIMESTAMP",
  "RECORD",
  "lgr_n2o",
  "lgr_co",
  "lgr_h2o",
  "pic_co2",
  "pic_ch4",
  "pic_h2o"]

def cols_stats30_ui : List String := [
  "TIMESTAMP",
  "RECORD",
  "dec_ndvi_up1_Avg",
  "dec_ndvi_up2_Avg",
  "dec_ndvi_dn1_Avg",
  "dec_ndvi_dn2_Avg",
  "dec_pri_up1_Avg",
  "dec_pri_up2_Avg",
  "dec_pri_dn1_Avg",
  "dec_pri_dn2_Avg",
  "tblcalls_Tot"]

def cols_stats30_6rad : List String := [
  "TIMESTAMP",
  "RECORD",
  "dec_6rad_uplook_Avg(1)",
  "dec_6rad_uplook_Avg(2)",
  "dec_6rad_uplook_Avg(3)",
  "dec_6rad_uplook_Avg(4)",
  "dec_6rad_uplook_Avg(5)",
  "dec_6rad_uplook_Avg(6)",
  "dec_6rad_dnlook_Avg(1)",
  "dec_6rad_dnlook_Avg(2)",
  "dec_6rad_dnlook_Avg(3)",
  "dec_6rad_dnlook_Avg(4)",
  "dec_6rad_dnlook_Avg(5)",
  "dec_6rad_dnlook_Avg(6)",
  "tblcalls_Tot"]

/-- The `table_definitions` dict of `python/definitions.py`: the dict
literal's nine entries in source order, followed by the three copies the
module adds right after the literal
(`table_definitions['stats5'] = copy(table_definitions['stats30'])` and
likewise for `stats5_6rad` and `stats5_ui`). -/
def table_definitions : List (String × List String) := [
  ("tsdata", cols_tsdata),
  ("stats30", cols_stats30),
  ("site_daily", cols_site_daily),
  ("diagnostics", cols_diagnostics),
  ("site_info", cols_site_info),
  ("extra_info", cols_extra_info),
  ("tsdata_extra", cols_tsdata_extra),
  ("stats30_ui", cols_stats30_ui),
  ("stats30_6rad", cols_stats30_6rad),
  ("stats5", cols_stats30),
  ("stats5_6rad", cols_stats30_6rad),
  ("stats5_ui", cols_stats30_ui)]

/-- Python's ascending order on `(str, str)` tuples, as a Boolean: compare
first components by the string order, break ties on the second.  Lean's
`String` order is lexicographic by code point, which agrees with Python's
byte-wise comparison on the ASCII data of these tables. -/
def keyLe (a b : ColKey) : Bool :=
  decide (a.1 < b.1) || (decide (a.1 = b.1) && (decide (a.2 < b.2) || decide (a.2 = b.2)))

/-- Insert a key into a list sorted by `keyLe` (helper for `sortKeys`). -/
def insortKey (x : ColKey) : List ColKey → List ColKey
  | [] => [x]
  | y :: ys => if keyLe x y then x :: y :: ys else y :: insortKey x ys

/-- Model of Python's `sorted(col_alias)`: the dict's keys in ascending
tuple order (insertion sort; the keys are distinct, so any comparison
sort yields the same list). -/
def sortKeys : List ColKey → List ColKey
  | [] => []
  | x :: xs => insortKey x (sortKeys xs)

/-- The loop of `_verify_col_alias` (`python/definitions.py` lines
1707-1713) over the remaining sorted keys, carrying the accumulated
warning string `errs`:

```
for (st, sc) in sorted(col_alias):
    try:
        dt, dc = current_names(st, sc)
    except KeyError:
        errs = errs + ('- unable to complete lookup for table:column '
            '"%s:%s"\n' % (st, sc))
        continue
```

Only `KeyError` is caught, so any other exception raised by
`current_names` (in particular `ColumnNotFoundError`) propagates out of
the whole function (`Except.error`), and an outer `none` means a
`current_names` call did not return within the fuel. -/
def _verify_col_alias_go (tbl : AliasTable) (fuel : Nat) :
    List ColKey → String → Option (Except PyExc Bool)
  | [], errs => some (.ok (if errs = "" then true else false))
  | k :: ks, errs =>
    match definitions.current_names tbl fuel k.1 k.2 with
    | none => none
    | some (.error .keyError) =>
      _verify_col_alias_go tbl fuel ks
        (errs ++ "- unable to complete lookup for table:column \"" ++ k.1 ++ ":" ++ k.2 ++ "\"\n")
    | some (.error e) => some (.error e)
    | some (.ok _) => _verify_col_alias_go tbl fuel ks errs

/-- The offline checker `_verify_col_alias` of `python/definitions.py`
(lines 1699-1720), generalised over the dictionary it reads: run the loop
over the sorted keys with an empty warning string, then return `True`
when no warning was recorded and `False` otherwise (`if errs:`). -/
def _verify_col_alias (tbl : AliasTable) (fuel : Nat) : Option (Except PyExc Bool) :=
  _verify_col_alias_go tbl fuel (sortKeys (tbl.map Prod.fst)) ""

/-- A one-entry alias dictionary whose only value points at an absent key:
the smallest dictionary on which `current_names` raises
`ColumnNotFoundError` for a present key. -/
def missing_link_table : AliasTable := [(("a", "b"), some ("c", "d"))]

/-- A one-entry alias dictionary whose only entry maps a key to itself:
the stored value, after blank substitution, equals the key, yet it is not
the `('', '')` sentinel, so `current_names` recurses on the same pair
forever. -/
def self_alias_table : AliasTable := [(("a", "b"), some ("a", "b"))]

/-! ## An injective `Nat` encoding of the tables

Kernel evaluation over the 765-entry string table is far too slow for
bulk facts, so strings are encoded injectively into `Nat` (one base-2097152
digit per character; every Unicode scalar value is below 1114112, so each
digit `c.toNat + 1` lies in `[1, 2097152)`), keys are paired into a single
`Nat` with `Nat.pair`, and the resolver is mirrored on the encoded table.
The mirror is proved to agree with the source embedding everywhere, so
every evaluated fact transfers back to `col_alias` and `current_names`.
All encoded-side functions recurse through bare recursors, which the
kernel unfolds cheaply. -/

/-- The code of a character list: `listCode [] = 0` and
`listCode (c :: cs) = listCode cs * 2097152 + (c.toNat + 1)`. -/
def listCode (l : List Char) : Nat :=
  List.rec (motive := fun _ => Nat) 0 (fun c _ ih => ih * 2097152 + (c.toNat + 1)) l

/-- The injective code of a string. -/
def strCode (s : String) : Nat := listCode s.data

/-- The code of an alias key: both components' codes in one `Nat`. -/
def keyCode (k : ColKey) : Nat := Nat.pair (strCode k.1) (strCode k.2)

/-- The code of an alias value (componentwise; `strCode "" = 0`, so the
canonical sentinel `("", "")` encodes to `(0, 0)`). -/
def encVal (v : ColVal) : Option (Nat × Nat) :=
  Option.map (fun p => (strCode p.1, strCode p.2)) v

/-- The code of a resolver result. -/
def encRes (r : CNResult) : Except PyExc (Option (Nat × Nat)) :=
  Except.map (Option.map (fun p => (strCode p.1, strCode p.2))) r

/-- An encoded alias dictionary: `Nat.pair`-packed key codes to encoded
values. -/
abbrev PTable := List (Nat × Option (Nat × Nat))

/-- `List.map` through the bare recursor (kernel-friendly). -/
def mapP {α β : Type} (f : α → β) (l : List α) : List β :=
  List.rec (motive := fun _ => List β) [] (fun x _ ih => f x :: ih) l

/-- `List.append` through the bare recursor (kernel-friendly). -/
def appendP {α : Type} (xs ys : List α) : List α :=
  List.rec (motive := fun _ => List α) ys (fun x _ ih => x :: ih) xs

/-- `List.all` through the bare recursor (kernel-friendly). -/
def allP {α : Type} (p : α → Bool) (l : List α) : Bool :=
  List.rec (motive := fun _ => Bool) true (fun x _ ih => p x && ih) l

/-- One encoded dictionary entry. -/
def encEntry (e : ColKey × ColVal) : Nat × Option (Nat × Nat) :=
  (keyCode e.1, encVal e.2)

/-- The encoded image of an alias dictionary. -/
def encTable (tbl : AliasTable) : PTable := mapP encEntry tbl

/-- The encoded keys of an alias dictionary, kept as component pairs (the
resolver takes the two names separately). -/
def encKeys (tbl : AliasTable) : List (Nat × Nat) :=
  mapP (fun e => (strCode e.1.1, strCode e.1.2)) tbl

/-- Lookup in an encoded dictionary (mirrors `dictGet`). -/
def pget (tbl : PTable) (k : Nat) : Option (Option (Nat × Nat)) :=
  List.rec (motive := fun _ => Option (Option (Nat × Nat)))
    none (fun e _ ih => cond (Nat.beq e.1 k) (some e.2) ih) tbl

/-- The resolver on an encoded dictionary (mirrors
`definitions.current_names`; `0` is the code of `""`). -/
def cnP (tbl : PTable) (n : Nat) : Nat → Nat → Option (Except PyExc (Option (Nat × Nat))) :=
  Nat.rec (motive := fun _ => Nat → Nat → Option (Except PyExc (Option (Nat × Nat))))
    (fun _ _ => none)
    (fun _ ih t c =>
      match pget tbl (Nat.pair t c) with
      | none => some (.error .columnNotFoundError)
      | some none => some (.ok none)
      | some (some (tb, co)) =>
        cond (Nat.beq tb 0 && Nat.beq co 0) (some (.ok (some (t, c))))
          (cond (Nat.beq tb 0) (ih t co)
            (cond (Nat.beq co 0) (ih tb c) (ih tb co))))
    n

/-- The encoded image of `col_alias`, written out as literals (one chunk
of at most 96 entries per definition to keep elaboration cheap);
`ptab_eq` below proves it equal to `encTable col_alias`. -/
def ptab_0 : PTable := [
  (6917522056751960185861847614305453578460379991128371559912025695609064011914004250422456573923951570116308023023514969, (some (0, 0))),
  (6917522056751960185861847614305453578460379991128371559912025695578758300046640028967772892303151803273398411142903127, (some (0, 0))),
  (48190831610573083195441331146716820367303988827911990670184386816415276100905845757631679802260824063979522171616236744787315332012465766088305748901325803778817225733736734639924120589130803277, (some (0, 0))),
  (48190831610573083195441331194628478854827616209411779840392468916664358296506744700058654634092191328193019545906697776247504655062294352545444122738195693755665794025956090924979194807466338381, (some (0, 0))),
  (48190831610573083195441331146716774675000637401033737301212267758774610341245703341704901350251120518452777033033490117460116690342008181731746450050050079734444100374300100494865089587748808781, (some (0, 0))),
  (48190831610573083195441331194628433162524264782533526471420327145221497000693667436878440148482913405283089978866229692629124288588988376393047217151586014397192385408704318410406887878899542093, (some (0, 0))),
  (10957326505961892324976663791566538831672002931534732549648575142984559455888229716675456941446350507097974993326837534285032973515240355345358820767143047498809339955938865667123277, (some (0, 0))),
  (10957326505961892324976663802460388718561174803065064188646771178613812901929254675730593158687340566098208175967310710064540020110670601245833176444871160678759733141155009146136653, (some (0, 0))),
  (10957326505961892324976663791566528442445050450495213522391973881723823500817966050562201726603040636732676281589675837697910838781980290373897643637080153090681684732586946971314253, (some (0, 0))),
  (10957326505961892324976663802460378329334222322025545161390164752832388457249977130697470697767080741487375194295688583616357273211160962900874846886787877047061594677280623835490381, (some (0, 0))),
  (163015956564440528324408002899178397922048246346568449386325759784972199340789375874744053500893824878244933711849779469445094857203994337490413, (some (0, 0))),
  (1572862415003319298633096571911678107443183841834431049060974614046373764568951433586200006449382207534425, (some (0, 0))),
  (1572862415003319298633096571911678107443183841834431018755262746682152309885269812786433163539770326922583, (some (0, 0))),
  (48190831610573083195441331146716820367303988827911990670184386816415276100905845757631679802260824063979522171616236744787315332012465682916703265298700737574101928635926263579597543153235667021, (some (0, 0))),
  (48190831610573083195441331194628478854827616209411779840392468916664358296506744700058654634092191328193019545906697776247504655062294269373841639135570627550950496928145619864652617371571202125, (some (0, 0))),
  (48190831610573083195441331146716774675000637401033737301212267758774610341245703341704901350251120518452777033033490117460116690342008098560143966447425013529728803276489629434538512151853672525, (some (0, 0))),
  (48190831610573083195441331194628433162524264782533526471420327145221497000693667436878440148482913405283089978866229692629124288588988293221444733548960948192477088310893847350080310443004405837, (some (0, 0))),
  (10957326505961892324976663791566538831672002931534732549648575142984559455888229716675456941446350507097974993326837534284949801912756752720292616051845949688338279629361429771987021, (some (0, 0))),
  (10957326505961892324976663802460388718561174803065064188646771178613812901929254675730593158687340566098208175967310710064456848508186998620766971729574062868288672814577573251000397, (some (0, 0))),
  (10957326505961892324976663791566528442445050450495213522391973881723823500817966050562201726603040636732676281589675837697827667179496687748831438921783055280210624406009511076177997, (some (0, 0))),
  (10957326505961892324976663802460378329334222322025545161390164752832388457249977130697470697767080741487375194295688583616274101608677360275808642171490779236590534350703187940354125, (some (0, 0))),
  (163015956564440528324408002899178397922048246346568449386325759784972199340789375874660881898410222253178728996552681658974034530626558442354157, (some (0, 0))),
  (36434642653426215370828641556627141186962258024107145875603701986995373485068214102037985508196101454807849529442880609070593616019, (some (0, 0))),
  (36434642653426215370828641556627141186962258024107145875603701986995373485068183796326118143974646771126228729676037699458713004177, (some (0, 0))),
  (36434645948377346088930664455978068845575939884338427342123240686095071186891168019146727339391743159921704775514435522348131038686, (some (0, 0))),
  (36434642653426215370828641556627141186962258024107145875603701986995373485068229816108407049666031573955619006945851924464523028658, (some (0, 0))),
  (36434642653426215370828641556627141186962258024107145875603701986995373485068183796346813240112696238085000043297496661704904288434, (some (0, 0))),
  (1159666946591471483350060609755152154629345977760962725157709356104838315383030974999813259577086770804713553397345113141019516337062338917074685012900324537390030370451003243608820357955767637986651503971671007639385333, (some (0, 0))),
  (263677735936533163874187405270993657411360340520551012241140491711112012868693335840934797641526441013447388804289544444952107703880233900570373420853232296353623318557128268237512618081462782852196703679733, (some (0, 0))),
  (59953375952439538167297406578425956788802582142797357245599060307022047696258994163831867014926993038560460188362936890981028859271192976659109747881732574324877554079178070910172948636484252917, (some (0, 0))),
  (13631819893823370365221126725710129825688996521016358929011151254376994958898493901277198524677480940213477568820722492894784326283962610169930917523920538994022530344017238886987941, (some (0, 0))),
  (114369608419538488793284513145885148021935210534624978984280930629730557551069122719300853680386365860116971539351565672266344555867916082361923, (some (0, 0))),
  (114369608419538488793284513145885148021935210534624978984280930629730557551069122719300853650080653992752750084667884051466577712958304201750081, (some (0, 0))),
  (114369608419538488793284513145885148021935210534624978984280930629730557551069122719300853650080653992762277990211504124311006828217460867479131, (some (0, 0))),
  (114369608419538488793284513145885148021935210534624978984280930629730557551069122719300853650080653992752750086412171606208591878756201266165339, (some (0, 0))),
  (114369608419538488793284513145885148021935210534624978984280930629730557551069122719300853650080653992762277990211504008254128145213060095686235, (some (0, 0))),
  (114369608419538488793284513145885148021935210534624978984280930629730557551069122719300853650080653992757088686590413571617749904934985617389151, (some (0, 0))),
  (114369608419538488793284513145885148021935210534624978984280930629730557551069122719300853650080653992757258827489920306398358206303439983490655, (some (0, 0))),
  (114369608419538488793284513145885148021935210534624978984280930629730557551069122719300853650080653992762277990211504008254128145147089402213983, (some (0, 0))),
  (7722799987695092302530376059563853861197968944406941685584195789971471858928114905823768166787564500477639672383678815, (some (0, 0))),
  (7722799987695092302530376059563853861197968944406941685584195789941166147060750684369084485166764733634730060503066973, (some (0, 0))),
  (328926861723754500969102518925567294036985059608039272103726193879196138490114397061417275243629136349676320916200866294612963767219916985048436121234741380823837433676263687354919067559049915059329503016062627858671246552220408074889672869429957185291906614900717261567, (some (0, 0))),
  (74789309502137826022840845081547580329466895729646983478170612643042689101154752856534049928741879303200383693853408451682747235026187390679893605336331494148124938817499733640261307239497808299549039487681448769286331653211096243085472050572519007833821951, (some (0, 0))),
  (3866516677899771261070528158753351782435234940000510783535697917686097663550827579649227649737108589929741254166794848497601830941330668913987599461061157620854712700903833710224510126563592206316040145611804123269391348636839843727, (some (0, 0))),
  (163015952578203513328715365437446840992452683943832767550843665717547917857557414012672631524409341403155905529654692299060297974525631693598415, (some (0, 0))),
  (3153186925381108324035740847428723959692213019109510372085474758196699027747429067997163792207925190855132541358841034184663600590024887934531633722575541531211215154895, (some (0, 0))),
  (37065536293585754112590476651677554626543892822706865539797964643911341156199658500988076262821853810926978105450031640808544808655, (some (0, 0))),
  (716951700583446910067264263359157657690096361673003555370781092205892569814369072163876318480056164404806041135276150929581719503016559783854162528822111951, (some (0, 0))),
  (163015952578203513328715365437446840992452683850116294717869478732233853922675818138053982644515934771141295284791067300784892753952547624988367, (some (0, 0))),
  (3153186925381108324035740847428723959692213019109510372085062588802081654323857039209142478933055325874885079761991810041025585413711613938433879940028063967072466513615, (some (0, 0))),
  (6362370814442523318383556112017762883010779412760981729332047117009762093629908323523798675882226470702698488862964825313244604853346366434879986420813494500640192049165969564891545486231391407741055205799510023474492721661929360277152355996626349998565965109755385969941636991525466378686437895, (some (0, 0))),
  (163015952578203513328715365437442650605485993916064194169548568271421814398878606243032079336915974591266089861690854083204082460929598500647495, (some (0, 0))),
  (3153186925381108324035740847428723959692213000679994118829065774467504271872212452773769204639973425911776413689408598268485928199709634754221213748441629163205840351815, (some (0, 0))),
  (163015952578203513328715365437442787995058825291197806590814030186439772378184236170410006253024138760651571967101084915162099122929417150542407, (some (0, 0))),
  (3153186925381108324035740847428723959692213001284239833043812797939707017257071598932932758369798331397923461278226762608786358122506709583003683213565585691616607220295, (some (0, 0))),
  (163015952578203513328715365437446840992452683850116294717816207088426754399127941265965853045333502455330893331784977777893170625143502029206087, (some (0, 0))),
  (3153186925381108324035740847428723959692213019109510372085062588802081420032696536644857969304615070477845306915969304635229325324049127121895556289642308393609650516551, (some (0, 0))),
  (34574462988644547228171265357459754488743997487692078057069002039107278991731606434109289464587839634283405650728668093937096865113, none),
  (34574462988644547228171265357459754488743997487692078057069002039107278991731576128397422100366384950601784850961825184325216253271, none),
  (1533850901878352423528083210224215642952214255134133597488507904687867092705461611389045613741034604471836093132035104837550800501332702216579369650843760685532088277863781137635597553940241292715173044240150385244255872268989633235709162884281515119019323547852291014809305210696964, (some (4168461104154338724600402742622361223284, 0))),
  (109123029958911434353690295664421110770020184750887009699644473465704573045897306236490204238804008953622074058399221166684715732995233770839413125445281104829767966632462680315917070994363841852839769893396386760081858966941682018579913966473832921881916676, (some (4168461104154338724600402742622361223284, 0))),
  (1533850901878352423528083210224215642952214255134133597488507904687867092705461611389045614667780860569847383196375262403816275507538846934955289975512045079228936527581873462506194577623284648297351803640737900365161127718019545880769262396371365511309852375072035267815769662043396, (some (4168461104154338724600402742622361223284, 0))),
  (109123029958911434353690295664421110770020184750887009699644473465704573045897553424542403866211148676526244582808638820547247148333872925626041355747454762581106408926974741009271537984619860762477967945483502803864515038609878649503347306711441991928919300, (some (4168461104154338724600402742622361223284, 0))),
  (60991510382078255072308650750968437330392663131688656767696554358657433396769484099689766577562303339346956042301975776814837953812061679393348741515913141290585086787887852799569825236971957125, none),
  (60991510382078255072308650750968437330392663131688656767696554358657433396769628163340681360991891266536997170243713274263496755356782892162387959328872878330256989499790835904200480131580439429, none),
  (163015956564440528324408002899178397922048246346568449386325759784972199340789561816756676879161940935438879359641276520412083179021935214343661, none),
  (7861322726204104407809442253811257870378225967754449645117498404295061559422020456990515480985414152851309477993919833, none),
  (7861322726204104407809442253811257870378225967754449645117498404264755847554656235535831799364614386008399866113307991, none),
  (1533850901878352423528083210224215642952214255134133597488507904687867092705461611389045613741034604471836093132035104837550800501332702216579369650843760685532088277863781137635597553940241292715173044240150385244255686326982502315847345491062911193168300303300882422541630111233284, (some (2190502480961780745497372205777012, 0))),
  (109123029958911434353690295664421110770020184750887009699644473465704573045897306236490204238804008953622074058399221166684715732995233770839413125445281104829767966632462680315917070994363841666897762762476524942688640363015830995335362557881565246782452996, (some (2190502480961780745497372205777012, 0))),
  (1533850901878352423528083210224215642952214255134133597488507904687867092705461611389045614667780860569847383196375262403816275507538846934955289975512045079228936527581873462506194577623284648297351803640737900365160941776012414960907445003152761585458829130520626675548094562579716, (some (2190502480961780745497372205777012, 0))),
  (109123029958911434353690295664421110770020184750887009699644473465704573045897553424542403866211148676526244582808638820547247148333872925626041355747454762581106408926974741009271537984619860576535960814563640986471296434684027626258795898119174316829455620, (some (2190502480961780745497372205777012, 0))),
  (60991510382078255072308650750968437330392663131688656767696554358657433396769484099689766577562303339346956042301975776814837953626119672262428879698519922686659235764643301390977557561872493445, none),
  (60991510382078255072308650750968437330392663131688656767696554358657433396769628163340681360991891266536997170243713274263496755170840885031468097511479659726331138476546284495608212456480975749, none),
  (163015956564440528324408002899178397922048246346568449386325759784972199340789375874749545959300123542220275433790253275860674586754260114879981, none),
  (1755961417915180459779179741318300207214956570075625053822883185320040213057365025363344552432071298004313, (some (0, 0))),
  (1755961417915180459779179741318300207214956570075625023517171317955818758373683404563577709522459417392471, (some (0, 0))),
  (8427726738482739735157375744604744366430606527198060576596873299650112500955529103083404358542615698489453874604154200, (some (0, 0))),
  (577426716844232585343294903100732060487875271601250086905789417388032175994889714309102899942197403538291720239530498970737166641350922544437158069554656516, (some (0, 0))),
  (160241267496572988994341720055529027461357486443668499384502636864263804557490664122755504123947650133356022557634265935051291193118411901114581, (some (0, 0))),
  (160241267496572988994341720055530117185028542355438159926130914164285240183500955278870835066545667152449025656840174551070537336717616586168221, (some (0, 0))),
  (8284279362755550532567877808265952396267917180164537572172150133615532228197397004538709767973814556094605813344113989, (some (0, 0))),
  (8284279362755550532567877808265955917356890955240624885038203753978130841113482148218047180452774930220388270099928389, (some (0, 0))),
  (3099517043203034804804029023097123758306519165479796959732681738588345295786028448285044614916692406717956161533467478374923263572854114520157259748347275395720854639236, (some (0, 0))),
  (8284279839510406374616669536253027651196840178944464016039877838249996077833114490978002181709442820826733893631611524, (some (0, 0))),
  (1755961417915180459779179741318300207214956570075625023517171317955818759793452521703933151059566819030359, (some (0, 0))),
  (1755961417915180459779179741318300207214956570075625023517171317964666101414526134626883535644247436834133, (some (0, 0))),
  (1401416702567532486349985610970735568239352783253346214551924114455299288127485068199672422004716800952008302821049487508608160530357213030075442863214030347177759349764, none),
  (4823208409409105714500522989840446387536720103219288373651377295068133159491751808275204682493810107833683886408634690814194928525874790236235851002424247480718667509338773838109700, (some (0, 29650364385899651594916968822679465593189521073577169889933930162895322851414719616170585296774113892522524741))),
  (879144108216626423443478451816497859553063549356127346876678056372446041311251518637952172881321207379009452037212875012197684771263571979574847895112974406155110838144041590951614292362576818702311044006226619797607181, none),
  (28515276975281819161621997956168608201084519893995986455761395505403209612288020923927377690199945297077217748900746268703410209045483711769298340258411135671503578771152752129201388472477162500, (some (0, 130403681640368258189273723831152566081030382941098756515330201250623580696266327253764782511073415821281691024651674714189))),
  (17005120185362517536950882704683767844805264696707805223507105592317019605823578792786588629761524756390512513243825733525008449221014387216623696582327864776304998974062020118786832837058894733084232880320094106813010864191679301775885678417821, (some (87879462832308506905702980930648091385855742787313125556326, 62181320972618226141583311000419886627688590498494508989014721513091841076025572654705472359266320763248427738857549))),
  (55043925181532700643930350800116460427449477612536842869384103161387164092500990638437591551712756220576807719881185480241015242554557669678180407348400587737784849923618356147093296741872818443371742764036, (some (0, 273476341759461573398151768479949266261965029645691139423637762116062978545575245437241748258323707223291343097934530970982023249))),
  (74789309502137826022840845081547580329466895729646983478170612624142422741913669802856136786253800944878381001223610586339263861647903796475333291338888629142706202318013186913869485032253390797564545956066228072406133981140394207988246871755003292417006101, (some (87879462832308506905702980930648091385855742787313125556326, 2522374043325557875493402423528266772748404070712056941136097289914196085144196192490825221884433184790721529391541210262587842834572107211924832337))),
  (1065113696937449499088518325650673897284890917155256412243728660857170354393153938566074981786687825253849080092883376156461209397285391642549835129562018999762658794500, (some (0, 730937915299801530012318561309303762365292665005370972726134769824428644630633))),
  (534270236022819835611909064436171471385892867184112040568822522377480419582389908531488422568012286512578805836115719829384080350814477030946145071842470789, (some (0, 0)))
]

def ptab_1 : PTable := [
  (121478982656263295353185789450801295487296418939906010802165943066310649624658112390898946242564280188700473184474051382134363123490040013927769, (some (0, 0))),
  (121478982656263295353185789450801295487296418939906010802165943066310649624658112390898946212258568321336251729790369761334596280580428133315927, (some (0, 0))),
  (152025338100074270446748587848841760266581831455903873991459324063923805714032375156633379376502064311743844346002562949825137182937910765088203566412581221230864999144945602742882654464277581140286040193940946570717261, (some (0, 238494091793811355390939016445315705723515743082617507855182461754919470035634487359924164521029996970926016298708595978706991957672037))),
  (152025341552040434987492406496393154912477448344829634580499912331170218140474121516561222232822884237418994665092706955285404926848809089187339330842415359614414993279581766492728476920429005495574471915820548970522701, (some (0, 238494094501496603555797277752360807425745922219763089276878335944840935479600608263855437021005002931999823034442200433202667571904613))),
  (152025345004006638719302710402684045141176276446872231347394761573344320434240272807051995621545669078388615455240528430766390471751076549109071125088846178339736013756437416741583365663595794852897194400860121350547533, (some (0, 238494097209181851720655539059405909127976101356908670698574210134762400923566729167786709520980008893073629770175804887698343186137189))),
  (152025348455972881642179499567714430952678315762031664292143871790446112595330829028105699542670418834652706716446027376268093817644713144853398949151873677406828060575512553489447320693777949212254207649059663710791757, (some (0, 238494099916867099885513800366451010830206280494054252120270084324683866367532850071717982020955014854147436505909409342194018800369765))),
  (152025351907939163756122773991484312346983566290307933414747242982475594623745790179722333996197133506211268448709203791790514964529718876420322803031497856815691133736807176736320342010975468573645511660419176051255373, (some (0, 238494102624552348050372061673496112532436459631199833541965958514605331811498970975649254520930020815221243241643013796689694414602341))),
  (152025355359905485061132533673993689324092028031701038715204875149432766519485156261901898982125813093064300652030057677333653912406093743809842686727718716566325233240321286482202429615188352937071106434938658371938381, (some (0, 238494105332237596215230322980541214234666638768345414963661832704526797255465091879580527020905026776295049977376618251185370028834917))),
  (152025338100074270446748587848841760266581831374748211007231298169334174263453401204485397594769688320021143979145064305545510566660186152952157675393326405461094518583912467520124692506216021315657218926879708377262157, (some (0, 238494091793811355390939016445315705723515743082617507855182461754919466744612033876324383514468480803700690042102647206227779187114085))),
  (152025341552040434987492406496393154912477448263673970674890606864206856438611911036289455476666343844660489881057756451979644853558600310819406253301793168262934365780072344450145432435663023507767701336183386654386253, (some (0, 238494094501496603555797277752360807425745922219763089276878335944840932188578154780255656014443486764774496777836251660723454801346661))),
  (152025345004006638719302710402684045141176276365716566520404176534007228481094825798656443890964964284594306254028126068434496941448383604509250861026856611406545239318451707879175238652125390701912474508647034911729741, (some (0, 238494097209181851720655539059405909127976101356908670698574210134762397632544275684186928514418492725848303513569856115219130415579237))),
  (152025348455972881642179499567714430952678315680875998543772007178735290390902145491586362837665549639822593098056173154910066830329536034021691498568516734891927139199050557807214111155603122898091538444270653149292621, (some (0, 238494099916867099885513800366451010830206280494054252120270084324683863076510396588118201014393498686922110249303460569714806029811813))),
  (152025351907939163756122773991484312346983566209152266744994098798391042168033870115079212316768099910345350413141897711406354520202057599356728165926773538719080065421868894234262049946096220096304893143054241367074893, (some (0, 238494102624552348050372061673496112532436459631199833541965958514605328520476517492049473514368504647995916985037065024210481644044389))),
  (152025355359905485061132533673993689324092027950545371124070451392974483812489999669134992328272615096162578199285299737923360011065948300514360863101627022888004017986906717160319055023604682296552538604997799565076557, (some (0, 238494105332237596215230322980541214234666638768345414963661832704526793964442638395980746014343510609069723720770669478706157258276965))),
  (56879431820554916889016368674718926775586771046918199441802866511742097437416386390041145722705414415147702608002599425040612853991401379505756671140039090294882122508397560998889763375760521278465817729899302162813084577395540572623427621298483203070510845105572685901, (some (0, 0))),
  (56879433112088792469732943788431797064046946253626148955635956310581951231994379174152645480458010880863058500042299613990574942766775431122697050015596793013995054658980943520158106204392865551651268807771435770195486176675199260645662541366405403619768968669491636301, (some (0, 0))),
  (56879434403622682713568325161324804014924495501851405718999502260795900100594619541528915978897536931363958494291728022772605751670006160830830136512723366360961320090629091744018094718381806185438965762880702815038371990608424656344340908083970415232726090748249778253, (some (0, 0))),
  (56879435695156587620522512793397947628219418791593969731893504362383944043217107492169957218023992566650402590750884651386705280701093568630155930631418810335780918803342005670469728917727343179828908595227103297341742019195216759719462721451178237909382211341847111757, (some (0, 0))),
  (56879436986690507190595506684651227903931716122853840994317962615346083059861843026075769197837377786722390789419769499832873529860037654520674432371683124938453850797119685299513008802429476534821097304810637217105596262435575570771027981468028871649737330450283636813, (some (0, 0))),
  (56879438278224441423787306835084644842061387495631019506272877019682317150528826143246351918337692591579923090298382568111110499146838418502385641733516310168980116071962130631147934372488206250415531891631304574329934720329501089499036688134522316453791448073559353421, (some (0, 0))),
  (56879431820554916889016368674718926775586771046918199441802866511742095867637564156817330521127719741679050274375882728660891795934873198044003719490766545906791586411092809299930573081865110660040529366417947726373685197303503101547729404930537667398572834151926343757, (some (0, 0))),
  (56879433112088792469732943788431797064046946253626148955635956310581949662215539118822932925157163064896037403561459320120172781012142083135046651527447455588787574827230883031097347738006734269942898928450128671030637937565186907558535585779902095329256218700216805453, (some (0, 0))),
  (56879434403622682713568325161324804014924495501851405718999502260795898530815761664093306069873535972898568634956764131411522486217267646317282291185697235898636896524433722464855768079504954240447514367719443053148074892480437421245785213278909334323638601763346458701, (some (0, 0))),
  (56879435695156587620522512793397947628219418791593969731893504362383942473438231792628449955276838465686643968561797162534940911550249887590710638465515886836339551502701327601205834106359770571554375684225890872725996062049254642609478287427559384381719983341315303501, (some (0, 0))),
  (56879436986690507190595506684651227903931716122853840994317962615346081490082949504428364581367070543260263404376558413490428057011088806955331693366903408401895539762033698440147545818571183263263482877969472129764401446271638571649614808225852245503500363434123339853, (some (0, 0))),
  (56879438278224441423787306835084644842061387495631019506272877019682315580749914799493049948144232205619426942401047884277983922599784404411145455889859800595304861302430834981680903216139192315574835948950186824263291045147589208366194775673787917688979742041770567757, (some (0, 0))),
  (163015956564440528324408002899178397922048246346568449386325759784972199689327727647121203960422338719201122679292350514834350592602217788749293, (some (0, 0))),
  (27621122775659226898184394815598714556641514987186799001363882732887481777918212684322817272116766957795251902607628695141548569945, (some (0, 0))),
  (27621122775659226898184394815598714556641514987186799001363882732887481777918182378610949907895312274113631102840785785529667958103, (some (0, 0))),
  (152025338100074270446748587848841760266581831455903873991459324063923805714032375156633379376502064311743844346002562949825137182937910765088203566064043035654441861024369519300939507758480435974921713640239239421503565, (some (0, 238494091793811355390939016445315705723515743082617507855182461754919470035634487359924164521029996970926016298708595978706991957672037))),
  (152025341552040434987492406496393154912477448344829634580499912331170218140474121516561222232822884237418994665092706955285404926848809089187339330493877174037991855159005683050785330214631860330210145362118841821309005, (some (0, 238494094501496603555797277752360807425745922219763089276878335944840935479600608263855437021005002931999823034442200433202667571904613))),
  (152025345004006638719302710402684045141176276446872231347394761573344320434240272807051995621545669078388615455240528430766390471751076549109071124740307992763312875635861333299640218957798649687532867847158414201333837, (some (0, 238494097209181851720655539059405909127976101356908670698574210134762400923566729167786709520980008893073629770175804887698343186137189))),
  (152025348455972881642179499567714430952678315762031664292143871790446112595330829028105699542670418834652706716446027376268093817644713144853398948803335491830404922454936470047504173987980804046889881095357956561578061, (some (0, 238494099916867099885513800366451010830206280494054252120270084324683866367532850071717982020955014854147436505909409342194018800369765))),
  (152025351907939163756122773991484312346983566290307933414747242982475594623745790179722333996197133506211268448709203791790514964529718876420322802682959671239267995616231093294377195305178323408281185106717468902041677, (some (0, 238494102624552348050372061673496112532436459631199833541965958514605331811498970975649254520930020815221243241643013796689694414602341))),
  (152025355359905485061132533673993689324092028031701038715204875149432766519485156261901898982125813093064300652030057677333653912406093743809842686379180530989902095119745203040259282909391207771706779881236951222724685, (some (0, 238494105332237596215230322980541214234666638768345414963661832704526797255465091879580527020905026776295049977376618251185370028834917))),
  (152025338100074270446748587848841760266581831374748211007231298169334174263453401204485397594769688320021143979145064305545510566660186152952157675044788219884671380463336384078181545800418876150292892373178001228048461, (some (0, 238494091793811355390939016445315705723515743082617507855182461754919466744612033876324383514468480803700690042102647206227779187114085))),
  (152025341552040434987492406496393154912477448263673970674890606864206856438611911036289455476666343844660489881057756451979644853558600310819406252953254982686511227659496261008202285729865878342403374782481679505172557, (some (0, 238494094501496603555797277752360807425745922219763089276878335944840932188578154780255656014443486764774496777836251660723454801346661))),
  (152025345004006638719302710402684045141176276365716566520404176534007228481094825798656443890964964284594306254028126068434496941448383604509250860678318425830122101197875624437232091946328245536548147954945327762516045, (some (0, 238494097209181851720655539059405909127976101356908670698574210134762397632544275684186928514418492725848303513569856115219130415579237))),
  (152025348455972881642179499567714430952678315680875998543772007178735290390902145491586362837665549639822593098056173154910066830329536034021691498219978549315504001078474474365270964449805977732727211890568946000078925, (some (0, 238494099916867099885513800366451010830206280494054252120270084324683863076510396588118201014393498686922110249303460569714806029811813))),
  (152025351907939163756122773991484312346983566209152266744994098798391042168033870115079212316768099910345350413141897711406354520202057599356728165578235353142656927301292810792318903240299074930940566589352534217861197, (some (0, 238494102624552348050372061673496112532436459631199833541965958514605328520476517492049473514368504647995916985037065024210481644044389))),
  (152025355359905485061132533673993689324092027950545371124070451392974483812489999669134992328272615096162578199285299737923360011065948300514360862753088837311580879866330633718375908317807537131188212051296092415862861, (some (0, 238494105332237596215230322980541214234666638768345414963661832704526793964442638395980746014343510609069723720770669478706157258276965))),
  (56879431820554916889016368674718926775586771046918199441802866511742097437416386390041145722705414415147702608002599425040612853991401379505756671140039090294882122508397560998889763375760521278465469191713725739674964001312098629476721824153317838743957143398423472205, (some (0, 0))),
  (56879433112088792469732943788431797064046946253626148955635956310581951231994379174152645480458010880863058500042299613990574942766775431122697050015596793013995054658980943520158106204392865551650920269585859347057365600591757317498956744221240039293215266962342422605, (some (0, 0))),
  (56879434403622682713568325161324804014924495501851405718999502260795900100594619541528915978897536931363958494291728022772605751670006160830830136512723366360961320090629091744018094718381806185438617224695126391900251414524982713197635110938805050906172389041100564557, (some (0, 0))),
  (56879435695156587620522512793397947628219418791593969731893504362383944043217107492169957218023992566650402590750884651386705280701093568630155930631418810335780918803342005670469728917727343179828560057041526874203621443111774816572756924306012873582828509634697898061, (some (0, 0))),
  (56879436986690507190595506684651227903931716122853840994317962615346083059861843026075769197837377786722390789419769499832873529860037654520674432371683124938453850797119685299513008802429476534820748766625060793967475686352133627624322184322863507323183628743134423117, (some (0, 0))),
  (56879438278224441423787306835084644842061387495631019506272877019682317150528826143246351918337692591579923090298382568111110499146838418502385641733516310168980116071962130631147934372488206250415183353445728151191814144246059146352330890989356952127237746366410139725, (some (0, 0))),
  (56879431820554916889016368674718926775586771046918199441802866511742095867637564156817330521127719741679050274375882728660891795934873198044003719490766545906791586411092809299930573081865110660040180828232371303235564621220061158401023607785372303072019132444777130061, (some (0, 0))),
  (56879433112088792469732943788431797064046946253626148955635956310581949662215539118822932925157163064896037403561459320120172781012142083135046651527447455588787574827230883031097347738006734269942550390264552247892517361481744964411829788634736731002702516993067591757, (some (0, 0))),
  (56879434403622682713568325161324804014924495501851405718999502260795898530815761664093306069873535972898568634956764131411522486217267646317282291185697235898636896524433722464855768079504954240447165829533866630009954316396995478099079416133743969997084900056197245005, (some (0, 0))),
  (56879435695156587620522512793397947628219418791593969731893504362383942473438231792628449955276838465686643968561797162534940911550249887590710638465515886836339551502701327601205834106359770571554027146040314449587875485965812699462772490282394020055166281634166089805, (some (0, 0))),
  (56879436986690507190595506684651227903931716122853840994317962615346081490082949504428364581367070543260263404376558413490428057011088806955331693366903408401895539762033698440147545818571183263263134339783895706626280870188196628502909011080686881176946661726974126157, (some (0, 0))),
  (56879438278224441423787306835084644842061387495631019506272877019682315580749914799493049948144232205619426942401047884277983922599784404411145455889859800595304861302430834981680903216139192315574487410764610401125170469064147265219488978528622553362426040334621354061, (some (0, 0))),
  (163015956564440528324408002899178397922048246346568449386325759784972199340789542070698065839846255277257975973495205349470024038900510639535597, (some (0, 0))),
  (918436171787700606781628969983420332807121779929437592982414245097639202961292362204674812919719575690414, (some (0, 0))),
  (15803443761837295551356666579662687762762780028056155655467855525441, (some (0, 0))),
  (15803443761837295551356666579662684963788649269899318861187730388548, (some (0, 0))),
  (15803443761837295551356666579662684963788649269899318861187732485700, (some (0, 0))),
  (15803443761837295551356666579662684963788649269899318861187734582852, (some (0, 0))),
  (15803443761837295551356666579662684963788649269899318861187719902787, (some (0, 0))),
  (6156569691829162237217564267133194645776779725643894274315970488744632978955358147399509083003270604300081373837797454, (some (0, 0))),
  (15803443761837295551356666579662684963788649269899319085488016471602, (some (0, 0))),
  (15803443761837295551356666579662684963788649269899319213031304476215, (some (0, 0))),
  (1344408142117030537373099129753812367805147396976278340286083809310115557323749770962430834609894669166670, (some (0, 0))),
  (420934781750366645810373247512315870227301300092521857350786203113379568316235881242427401721, (some (0, 0))),
  (1883627124537812032194538670877585618888334801657961642651641595507684518562376164962767570109754494690809, (some (0, 0))),
  (7314619328340242908740119918521243561357934199716800037412755233299512522646945864018569070508404562821616993323455109, (some (0, 0))),
  (7314619328340242908740119918521243561357934221533219189787266666616086653672147917044372242280620093319388475414287686, (some (0, 0))),
  (918436171787700606781628969983420332807121779929437592982414245101807660090092155503509603079050925972653, (some (0, 0))),
  (17376067976847608756699313992623750402523949498461045103050466421240459643860311, (some (0, 0))),
  (17376067976847608756699313992623750402523949495662070972292309584446179264968017, (some (0, 0))),
  (17376067976847608756699313992623750402523949500327027076728958072731078605419898, (some (0, 0))),
  (17376067976847608756699313992623750402523949495662070972292309584965148958799225, (some (0, 0))),
  (17376067976847608756699313992623750402523949500083638451627362405182863161963851, (some (0, 0))),
  (17376067976847608756699313992623750402523949500083638451627362405182863099049297, (some (0, 0))),
  (17376067976847608756699313992623750402523949495662070972292309584446179474683213, (some (0, 0))),
  (17376067976847608756699313992623750402523949499880814471647226321857801296557401, (some (0, 0))),
  (17376067976847608756699313992623750402523949499759119975339856092342647584208217, (some (0, 0))),
  (17376067976847608756699313992623750402523949499880814471647226321857801263002969, (some (0, 0))),
  (17376067976847608756699313992623750402523949499759119975339856092342647598888282, (some (0, 0))),
  (73824772664057031711710344881072867301832777729805572034986902507717802766383284, (some (0, 0))),
  (121478999861907838829925002256465144454179321844279617595070974158158344113503335680122709969967083446717316817644221201565722140834313921377309, (some (0, 0))),
  (157490390278569819387994427057176132659444821179074542643213554782210917063574722432342838678986741490135776259805759345749064050238523738960925, (some (0, 0))),
  (35809168884627483609618690720066327380537773292206662862013527200776157495981965596796747569661983293611742506566391378102733255940, (some (0, 0))),
  (123896428378776526270502053365376981468527928253071051000381632576782207501849725054542123113260428742665092480755937328845012691092823303271684, (some (0, 0))),
  (10957326505961892324976664379834463891113013044374798768254853681800688349137704299272120193819445244125687349263898353188753599264498462167603085015738854731598265846297861810033284, (some (0, 171132567333318435809784481649279284916439384787348296302491336772))),
  (29286355602092768208207463773492533332348191809644628099790966738600248379017450103036747712949139963926488836494092588733880603268, (some (0, 0))),
  (566480503196567783903203853944542817959272844428632275367486243084634459983306780913463435571189221691829336685904283196342163899522698962902010449708978820, (some (0, 0))),
  (534270311693983676694210935250200487824206633762172143197474549242774344094269894376190325942677238040169360200924380842832335499735302982369585240484090500, (some (0, 0))),
  (2491407600692103261502930862276026400474955881564287269423779372739389523059035738156407288644420160662516905700861219883483219764856551584191204700005487393992425345668, (some (0, 0))),
  (128802754078735184499056204738481461383476829277232303403593073902287068318838273221462146328410245544651454073307790171467653291345813868385605, (some (0, 0))),
  (128802754078735184499056198079538903120754376784278035241527189610313587254782703863085261938322497686805836833300515063155898951692418610632005, (some (0, 0))),
  (121479004450062274530457883713597877391340860813709638778654371607995456811254824378929950739676744274421584185048100525854859648807348484445509, (some (0, 0))),
  (2491407600692103261502930862276026400474955881564287269423779372739389925692619700174890915365153730407813070716286936584829148353207515688916626141637985728549894493509, (some (0, 0))),
  (128802754078735184499056206147104256776452906433010605900949475497217361124558022739318411596491751624427867964026998515857871218189045782816248, (some (0, 0))),
  (566480503196567783903203889989270119275710021207573633020284332816586347931105490485267602434222190090401875896643012555157349924364443111120152273658848760, (some (0, 0)))
]

def ptab_2 : PTable := [
  (28170786294771579894245872620871746555287229108634435147374145818622634506977191006131558462393648515205114882513129678163549367384, (some (0, 0))),
  (1514069097899055601957613209031328860506579739032784766921381968567585830055799935931056378921754151623853, (some (0, 0))),
  (6658946313585322106566187326471341358383826915289109744463871787191828999384718992676057040076869264438794699635956573, (some (0, 0))),
  (1514069097899055601957613209031328860506579739032786089896769937409686414178705381926491841851988199352600, (some (0, 0))),
  (566480503196567783903203888299671991232969273926294530045835536251444938656773129209584728746513967484972614241993007572739788027762303383014309211804805400, (some (0, 0))),
  (17376067976847608756699313992623750402523949499880814471647226321857801286071639, (some (0, 0))),
  (29286355602092768208207463948192510281741151777898291213133665376581858520602260109658012881321037260694806994256383624994608913245, (some (0, 0))),
  (3153187182398864877256280948877756877117810296580161690315459951958848511231730779835631055265047697056691789131453512605910209493814255582088984141519360849387733391893, (some (0, 0))),
  (10957326505961892324976664510560620977132870952091198446118516533833351874008287238034277930973911108794508019182569635739822219653075735977394541617392396794464853971504202552187413, (some (0, 0))),
  (121478999861907838829925002256465144454179321844279186825414068090584287738391947628389453647549915833561522356124115542473618909213409337677880, (some (0, 0))),
  (199894247891591508259250603967067151703348938931052502075210054532637509218994308607602869580316308387203230158922531201122180059175550660647350820513524270119557829856437803850923670980399070334192713734200, (some (0, 0))),
  (157490390278569819387994427057176132659444821179074052162957228211949620313891936732320007699203674657980152790808406735568643919087495947491384, (some (0, 16098172409863238950253419586057230487360515222646677187954559059188482208600496241508764066751799361614))),
  (259151154937682002184432626961568043667980516844702038238662882587838896469243602506962151588719627958742931097242194189196008212653520890021132768304238111365150086295660857416797081299688607913840297908280, (some (0, 0))),
  (58924150593539252937360430897017077692903630314663552212865654386112814390462221078518991870176819654917496593908305537603947816744182392383855617480839648524501666554318134846598581867836872760, (some (0, 0))),
  (37065537199951115400019262332261078228799246956199593089462379216361992039357405703403367399380224547970252867205376163619692092253, (some (0, 0))),
  (6745947607559811716521429258222514360027156518249835958152606903197198103180505775919688609765293779359791361344788249538697555975058143867797415821377285443321588509649511832638926512737021942454622575996265980226328858609235674634822008935149039876694276258097200220942420059614397589048276228, (some (0, 30531070234165757386299205683182757134027191720553468782228141354864070890237989825435562819035289862170214516))),
  (932146249643562315561838111614442165533428443378469771825360097399097336127109477901139148199976849773641474035717096677612511749679598661575411152162886017974764628875324080232378258910909113558078545991789187818337540, (some (0, 0))),
  (932146249643562315561838125515636007003597794343571834719845633944271476273282968774804158227161749872989738682220285793100626396925174829302699844155403904215292453658724546162677095197901964740075070743355761809700100, (some (0, 0))),
  (18030330701616740968672182278524093521642151887215708789560451793468173731643816535032388842147959970769073080673925133757958024771046056814456248952889363977039851320649811115848246125904642520761467324046764488416600708434324357698416107599108, (some (0, 0))),
  (6745947607559811716521429258222514360027156518249835958152606903197198103180523701799324259002568336769207556359857744557017368944982247108014463193474158888954637838868980818242921247452989840653089801664487771577055736098520922094427405889891737166401143608852426449695069458638648875587482884, (some (0, 30531070234165757386299205683182757134030642593726864064121858732795209402964215379921648012312871124282114164))),
  (932146249643562315561838111614442165533639161080922031464278069072094876236018256027731921911230813214226824252109183006594419972992683406514065973346505740811932460738593917256279891097679699563562663656331695890642180, (some (0, 0))),
  (932146249643562315561838125515636007003808512046024094358763605618840243873981894999003262992892960906639077080713043221034514476924403796515598451682993271368894280954419991567807561469096833887584177073495963124905220, (some (0, 0))),
  (18030330701616740968672182278524093521642151887215709716306707891479463795983949684786327895460503176868311947159116982316429965020923754019535580928091936848988464892535000609015955306087693236271754352675766751931168071771156886372572639278340, (some (0, 0))),
  (6745947607559811716521429258222514360027156518249835958152606903197198103180541627678959908239842894178623751374927239575337181914906350348231510565571032358404738485806896393367158519043090320551677134334747762231653460338994362453855954397262784244712527254673960672577837383724726328571737348, (some (0, 30531070234165757386299205683182757134034093466900259346015576110726347915690440934407733205590452386394013812))),
  (932146249643562315561838111614442165533849878783374291103196040745092416344927057971376013340931366175054711342633851035696435198343967455323567545718318363472251845230213542884697818350758279699165307382700370407994628, (some (0, 0))),
  (932146249643562315561838125515636007004019229748476353997681577293409011474680845040253685477070761460530952353338382349088509558961832067599343810398775538345647660878465225577454322806599697165211809465462330885158148, (some (0, 0))),
  (18030330701616740968672182278524093521642151887215710643052963989490753860324082834540266948773046382967574630695626549321491425513338325357196613023401511759136382335266941290376564309422296580131829985821064081753729565226515476872895616005380, (some (0, 0))),
  (6745947607559811716521429258222514360027156518249835958152606903197198103180559553558595557477117451588039946389996734593656994884830453588448557937667905851671890450463258558011638327507323382150384574007045952190122031330655995713107654457262181111628427195561802889590723834872629948001039620, (some (0, 30531070234165757386299205683182757134037544340073654627909293488657486428416666488893818398868033648505913460))),
  (932146249643562315561838111614442165534060596485826550742114012418089956453835883732071422489078508656125135307291100764918557425733450808003915869278323885955722782350182957117632040670144853964886477170895211370394884, (some (0, 0))),
  (932146249643562315561838125515636007004229947450928613636599548967977779075379818898555425679695151534665364500096303177262611643037459642553935920302750705145552593430860248191617379210410554572957967919254865090458884, (some (0, 0))),
  (18030330701616740968672182278524093521642151887215711569799220087502043924664215984294206002085589589066861131283453834773142406248289770827439345238818088707483603648845633159930073135908452552341694223482656477884285188800400129199385037780228, (some (0, 0))),
  (6745947607559811716521429258222514360027156518249835958152606903197198103180577479438231206714392008997456141405066229611976807854754556828665605309764779368756093732838067312176360672845689025449212120681382341452461449073505821872182506069889927767148843431515953100733728812082359733875389700, (some (0, 30531070234165757386299205683182757134040995213247049909803010866588624941142892043379903592145614910617813108))),
  (932146249643562315561838111614442165534271314188278810381031984091087496562744733309818149355672240657438096146080932194260786655161133464555110944026522308262345272098502159955082558055839422360726173020916218777842948, (some (0, 0))),
  (932146249643562315561838125515636007004440665153380873275517520642546546676078816573908483600766131129042313520986805705556820729151286521379374781394918771768609078611605059410296730680529406110822652434873565740807428, (some (0, 0))),
  (18030330701616740968672182278524093521642151887215712496545476185513333989004349134048145055398132795166171448922598838671382907225778090430263777574341667694030128833271076217676481785546161152901347065660543940322834942492810843352040904602884, (some (0, 0))),
  (1533850901878352423528083210224215642952214255134133597488507904687867092705461611389045613741034604471836093132035104837550800501332702216579369650843760685532088277863781137635597553940241292715173044240150385244255686326893838215298114719502517436754840790746835631644169025369348, (some (0, 0))),
  (109123029958911434353690295664421110770020184750887009699644473465704573045897306236490204238804008953622074058399221166684715732995233770839413125445281104829767966632462680315917070994363841666897674098375975711917079969259417535822808511090667785696589060, (some (0, 0))),
  (1533850901878352423528083210224215642952214255134133597488507904687867092705461611389045614667780860569847383196375262403816275507538846934955289975512045079228936527581873462506194577623284648297351803640737900365160941775923750860358214231592367829045369617966579884650633476715780, (some (0, 0))),
  (109123029958911434353690295664421110770020184750887009699644473465704573045897553424542403866211148676526244582808638820547247148333872925626041355747454762581106408926974741009271537984619860576535872150463091755699736040927614166746241851328276855743591684, (some (0, 0))),
  (2491407600692103261502930877137892248230936913455845816619499904923297596830774490641515051035834588034852932927956867064979151444735178443150944003765284199204361613909, (some (0, 0))),
  (566480503196567783903203890552467078304160933725518772318221396141177408754508902061077516164633939232990023278821204749181805552662438598494624676447266493, (some (0, 0))),
  (918436171787700606781628969983420332807121779929437592982414245097639201176440297740689945833800770526381, (some (0, 0))),
  (7834256184653379645914447614150600251773664645870465932561007778653, (some (0, 0))),
  (4798301119099716617381507502884713462958395883328115866478873425233, (some (0, 0))),
  (21761815456320750877644689240855361248768001990649714169391911810776, (some (0, 0))),
  (4798301119099716617381507502884713462958395883328116385448567256441, (some (0, 0))),
  (19550258974313332752945337075203822372476061143911867505462556496933, (some (0, 0))),
  (19550258974313332752945336518841930485937931577731033826744300738461, (some (0, 0))),
  (4798301119099716617381507502884713462958395883328115866479083140429, (some (0, 0))),
  (17797796713349368358409106956121334917658076502088094726750252047533, (some (0, 0))),
  (16785810533372894754548974979542076315325870539307110694998664813741, (some (0, 0))),
  (17797796713349368358409106673006251168564881439807840915309316807853, (some (0, 0))),
  (16785810533372894754548975099831967661172232192193447304279007173976, (some (0, 0))),
  (73824772664057031711710344881072867301828609270891920177224082850472552610937012, (some (0, 0))),
  (121478999861907838829925002256465144454179321844279617595070974158158344113503335680122709969967083446713148358730569343802902483589063765931037, (some (0, 0))),
  (157490390278569819387994427057176132659444821179074542643213554782210917063574722432342838678986741490131607800892107487986244392993273583514653, (some (0, 0))),
  (35809168884627483609618690720066327380537773292206662862013527200776157495981965596796747565493524379959884743746734132852577809668, (some (0, 0))),
  (123896428378776526270502053365376981468527928253071051000381632576782207501849725054542123113260428742660924021842285471082193033847573147825412, (some (0, 0))),
  (10957326505961892324976664379834463891113013044374798768254853681800688349137704299272120193819445244125687349263898353188753599264498462167598916556825202873835446189052611654587012, (some (0, 171132567333318435809784481649279284916439384787348296302491336772))),
  (29286355602092768208207463773492533332348191809644628099790966738600248379017450103036747708780681050274631073674435343483725156996, (some (0, 0))),
  (566480503196567783903203853944542817959272844428632275367486243084634459983306780913463435571189221691829336685904279027883250247664936143244765199553532548, (some (0, 0))),
  (534270311693983676694210935250200487824206633762172143197474549242774344094269894376190325942677238040169360200924376674373421847877540162712339990328644228, (some (0, 0))),
  (2491407600692103261502930862276026400474955881564287269423779372739389523059035738156407288644420160662516905700861219883483219760688092670539346937185830148742269899396, (some (0, 0))),
  (128802754078735184499056204738481461383476829277232303403593073902287068318838273221462146328410245544647285614394138313704833634100563712939333, (some (0, 0))),
  (128802754078735184499056198079538903120754376784278035241527189610313587254782703863085261938322497686801668374386863205393079294447168455185733, (some (0, 0))),
  (121479004450062274530457883713597877391340860813709638778654371607995456811254824378929950739676744274417415726134448668092039991562098328999237, (some (0, 0))),
  (2491407600692103261502930862276026400474955881564287269423779372739389925692619700174890915365153730407813070716286936584829148349039056775264768378818328483299739047237, (some (0, 0))),
  (128802754078735184499056206147104256776452906433010605900949475497217361124558022739318411596491751624423699505113346658095051560943795627369976, (some (0, 0))),
  (566480503196567783903203889989270119275710021207573633020284332816586347931105490485267602434222190090401875896643008386698436272506680291462907023503402488, (some (0, 0))),
  (28170786294771579894245872620871746555287229108634435147374145818622634506977191006131558458225189601553257119693472432913393921112, (some (0, 0))),
  (1514069097899055601957613209031328860506579739032784766921381968563417371142148078168236721676503996177581, (some (0, 0))),
  (6658946313585322106566187326471341358383826915289109744463871787191828999384714824217143388219106444781549449480510301, (some (0, 0))),
  (1514069097899055601957613209031328860506579739032786089896769937405517955265053524163672184606738043906328, (some (0, 0))),
  (566480503196567783903203888299671991232969273926294530045835536251444938656773129209584728746513967484972614241993003404280874375904540563357063961649359128, (some (0, 0))),
  (17797796713349368358409106867647854371092455625458565522294317259613, (some (0, 0))),
  (29286355602092768208207463948192510281741151777898291213133665376581858520602260109658012877152578347042949231436726379744453466973, (some (0, 0))),
  (3153187182398864877256280948877756877117810296580161690315459951958848511231730779835631055265047697056691789131453512605910209489645796668437126378699703604137577945621, (some (0, 0))),
  (10957326505961892324976664510560620977132870952091198446118516533833351874008287238034277930973911108794508019182569635739822219653075735977390373158478744936702034314258952396741141, (some (0, 0))),
  (121478999861907838829925002256465144454179321844279186825414068090584287738391947628389453647549915833557353897210463684710799251968159182231608, (some (0, 0))),
  (199894247891591508259250603967067151703348938931052502075210054532637509218994308607602869580316308387203230158922531201122180059175550660647350820513524270119557829852269344937271813217579413088942558287928, (some (0, 0))),
  (157490390278569819387994427057176132659444821179074052162957228211949620313891936732320007699203674657975984331894754877805824261842245792045112, (some (0, 16098172409863238950253419586057230487360515222646677187954559059188482208600496241508764066751799361614))),
  (259151154937682002184432626961568043667980516844702038238662882587838896469243602506962151588719627958742931097242194189196008212653520890021132768304238111365150086291492398503145223536868950668590142462008, (some (0, 0))),
  (58924150593539252937360430897017077692903630314663552212865654386112814390462221078518991870176819654917496593908305537603947816744182392383855617480839644356042752902460372026941336617681426488, (some (0, 0))),
  (37065537199951115400019262332261078228799246956199593089462379216361992039357405703403367395211765634318395104385718918369536645981, (some (0, 0))),
  (6745947607559811716521429258222514360027156518249835958152606903197198103180505775919688609765293779359791361344788249538697555975058143867797415821377285443321588509649511832638926512737021942454622575996265980226328858609235674634822008935149039876694272089638286569084657239957152338892829956, (some (0, 30531070234165757386299205683182757134027191720553468782228141354864070890237989825435562819035289862170214516))),
  (932146249643562315561838111614442165533428443378469771825360097399097336127109477901139148199976849773641474035717096677612511749679598661575411152162886017974764628875324080232374090451995461700315726334543937662891268, (some (0, 0))),
  (932146249643562315561838125515636007003597794343571834719845633944271476273282968774804158227161749872989738682220285793100626396925174829302699844155403904215292453658724546162672926738988312882312251086110511654253828, (some (0, 0))),
  (18030330701616740968672182278524093521642151887215708789560451793468173731643816535032388842147959970769073080673925133757958024771046056814456248952889363977039851320649811115848246125904642520761467324042596029502948850671504700453165952152836, (some (0, 0))),
  (6745947607559811716521429258222514360027156518249835958152606903197198103180523701799324259002568336769207556359857744557017368944982247108014463193474158888954637838868980818242921247452989840653089801664487771577055736098520922094427405889891737166401139440393512797837306638981403625432036612, (some (0, 30531070234165757386299205683182757134030642593726864064121858732795209402964215379921648012312871124282114164))),
  (932146249643562315561838111614442165533639161080922031464278069072094876236018256027731921911230813214226824252109183006594419972992683406514065973346505740811932460738593917256275722638766047705799843999086445735195908, (some (0, 0))),
  (932146249643562315561838125515636007003808512046024094358763605618840243873981894999003262992892960906639077080713043221034514476924403796515598451682993271368894280954419991567803393010183182029821357416250712969458948, (some (0, 0))),
  (18030330701616740968672182278524093521642151887215709716306707891479463795983949684786327895460503176868311947159116982316429965020923754019535580928091936848988464892535000609015955306087693236271754352671598293017516214008337229127322483832068, (some (0, 0))),
  (6745947607559811716521429258222514360027156518249835958152606903197198103180541627678959908239842894178623751374927239575337181914906350348231510565571032358404738485806896393367158519043090320551677134334747762231653460338994362453855954397262784244712523086215047020720074564067481078416291076, (some (0, 30531070234165757386299205683182757134034093466900259346015576110726347915690440934407733205590452386394013812))),
  (932146249643562315561838111614442165533849878783374291103196040745092416344927057971376013340931366175054711342633851035696435198343967455323567545718318363472251845230213542884693649891844627841402487725455120252548356, (some (0, 0))),
  (932146249643562315561838125515636007004019229748476353997681577293409011474680845040253685477070761460530952353338382349088509558961832067599343810398775538345647660878465225577450154347686045307448989808217080729711876, (some (0, 0))),
  (18030330701616740968672182278524093521642151887215710643052963989490753860324082834540266948773046382967574630695626549321491425513338325357196613023401511759136382335266941290376564309422296580131829985816895622840077707463695819627645460559108, (some (0, 0)))
]

def ptab_3 : PTable := [
  (6745947607559811716521429258222514360027156518249835958152606903197198103180559553558595557477117451588039946389996734593656994884830453588448557937667905851671890450463258558011638327507323382150384574007045952190122031330655995713107654457262181111628423027102889237732961015215384697845593348, (some (0, 30531070234165757386299205683182757134037544340073654627909293488657486428416666488893818398868033648505913460))),
  (932146249643562315561838111614442165534060596485826550742114012418089956453835883732071422489078508656125135307291100764918557425733450808003915869278323885955722782350182957117627872211231202107123657513649961214948612, (some (0, 0))),
  (932146249643562315561838125515636007004229947450928613636599548967977779075379818898555425679695151534665364500096303177262611643037459642553935920302750705145552593430860248191613210751496902715195148262009614935012612, (some (0, 0))),
  (18030330701616740968672182278524093521642151887215711569799220087502043924664215984294206002085589589066861131283453834773142406248289770827439345238818088707483603648845633159930073135908452552341694223478488018970633331037580471954134882333956, (some (0, 0))),
  (6745947607559811716521429258222514360027156518249835958152606903197198103180577479438231206714392008997456141405066229611976807854754556828665605309764779368756093732838067312176360672845689025449212120681382341452461449073505821872182506069889927767148839263057039448875965992425114483719943428, (some (0, 30531070234165757386299205683182757134040995213247049909803010866588624941142892043379903592145614910617813108))),
  (932146249643562315561838111614442165534271314188278810381031984091087496562744733309818149355672240657438096146080932194260786655161133464555110944026522308262345272098502159955078389596925770502963353363670968622396676, (some (0, 0))),
  (932146249643562315561838125515636007004440665153380873275517520642546546676078816573908483600766131129042313520986805705556820729151286521379374781394918771768609078611605059410292562221615754253059832777628315585361156, (some (0, 0))),
  (18030330701616740968672182278524093521642151887215712496545476185513333989004349134048145055398132795166171448922598838671382907225778090430263777574341667694030128833271076217676481785546161152901347065656375481409183084729991186106790749156612, (some (0, 0))),
  (1533850901878352423528083210224215642952214255134133597488507904687867092705461611389045613741034604471836093132035104837550800501332702216579369650843760685532088277863781137635597553940241292715173044240150385244255686326893838215298114719498348977841188932984015974398918869923076, (some (0, 0))),
  (109123029958911434353690295664421110770020184750887009699644473465704573045897306236490204238804008953622074058399221166684715732995233770839413125445281104829767966632462680315917070994363841666897674098375975711917075800800503883965045691433422535541142788, (some (0, 0))),
  (1533850901878352423528083210224215642952214255134133597488507904687867092705461611389045614667780860569847383196375262403816275507538846934955289975512045079228936527581873462506194577623284648297351803640737900365160941775923750860358214231588199370131717760203760227405383321269508, (some (0, 0))),
  (109123029958911434353690295664421110770020184750887009699644473465704573045897553424542403866211148676526244582808638820547247148333872925626041355747454762581106408926974741009271537984619860576535872150463091755699731872468700514888479031671031605588145412, (some (0, 0))),
  (2491407600692103261502930877137892248230936913455845816619499904923297596830774490641515051035834588034852932927956867064979151440566719529499086240945626953954206167637, (some (0, 0))),
  (566480503196567783903203890552467078304160933725518772318221396141177408754508902061077516164633939232990023278821200580722891900804675778837379426291820221, (some (0, 0))),
  (9163436873784091204383621981022019710682436566169463086326706892009403880945440961688725773429785010457745181835801945, (some (0, 0))),
  (9163436873784091204383621981022019710682436566169463086326706891979098169078076740234042091808985243614835569955190103, (some (0, 0))),
  (577426716844232585343294903100732060487875271601250086905789417388032175994889714309102899942197499264092062453689894111931529766563056465870437440271955204, none),
  (9163436873784091204383621981022019710682436566169463086326706891979098187275493414366783005797147553684529775210673521, (some (0, 348538358354449519806309373425754749398722432648975652023989743007039597))),
  (121478987244414671379993556198566091334299519893397758470899284654289722674987396792864990942556289457968846785781815971781600568626639483711197, (some (0, 0))),
  (2491407600692103261502930835029302464645626953264060084782338167110554884074949514317990322522591626336969718667259271498213821653477805019270775737695219611939756846813, none),
  (2491407600692103261502930837506277153154455800418881294637395690253491030141084093477961295013393735539220425811354766723832319256648040259414991375796915339189739859677, none),
  (9163436873784091204383621981022019710682436566169463086326706892017260917851073435978691487973240843014887087529801073, (some (0, 730937915299750519360841315098568424211029547074664586593294233747394603778157))),
  (534270236022745264373411340865105351040374211594900253646897376350205494716903884977331496483956087701784132997585631823220677022500266001193163720428105437, (some (0, 0))),
  (10957326505961892324976664314471245094241447929533704720710788819100073234751891310691088429823747910284776998570863443741494670416328569504667053554840743318417774561330952216260317, none),
  (10957326505961892324976664325365094981130619801064036619646724780288091288660706231012930072480833692787789562644768190374557859829060272373847527862805368096294004476478442962955997, none),
  (328926861723708590712831270164269582963789096185275564473312288958386481295362041459349578375283559628089988005404506080691115465593822018060029483961584639973690359816388308194041816036775070629874741160875516833844653078902153086288110946345022806680235098048846376888, (some (0, 0))),
  (348757317141997287655631952242074339913948188100864193704369541957160088229499420830337688107247327598431832016416042115282574781169222886125223262615316906812401495184761562928281294011448748904114170037963321297087716403411697610063139838421671792356217454671058448312, none),
  (4099622561083547445530753779841333130453874636961069850075013309966393290019768374061267362796810601581065384231763311630311018056516562167894045443454993523629901127960533963284719363667569640924387925584412657046741928782359179413, (some (0, 0))),
  (121478987244414671379993556198566091334299519893397758470899284670370349143738024420914064135918579424007010049530918599372367066971836757583352, (some (0, 0))),
  (128802754078735184499056204482367853934249372746115176230199895664412964224748326223453253219009848090675748264818617793633470381317222326871544, (some (0, 0))),
  (645303718566448924413882693796839092818531250030228902640257115974738069241607959191575275397518958305019139041738021999572133651057626388765059025639320244, (some (0, 0))),
  (46355154630916526478086382577335569582909633295981406767989449251645802222683990155704784239976517665635040390570592421934578079496240466650626724039064039948574116840583786282575066892639154104, (some (0, 0))),
  (203872126096188858090802251604582873268356337182303058219609850069883284195442531389434570480695063699482622855391528246332469139817764018751767465918588387684132342171471274072386701524406521985513744773269, (some (0, 0))),
  (9163436873784091204383621981022019710682436566169463086326706891979098169078076740235461860926125599056372677356827991, none),
  (9163436873784091204383621981022019710682436566169463086326706891979098169078085587577082934539048549440957357974631765, none),
  (645303718566448924413882690791309391803472338296064301572792132241840902775219900599177274294495814092939395479385420140728188293843981165334061949973964477, (some (0, 0))),
  (645303563328094167406297893094833362717970895673658545997395598581335197572311268620192081945174884476986222454056537391131094089490571649808479877616117437, (some (0, 0))),
  (766811982526766719283881324546715045227280148825185423229998073128205860187973408203309484760136180918893229619695407779432688409349590045123446082635835069, (some (0, 0))),
  (766811861652641106069293190163428761990878861400710201411537418657597044422732459224871209448047100716585877084092071900233638388041765685004814780528076477, (some (0, 0))),
  (9163436873784091204383621981022019710682436566169463086326706892020628218515510241418936633036659633231273014495032665, (some (0, 0))),
  (9163436873784091204383621981022019710682436566169463086326706892020628213520143912442219160974969801063603042749789529, (some (0, 0))),
  (9163436873784091204383621981022019710682436566169463086326706892024369661279829660183578185150127348312097065422304601, (some (0, 0))),
  (9163436873784091204383621981022019710682436566169463086326706892024369657711711023912820594146723485593922230059808089, (some (0, 0))),
  (141485324570106411914100507558312107475827758829122402943829263404647773279248311738620758043821650566944711990059422047063425352354971976217945, none),
  (141485324570106411914100507558312107475827758829122402943829263404647773279248311738620758013515938699580490535375740426263658509445360095606103, none),
  (6745947607559811716521429258222514360027156518249835958152606903197198103180505775919688609765293779359791361344788249538697555975058143867797415821377285443321588509649511832638926512737021942454622575996265980226328858609611819985145665617079770722894952002917359292917307690952087380070249732, (some (4168461104154338724600402742622361223284, 0))),
  (932146249643562315561838125515636007003597794343571834719845633944271476273282968774804158227161749872989738682220285793100626396925174829302699844531549254538949135589455392363352840018061036714962702081045552831673604, (some (4168461104154338724600402742622361223284, 0))),
  (18030330701616740968672182278524093521642151887215708789560451793468173731643816535032388842147959970769073080673925133757958024771046056814456248952889363977039851320649811491993596449561324451492313524722509308575672683321955695388207129572612, (some (4168461104154338724600402742622361223284, 0))),
  (6745947607559811716521429258222514360027156518249835958152606903197198103180523701799324259002568336769207556359857744557017368944982247108014463193474158888954637838868980818242921247452989840653089801664487771577055736098897067444751062571822468012601819353672585521669957089976338666609456388, (some (4168461104154338724600402742622361223284, 0))),
  (932146249643562315561838125515636007003808512046024094358763605618840243873981894999003262992892960906639077080713043221034514476924403796515598452059138621692550962885150837768483306289255905862471808411185754146878724, (some (4168461104154338724600402742622361223284, 0))),
  (18030330701616740968672182278524093521642151887215709716306707891479463795983949684786327895460503176868311947159116982316429965020923754019535580928091936848988464892535000985161305629744375167002600553351511572090240046658788224062363661251844, (some (4168461104154338724600402742622361223284, 0))),
  (6745947607559811716521429258222514360027156518249835958152606903197198103180541627678959908239842894178623751374927239575337181914906350348231510565571032358404738485806896393367158519043090320551677134334747762231653460339370507804179611079193515090913202999494119744552725015062416119593710852, (some (4168461104154338724600402742622361223284, 0))),
  (932146249643562315561838125515636007004019229748476353997681577293409011474680845040253685477070761460530952353338382349088509558961832067599343810774920888669304342809196071778130067626758769140099440803152121907131652, (some (4168461104154338724600402742622361223284, 0))),
  (18030330701616740968672182278524093521642151887215710643052963989490753860324082834540266948773046382967574630695626549321491425513338325357196613023401511759136382335266941666521914633078978510862676186496808901912801540114146814562686637978884, (some (4168461104154338724600402742622361223284, 0))),
  (6745947607559811716521429258222514360027156518249835958152606903197198103180559553558595557477117451588039946389996734593656994884830453588448557937667905851671890450463258558011638327507323382150384574007045952190122031331032141063431311139192911957829102940381961961565611466210319739023013124, (some (4168461104154338724600402742622361223284, 0))),
  (932146249643562315561838125515636007004229947450928613636599548967977779075379818898555425679695151534665364500096303177262611643037459642553935920678896055469209275361591094392293124030569626547845599256944656112432388, (some (4168461104154338724600402742622361223284, 0))),
  (18030330701616740968672182278524093521642151887215711569799220087502043924664215984294206002085589589066861131283453834773142406248289770827439345238818088707483603648845633536075423459565134483072540424158401298043357163688031466889176059753732, (some (4168461104154338724600402742622361223284, 0))),
  (6745947607559811716521429258222514360027156518249835958152606903197198103180577479438231206714392008997456141405066229611976807854754556828665605309764779368756093732838067312176360672845689025449212120681382341452461449073881967222506162751820658613349519176336112172708616443420049524897363204, (some (4168461104154338724600402742622361223284, 0))),
  (932146249643562315561838125515636007004440665153380873275517520642546546676078816573908483600766131129042313520986805705556820729151286521379374781771064122092265760542335905610972475500688478085710283772563356762780932, (some (4168461104154338724600402742622361223284, 0))),
  (18030330701616740968672182278524093521642151887215712496545476185513333989004349134048145055398132795166171448922598838671382907225778090430263777574341667694030128833271076593821832109202843083632193266336288760481906917380442181041831926576388, (some (4168461104154338724600402742622361223284, 0))),
  (1533850901878352423528083210224215642952214255134133597488507904687867092705461611389045613741034604471836093132035104837550800501332702216579369650843760685532088277863781137635597553940241292715173044240150385620401036650550520146028960920178262256913912765634466969333960047342852, (some (185942095795020411048164783166143368637095830055785907758546550900, 0))),
  (109123029958911434353690295664421110770020184750887009699644473465704573045897306236490204238804008953622074058399221166684715732995233770839413125445281104829767966632462680315917070994739987017221330780306706558117755714079576607797696142428357576718562564, (some (185942095795020411048164783166143368637095830055785907758546550900, 0))),
  (1533850901878352423528083210224215642952214255134133597488507904687867092705461611389045614667780860569847383196375262403816275507538846934955289975512045079228936527581873462506194577623284648297351803640737900741306292099580432791089060432268112649204441592854211222340424498689284, (some (185942095795020411048164783166143368637095830055785907758546550900, 0))),
  (109123029958911434353690295664421110770020184750887009699644473465704573045897553424542403866211148676526244582808638820547247148333872925626041355747454762581106408926974741009271537984996005926859528832393822601900411785747773238721129482665966646765565188, (some (185942095795020411048164783166143368637095830055785907758546550900, 0))),
  (32170038268783721813201852355248872178630359317871320169357527830749948656160687554006696930283557672585456700088854992817976522073, none),
  (32170038268783721813201852355248872178630359317871320169357527830749948656160657248294829566062102988903835900322012083206095910231, none),
  (6745947607559811716521429258222514360027156518249835958152606903197198103180505775919688609765293779359791361344788249538697555975058143867797415821377285443321588509649511832638926512737021942454622575996265980226328858609235674814182088854800396540746685172083309543174790894974829330207618308, (some (2190502480961780745497372205777012, 0))),
  (932146249643562315561838125515636007003597794343571834719845633944271476273282968774804158227161749872989738682220285793100626396925174829302699844155404083575372373310081210215086009184011286972445906103787502969042180, (some (2190502480961780745497372205777012, 0))),
  (18030330701616740968672182278524093521642151887215708789560451793468173731643816535032388842147959970769073080673925133757958024771046056814456248952889363977039851320649811115848425485984562172118131376455678474525922940805159718130157266941188, (some (2190502480961780745497372205777012, 0))),
  (6745947607559811716521429258222514360027156518249835958152606903197198103180523701799324259002568336769207556359857744557017368944982247108014463193474158888954637838868980818242921247452989840653089801664487771577055736098520922273787485809543093830453552522838535771927440293999080616746824964, (some (2190502480961780745497372205777012, 0))),
  (932146249643562315561838125515636007003808512046024094358763605618840243873981894999003262992892960906639077080713043221034514476924403796515598451682993450728974200605776655620216475455206156119955012433927704284247300, (some (2190502480961780745497372205777012, 0))),
  (18030330701616740968672182278524093521642151887215709716306707891479463795983949684786327895460503176868311947159116982316429965020923754019535580928091936848988464892535000609016134666167612887628418405084680738040490304141992246804313798620420, (some (2190502480961780745497372205777012, 0))),
  (6745947607559811716521429258222514360027156518249835958152606903197198103180541627678959908239842894178623751374927239575337181914906350348231510565571032358404738485806896393367158519043090320551677134334747762231653460338994362633216034316914140908764936168660069994810208219085158069731079428, (some (2190502480961780745497372205777012, 0))),
  (932146249643562315561838125515636007004019229748476353997681577293409011474680845040253685477070761460530952353338382349088509558961832067599343810398775717705727580529821889629863236792709019397582644825894072044500228, (some (2190502480961780745497372205777012, 0))),
  (18030330701616740968672182278524093521642151887215710643052963989490753860324082834540266948773046382967574630695626549321491425513338325357196613023401511759136382335266941290376743669502216231488494038229978067863051797597350837304636775347460, (some (2190502480961780745497372205777012, 0))),
  (6745947607559811716521429258222514360027156518249835958152606903197198103180559553558595557477117451588039946389996734593656994884830453588448557937667905851671890450463258558011638327507323382150384574007045952190122031330655995892467734376913537775680836109547912211823094670233061689160381700, (some (2190502480961780745497372205777012, 0))),
  (932146249643562315561838125515636007004229947450928613636599548967977779075379818898555425679695151534665364500096303177262611643037459642553935920302750884505632513082216912244026293196519876805328803279686606249800964, (some (2190502480961780745497372205777012, 0))),
  (18030330701616740968672182278524093521642151887215711569799220087502043924664215984294206002085589589066861131283453834773142406248289770827439345238818088707483603648845633159930252495988372203698358275891570463993607421171235489631126197122308, (some (2190502480961780745497372205777012, 0))),
  (6745947607559811716521429258222514360027156518249835958152606903197198103180577479438231206714392008997456141405066229611976807854754556828665605309764779368756093732838067312176360672845689025449212120681382341452461449073505822051542585989541284431201252345502062422966099647442791475034731780, (some (2190502480961780745497372205777012, 0))),
  (932146249643562315561838125515636007004440665153380873275517520642546546676078816573908483600766131129042313520986805705556820729151286521379374781394918951128688998262961723462705644666638728343193487795305306900149508, (some (2190502480961780745497372205777012, 0))),
  (18030330701616740968672182278524093521642151887215712496545476185513333989004349134048145055398132795166171448922598838671382907225778090430263777574341667694030128833271076217676661145626080804258011118069457926432157174863646203783782063944964, (some (2190502480961780745497372205777012, 0))),
  (1533850901878352423528083210224215642952214255134133597488507904687867092705461611389045613741034604471836093132035104837550800501332702216579369650843760685532088277863781137635597553940241292715173044240150385244255865686973757866654778771911431422864163023117670992075910184711428, (some (88664100549230771564562217517613851278647193640083447087220, 0))),
  (109123029958911434353690295664421110770020184750887009699644473465704573045897306236490204238804008953622074058399221166684715732995233770839413125445281104829767966632462680315917070994363841846257754018027332375969488883245526858055179346451099526855931140, (some (88664100549230771564562217517613851278647193640083447087220, 0))),
  (1533850901878352423528083210224215642952214255134133597488507904687867092705461611389045614667780860569847383196375262403816275507538846934955289975512045079228936527581873462506194577623284648297351803640737900365161121136003670511714878284001281815154691850337415245082374636057860, (some (88664100549230771564562217517613851278647193640083447087220, 0))),
  (109123029958911434353690295664421110770020184750887009699644473465704573045897553424542403866211148676526244582808638820547247148333872925626041355747454762581106408926974741009271537984619860755895952070114448419752144954913723488978612686688708596902933764, (some (88664100549230771564562217517613851278647193640083447087220, 0))),
  (656983147984902640948778104610114263584107137836318640511160274285477602570097638276854116206310346208203602817250095460417082263266026544085586134993745475, none),
  (656983147984902640948778104610114263584107137836318640511160274285477602570097638276854116206310346208173297105382731238962398581645226777242676523113133633, none),
  (656983147984902640948778104610114263584107137836318640511160274285477602570097638276854116206310346208173297105382740766867942201718071206357935679778862683, (some (338185760225853520181149408194579637261774106712223565914110067340214389, 9527908342594203602585952053437044621421))),
  (656983147984902640948778104610114263584107137836318640511160274285477602570097638276854116206310346208173297105382731238964142869199968791408474420177548891, (some (338185760225853520181149408194579637261774106712223565914110067340214389, 4543261685500171002592177443307629))),
  (2889442441849123988089889147352378975146868621852562099984391392225420838758207053986400139904211973249631408606459138261494472865602707966699893865060888977662285985113, (some (0, 0))),
  (2889442441849123988089889147352378975146868621852562099984391392225420838758207053986400139904211973249631408606459107955782605501381253283018273065294046068050405373271, (some (0, 0))),
  (2889442441849123988089889147352378975146868621852562099984391392225420838758207053986400139904211973249802541173792426391592389983200668437402221385222884917670678902129, (some (0, 0))),
  (2889442441849123988089889147352378975146868621852562099984391392225420838758207053986400139904211973249797604658551194074218799705494696112665065730232549891501782480241, (some (0, 0))),
  (2889442441849123988089889147352378975146868621852562099984391392225420838758207053986400139904211973249631408688061475039007109881504618661181489067853692355546502411633, (some (0, 0))),
  (2889442441849123988089889147352378975146868621852562099984391392225420838758207053986400139904211973249631408685707561139951477588952491916924360954509664364091888645489, (some (0, 0))),
  (2889442441849123988089889147352378975146868621852562099984391392225420838758207053986400139904211973249631408686492196237867803520395360030395103626481380232957429560689, (some (0, 14278380073842311663043628366173447264657692021068638395484835366238517221817445993634075669294041006189)))
]

def ptab_4 : PTable := [
  (2889442441849123988089889147352378975146868621852562099984391392225420838758207053986400139904211973249631408702969579313789996704355539899354193570617230990081263678824, none),
  (2889442441849123988089889147352378975146868621852562099984391392225420838758207053986400139904211973249631408606459153975561504697715709299757740074920507460622137439592, none),
  (203872137533097177459424756524076316303142455897803293044201497880102529261096502886041063146990033069924918239602600262055334998352493615599845273953611083000916844462601615525180267591328393433205255974621, (some (0, 0))),
  (656983147984902640948778104610114263584107134942912915317469984803128071223143146822805426942449380148262244587193646993915909967666459527509039357074879833, (some (0, 0))),
  (656983147984902640948778104610114263584107134942912915317469984803128071223143146822805426942449380148231938875326282772461226286045659760666129745194267991, (some (0, 0))),
  (656983147984902640948778104610114263584107134942912915317469984803128071223143146822805427113581947481550374685110764591876380669993979689504979365467796849, (some (0, 0))),
  (656983147984902640948778104610114263584107134942912915317469984803128071223143146822805427108645432240318057311520486885904055932838324699169953196571374961, (some (0, 0))),
  (656983147984902640948778104610114263584107134942912915317469984803128071223143146822805426942449461750599022099830662895826604449261662320312417241291306353, (some (0, 0))),
  (656983147984902640948778104610114263584107134942912915317469984803128071223143146822805426942449459396685123044198370343699860192133548976284425786677540209, (some (0, 0))),
  (656983147984902640948778104610114263584107134942912915317469984803128071223143146822805426942449460181320220960524301786567973662876220948000294652218455409, (some (0, 14278380073842311663043628366173447264657692021068638395484835366238517221817445993634075669294041006189))),
  (656983147984902640948778104610114263584107134942912915317469984803128071223143146822805426942449476658703296882717485746747842621966165083851051776052573544, none),
  (656983147984902640948778104610114263584107134942912915317469984803128071223143146822805426942449380148277958654225479106917243025512669387127522316926334312, none),
  (203872137533097177459424756524076316303142455897803293044201497880102529261096502886041063146990033069924918239602600262053635163158640183394244256908892056570618881930514681548040650876490342722227817950941, (some (0, 0))),
  (503002857285881914143149556106095398625849988950726018367931675945388300928884782941274918911604494345937853555524254406680215846311933604463724977624986969, (some (1699836004398401954289693063287572385752019153647581022721709725421649230565719670900, 0))),
  (503002857285881914143149556106095398625849988950726018367931675945388300928884782941274918911604494345907547843656890185225532164691133837620815365744375127, (some (1699836004398401954289693063287572385752019153647581022721709725421649230565719670900, 0))),
  (503002857285881914143149556106095398625849988950726018367931675945388300928884782941274919082737061679225983653441372004640686548639453766459664986017903985, (some (1699836004398401954289693063287572385752019153647581022721709725421649230565719670900, 0))),
  (503002857285881914143149556106095398625849988950726018367931675945388300928884782941274919077800546437993666279851094298668361811483798776124638817121482097, (some (1699836004398401954289693063287572385752019153647581022721709725421649230565719670900, 0))),
  (503002857285881914143149556106095398625849988950726018367931675945388300928884782941274918911604575948274631068161270308590910327907136397267102861841413489, (some (1699836004398401954289693063287572385752019153647581022721709725421649230565719670900, 0))),
  (503002857285881914143149556106095398625849988950726018367931675945388300928884782941274918911604573594360732012528977756464166070779023053239111407227647345, (some (1699836004398401954289693063287572385752019153647581022721709725421649230565719670900, 0))),
  (503002857285881914143149556106095398625849988950726018367931675945388300928884782941274918911604574378995829928854909199332279541521695024954980272768562545, (some (1699836004398401954289693063287572385752019153647581022721709725421649230565719670900, 0))),
  (503002857285881914143149556106095398625849988950726018367931675945388300928884782941274918911604590856378905851048093159512148500611639160805737396602680680, (some (1699836004398401954289693063287572385752019153647581022721709725421649230565719670900, 0))),
  (503002857285881914143149556106095398625849988950726018367931675945388300928884782941274918911604494345953567622556086519681548904158143464082207937476441448, (some (1699836004398401954289693063287572385752019153647581022721709725421649230565719670900, 0))),
  (114369608419538488793284513145885148020727987430002105310949464175583953765845358942318293110131145589787519041323993777685655269000300250281305, (some (810544969748688676018568545955454056621560647045582093010583598519588281647220, 0))),
  (114369608419538488793284513145885148020727987430002105310949464175583953765845358942318293079825433722423297586640312156885888426090688369669463, (some (810544969748688676018568545955454056621560647045582093010583598519588281647220, 0))),
  (114369608419538488793284513145885148020727987430002105310949464175583953765845530074885626398261243506905117001794696105205817264940308643198321, (some (810544969748688676018568545955454056621560647045582093010583598519588281647220, 0))),
  (114369608419538488793284513145885148020727987430002105310949464175583953765845525138370385165943869916627411029469958949550826929914139746776433, (some (810544969748688676018568545955454056621560647045582093010583598519588281647220, 0))),
  (114369608419538488793284513145885148020727987430002105310949464175583953765845358942399895446908658226803420952018475372888448072378184466707825, (some (810544969748688676018568545955454056621560647045582093010583598519588281647220, 0))),
  (114369608419538488793284513145885148020727987430002105310949464175583953765845358942397541533009602594510868825274218244775104044386729852941681, (some (810544969748688676018568545955454056621560647045582093010583598519588281647220, 0))),
  (114369608419538488793284513145885148020727987430002105310949464175583953765845358942398326168107518920442311693387688987447075760255595393856881, (some (810544969748688676018568545955454056621560647045582093010583598519588281647220, 0))),
  (114369608419538488793284513145885148020727987430002105310949464175583953765845358942414803551183441113626271873256648077391211611012719227975016, (some (810544969748688676018568545955454056621560647045582093010583598519588281647220, 0))),
  (114369608419538488793284513145885148020727987430002105310949464175583953765845358942318293125845212621619632042657051623895514887483260101735784, (some (810544969748688676018568545955454056621560647045582093010583598519588281647220, 0))),
  (26004638731472654145471617502563013562083864032891849226096184632243965135876516411674593199415753945198342440366355432475556057769, (some (3975354545425765612583291010941045, 0))),
  (26004638731472654145471617502563013562083864032891849226096184632243965135876486105962725835194299261516721640599512522863675445927, (some (3975354545425765612583291010941045, 0))),
  (26004638731472654145471617502563013562083864032891849226096184632243965135876486105962725835194296462542590882442675728583550309034, (some (3975354545425765612583291010941045, 0))),
  (26004638731472654145471617502563013562083864032891849226096184632243965135876486105962725835194296462542590882442675728583552406186, (some (3975354545425765612583291010941045, 0))),
  (26004638731472654145471617502563013562083864032891849226096184632243965135876486105962725835194296462542590882442675728583554503338, (some (3975354545425765612583291010941045, 0))),
  (26004638731472654145471617502563013562083864032891849226096184632243965135876486105962725835194296462542590882442675728583539823273, (some (3975354545425765612583291010941045, 0))),
  (26004638731472654145471617502563013562083864032891849226096184632243965214340297457624469065787458800486887325784438469892358804153, (some (3975354545425765612583291010941045, 0))),
  (26004638731472654145471617502563013562083864032891849226096184632243965135876486105962725835194296462542590882442675952883836392088, (some (3975354545425765612583291010941045, 0))),
  (26004638731472654145471617502563013562083864032891849226096184632243965135876486105962725835194296462542590882442676080427124396701, (some (3975354545425765612583291010941045, 0))),
  (26004638731472654145471617502563013562083864032891849226096184632243965135876522772134357422675008183891105495898225327126544913081, (some (3975354545425765612583291010941045, 0))),
  (26004638731472654145471617502563013562083864032891849226096184632243965135876486105983242530389925963481691249481100886271477158582, (some (3975354545425765612583291010941045, 0))),
  (26004638731472654145471617502563013562083864032891849226096184632243965135876529506736043113908796878883053768707802508504290300598, (some (3975354545425765612583291010941045, 0))),
  (26004638731472654145471617502563013562083864032891849226096184632243965221402033916779131670732980280959292497180295894088814695064, (some (3975354545425765612583291010941045, 0))),
  (26004638731472654145471617502563013562083864032891849226096184632243965221402033916779131670732980280959292497180296021632102699677, (some (3975354545425765612583291010941045, 0))),
  (28592399044225808726760748549973202434654866650651777668589621806814453755454412717303358670250614507514449260931332772189609938220801396314793, (some (4168461104154338724600402742622361223284, 0))),
  (28592399044225808726760748549973202434654866650651777668589621806814453755454412717303358639944902640150227806247651151389843095311189515702951, (some (4168461104154338724600402742622361223284, 0))),
  (28592399044225808726760748549973202434654866650651777668589621806814453755454412717303358639944902640150227803448677020631686258516909136810657, (some (4168461104154338724600402742622361223284, 0))),
  (28592399044225808726760748549973202434654866650651777668589621806814453755454412717303358639944902640150227808113633125068334746801808477262538, (some (4168461104154338724600402742622361223284, 0))),
  (28592399044225808726760748549973202434654866650651777668589621806814453755454412717303358639944902640150227803448677020631686259035878830641865, (some (4168461104154338724600402742622361223284, 0))),
  (28592399044225808726760748549973202434654866650651777668589621806814453755454412717303358639944902640150227807870244499966739079253593033806491, (some (4168461104154338724600402742622361223284, 0))),
  (28592399044225808726760748549973202434654866650651777668589621806814453755454412717303358639944902640150227807870244499966739079253592970891937, (some (4168461104154338724600402742622361223284, 0))),
  (28592399044225808726760748549973202434654866650651777668589621806814453755454412717303358639944902640150227803448677020631686258516909346525853, (some (4168461104154338724600402742622361223284, 0))),
  (28592399044225808726760748549973202434654866650651777668589621806814453755454412717303358639944902640150227807667420519986602995928531168400041, (some (4168461104154338724600402742622361223284, 0))),
  (28592399044225808726760748549973202434654866650651777668589621806814453755454412717303358639944902640150227807545726023679232766413377456050857, (some (4168461104154338724600402742622361223284, 0))),
  (28592399044225808726760748549973202434654866650651777668589621806814453755454412717303358639944902640150227807667420519986602995928531134845609, (some (4168461104154338724600402742622361223284, 0))),
  (28592399044225808726760748549973202434654866650651777668589621806814453755454412717303358639944902640150227807545726023679232766413377422496425, none),
  (28592399044225808726760748549973202434654866650651777668589621806814453755454412717303358639944902640150227807545726023679232766413377470730922, (some (4168461104154338724600402742622361223284, 0))),
  (28592399044225808726760748549973202434654866650651777668589621806814453755454412717303358639944902640158819937797257531026620632078129318335180, (some (4168461104154338724600402742622361223284, 0))),
  (121478999861907838829925002256465144454179321844279617595070974158158344282596206742819521483770815527102776988438276354849658361385202233652205, (some (4168461104154338724600402742622361223284, 0))),
  (28592399044225808726760748549973202434654866650651777668589621806814453755454601950410622214422227443535776567474750298765017627207469478449864, (some (4168461104154338724600402742622361223284, 0))),
  (13631820005894263583325099261706180492568791794736287593443090195291767601097981618697828543340551934443395298188040025065545456650411651692868235318049915700158982795616929674442884, (some (4168461104154338724600402742622361223284, 396850589364019742270666069610361574807627383872146659719918994812043379))),
  (268243499442862663729471252677934365350156323828682467401139988707655609248208961218923851354252790445823205265849271908963252239195581985548066368015495100547306170065021262339435695821792044736717942437076, none),
  (123896428378776526270502053365376981468527928253071051000381632576782207670942596117238934627064160823050552651549992482128948911643711615546580, (some (4168461104154338724600402742622361223284, 0))),
  (28592399044225808726760748549973202434654866650651777668589621806814453755454583849870691958380712424631877082733593460016473606813211628147352, (some (4168461104154338724600402742622361223284, 0))),
  (28592399044225808726760748549973202434654866650651777668589621806814453755454578913355450726063338834354171110408856304361483271787042731725464, none),
  (566480503196567783903203853944542817959272844428632275367486243084634459983306780913632528442251918503343140417984668656512957954675982899122561338021253716, (some (4168461104154338724600402742622361223284, 0))),
  (534270311693983676694210935250200487824206633762172143197474549242774344094269894376359418813739934851683163933004766303003129554888586918590136128796365396, (some (4168461104154338724600402742622361223284, 0))),
  (2491407600692103261502930862276026400474955881564287269423779372739389523059035738156407288644420329755387968397672733687215300150316722378246357983941707944880737620564, (some (4168461104154338724600402742622361223284, 0))),
  (128802754078735184499056204738481461383476829277232303403593073902287068487931144284158957842213977625036914244101845324751589511896702180660501, (some (4168461104154338724600402742622361223284, 0))),
  (121479004450062274530457890180455597907610119190289424324163969044026031760459565127987870114289808024465046484561692462336937901153845459817749, none),
  (128802754078735184499056198079538903120754376784278035241527189610313587423875574925782073452126229767191297004094570216439835172243306922906901, (some (4168461104154338724600402742622361223284, 0))),
  (121479004450062274530457883713597877391340860813709638778654371607995456980347695441626762253480476354807044355842155679138795869358236796720405, (some (4168461104154338724600402742622361223284, 0))),
  (2491407600692103261502930862276026400474955881564287269423779372739389925692619700174890915365153899500684133413098450388561228738667686482971779425574206279438206768405, (some (4168461104154338724600402742622361223284, 0))),
  (128802754078735184499056206147104256776452906433010605900949475497217361293650893802015223110295483704813328134821053669141807438739934095091144, (some (4168461104154338724600402742622361223284, 0))),
  (566480503196567783903203889989270119275710021207573633020284332816586347931105490485436695305284886901915679628723398015328143979517727047340703161971123656, (some (4168461104154338724600402742622361223284, 0))),
  (60991510382078255072308650750968437330392663131688656767696554358657433396776399154315422458134769900481455580742730202755739581324842542278467263457853594063574918096646400393584823892621405224, none),
  (28592399044225808726760748549973202434654866650651777668589621806814453755454580558854515591482098611628091152459909805898344862973026203865790, (some (4168461104154338724600402742622361223284, 0))),
  (28592399044225808726760748549973202434654866650651777668589621806814453755454412717303358678855943462763230761805233063160963772132504255861417, (some (4168461104154338724600402742622361223284, 0))),
  (28592399044225808726760748549973202434654866650651777668589621806814453755454412717384961007028127144530351171666379380027920231052016812561063, (some (4168461104154338724600402742622361223284, 0))),
  (28592399044225808726760748549973202434654866650651777668589621806814453755454412717303358678855943462763230761805233063160963772132504255861434, (some (4168461104154338724600402742622361223284, 0))),
  (566480503196567783903203888299671991232969273926294530045835536251444938656773129209753821617576664296486417974073393032910582082915587319234860100117080296, (some (4168461104154338724600402742622361223284, 0))),
  (28592399044225808726760748549973202434654866650651777668589621806814453755454412717383391728226987838169241912995027981951030429467300459451069, none),
  (28592399044225808726760748549973202434654866650651777668589621806814453755454412717303358639944902640150227807667420519986602995928531157914279, (some (4168461104154338724600402742622361223284, 0))),
  (28592399044225808726760748549973202434654866650651777668589621806814453755454583849870691958380712424632387505675502366831303431237635118469799, (some (4168461104154338724600402742622361223284, 0))),
  (3153187182398864877256280948877756877117810296580161690315459951958848511231730779835631055265047866149562851828265026409642289879274426376144137425455581400276045666789, (some (4168461104154338724600402742622361223284, 0))),
  (10957326505961892324976664510560620977132870952091198446118516533833351874008287238034277930973911108794508019351662506802519031166879468057780001788186451947748790192055090864462309, (some (4168461104154338724600402742622361223284, 0))),
  (121478999861907838829925002256465144454179321844279186825414068090584287907484818691086265161353647913946982526918170695757555129764297649952776, (some (4168461104154338724600402742622361223284, 0))),
  (199894247891591508259250603967067151703348938931052502075210054532637509218994308607602869580316308387203230158922531201122180059175550829740221883210335783923289910241897974644978824264335290885081026009096, (some (4168461104154338724600402742622361223284, 0))),
  (157490390278569819387994427057176132659444821179074052162957228211949620482984807795016819213007406738365612961602461888852580139638384259766280, (some (4168461104154338724600402742622361223284, 0))),
  (58924150593539252937360430897017077692903630314663552212865654386112814390462221078518991870176819654917496593908305537604116909615245089195369421212920033984672460609471418782819132756149147656, (some (4168461104154338724600402742622361223284, 0))),
  (28592399044225808726760748549973202434654866650651777668589621806814453755454580558854515591482098611628091152459909805897902141172431752008354, none),
  (28592399044225808726760748549973202434654866650651777668589621806814453755454605241424444677149541057540405806565879767351043283043611408601767, (some (4168461104154338724600402742622361223284, 0))),
  (2491407600692103261502930877137892248230936913455845816619499904923297596830774490641515051035834757127723995624768380868711231830195349237206097287701504750092673888805, (some (4168461104154338724600402742622361223284, 0))),
  (566480503196567783903203890552467078304160933725518772318221396141177408754508902061246609035696636044503827010901590209352599607815722534715175564759541389, (some (4168461104154338724600402742622361223284, 0))),
  (7895626358878026742843675383608128686197251467118268836728470412209184821439367473673899448366544427715512346278822872609862980265, (some (2190502480961780745497372205777012, 0)))
]

def ptab_5 : PTable := [
  (7895626358878026742843675383608128686197251467118268836728470412209184821439337167962032084145089744033891546511979962997982368423, (some (2190502480961780745497372205777012, 0))),
  (7895626358878026742843675383608128686197251467118268836728470412209184821439337167962032084145086945059760788355143168717603476129, (some (2190502480961780745497372205777012, 0))),
  (7895626358878026742843675383608128686197251467118268836728470412209184821439337167962032084145091610015865225003631453616943928010, (some (2190502480961780745497372205777012, 0))),
  (7895626358878026742843675383608128686197251467118268836728470412209184821439337167962032084145086945059760788355143687687297307337, (some (2190502480961780745497372205777012, 0))),
  (7895626358878026742843675383608128686197251467118268836728470412209184821439337167962032084145091366627240123407963905401500471963, (some (2190502480961780745497372205777012, 0))),
  (7895626358878026742843675383608128686197251467118268836728470412209184821439337167962032084145091366627240123407963905401437557409, (some (2190502480961780745497372205777012, 0))),
  (7895626358878026742843675383608128686197251467118268836728470412209184821439337167962032084145086945059760788355143168717813191325, (some (2190502480961780745497372205777012, 0))),
  (7895626358878026742843675383608128686197251467118268836728470412209184821439337167962032084145091163803260143271880580339635065513, (some (2190502480961780745497372205777012, 0))),
  (7895626358878026742843675383608128686197251467118268836728470412209184821439337167962032084145091042108763835901651065185922716329, (some (2190502480961780745497372205777012, 0))),
  (7895626358878026742843675383608128686197251467118268836728470412209184821439337167962032084145091163803260143271880580339601511081, (some (2190502480961780745497372205777012, 0))),
  (7895626358878026742843675383608128686197251467118268836728470412209184821439337167962032084145091042108763835901651065185889161897, none),
  (7895626358878026742843675383608128686197251467118268836728470412209184821439337167962032084145091042108763835901651065185937396394, (some (2190502480961780745497372205777012, 0))),
  (7895626358878026742843675383608128686197251467118268836728470412209184821439337167962032092737221293640271183289516729937785000652, (some (2190502480961780745497372205777012, 0))),
  (121478999861907838829925002256465144454179321844279617595070974158158344113503424537459823334031381211254018518087116502146919027063085447787501, (some (2190502480961780745497372205777012, 0))),
  (35809168884627483609618690720066327380537773292206662862013527200865014833095329661094512106363683736507043087763277606874259666132, (some (2190502480961780745497372205777012, 0))),
  (13631820005894263583325099261706180492568791794736287593443090195291767601097981618697828543340551934443395298018947242860185758500672217377019476847698755847456243461294812888578180, (some (2190502480961780745497372205777012, 348538376455029466572818923685638866647091670320635205185298738750423155))),
  (268243499442862663729471252677934365350156323828682467401139988707655609248208961218923851354252790445823205265849271908963252239195581816455284162655796950807871854216262791988275843119052710414601156572372, none),
  (123896428378776526270502053365376981468527928253071051000381632576782207501849813911879236477324726507201794181198832629426209577321594829681876, (some (2190502480961780745497372205777012, 0))),
  (29286355602092768208207463773492533332348191809644628099790966738689105716130814167334512249650840406821789417690978817505407013460, (some (2190502480961780745497372205777012, 0))),
  (27621127730995402664679634409965683272580579804513644420100563306290618054930265162345089405540348627778624129781911614257092366932, none),
  (566480503196567783903203853944542817959272844428632275367486243084634459983306780913463435660046558805193400983668819898042606794823280159788239221235389012, (some (2190502480961780745497372205777012, 0))),
  (534270311693983676694210935250200487824206633762172143197474549242774344094269894376190326031534575153533424498688917544532778395035884179255814012010500692, (some (2190502480961780745497372205777012, 0))),
  (2491407600692103261502930862276026400474955881564287269423779372739389523059035738156407288644420160662605763037974583947780984301558252027086505281202373622763951755860, (some (2190502480961780745497372205777012, 0))),
  (128802754078735184499056204738481461383476829277232303403593073902287068318838362078799259692474543309188155773750685472048850177574585394795797, (some (2190502480961780745497372205777012, 0))),
  (121479004450062274530457890180455597907610119190289424324163969044026031591366782922628171964550373708616288014210532609634198566831728673953045, none),
  (128802754078735184499056198079538903120754376784278035241527189610313587254782792720422375302386795451342538533743410363737095837921190137042197, (some (2190502480961780745497372205777012, 0))),
  (121479004450062274530457883713597877391340860813709638778654371607995456811254913236267064103741042038958285885490995826436056535036120010855701, (some (2190502480961780745497372205777012, 0))),
  (2491407600692103261502930862276026400474955881564287269423779372739389925692619700174890915365153730407901928053400300649126912889909216131811926722834871957321420903701, (some (2190502480961780745497372205777012, 0))),
  (128802754078735184499056206147104256776452906433010605900949475497217361124558111596655524960556049388964569664469893816439068104417817309226440, (some (2190502480961780745497372205777012, 0))),
  (566480503196567783903203889989270119275710021207573633020284332816586347931105490485267602523079527203765940194407549256857792819665024308006381045185258952, (some (2190502480961780745497372205777012, 0))),
  (60991510382078255072308650750968437330392663131688656767696554358657433396776399154315422458134769900481455580742730202755570488542637182580317524023537745305104566936793697654250501775835540520, none),
  (28170786294771579894245872620871746555287229108634435147374145818711491844090555070429322999095348958100415463710015906935075777576, (some (2190502480961780745497372205777012, 0))),
  (7895626358878026742843675383608128686197251467118268836728470412209184821439376079002854697148045301615803317632656784312722526889, (some (2190502480961780745497372205777012, 0))),
  (7895626358878026742843675383608128686197251467118268836728470412209184903041704251186536464268455162762120184589115703825279226535, (some (2190502480961780745497372205777012, 0))),
  (7895626358878026742843675383608128686197251467118268836728470412209184821439376079002854697148045301615803317632656784312722526906, (some (2190502480961780745497372205777012, 0))),
  (566480503196567783903203888299671991232969273926294530045835536251444938656773129209584728835371304598336678539757544274440230923062884579900537983331215592, (some (2190502480961780745497372205777012, 0))),
  (7895626358878026742843675383608128686197251467118268836728470412209184901472425450047230103159196491410722107699314119108926116541, none),
  (7895626358878026742843675383608128686197251467118268836728470412209184821439337167962032084145091163803260143271880580339624579751, (some (2190502480961780745497372205777012, 0))),
  (29286355602092768208207463948192510281741151777898291213133665376670715857715624173955777418022737703590107575453269853766135323437, (some (2190502480961780745497372205777012, 0))),
  (3153187182398864877256280948877756877117810296580161690315459951958848511231730779835631055265047697056780646468566876670207974030515956024984284722716247078159259802085, (some (2190502480961780745497372205777012, 0))),
  (10957326505961892324976664510560620977132870952091198446118516533833351874008287238034277930973911108794508019182569724597159333017140033741931243317835292095046050857732974078597605, (some (2190502480961780745497372205777012, 0))),
  (121478999861907838829925002256465144454179321844279186825414068090584287738392036485726567011614213598098224056567010843054815795442180864088072, (some (2190502480961780745497372205777012, 0))),
  (199894247891591508259250603967067151703348938931052502075210054532637509218994308607602869580316308387203230158922531201122180059175550660647439677850637634183855594393139504293818971561595956562964240144392, (some (2190502480961780745497372205777012, 0))),
  (157490390278569819387994427057176132659444821179074052162957228211949620313892025589657121063267972422516854491251302036149840805316267473901576, (some (2190502480961780745497372205777012, 0))),
  (58924150593539252937360430897017077692903630314663552212865654386112814390462221078518991870176819654917496593908305537603947816833039729497219681778604185226202109449618716043484810639363282952, (some (2190502480961780745497372205777012, 0))),
  (28170786294771579894245872620871746555287228960020207661831368017998088888285122203339946028216781189472173224526353855751022188552, none),
  (37065537199951115400019262332261078228799246956199593089462379216450849376470769767701131936081924990865553448402262392391218502445, (some (2190502480961780745497372205777012, 0))),
  (2491407600692103261502930877137892248230936913455845816619499904923297596830774490641515051035834588034941790265070231129276915981436878886046244584962170427975888024101, (some (2190502480961780745497372205777012, 0))),
  (566480503196567783903203890552467078304160933725518772318221396141177408754508902061077516253491276346354087576585741450882248447963019795380853447973676685, (some (2190502480961780745497372205777012, 0))),
  (15078477136536907201681960166010381244957763416487828525424082516424507583623473722135727281406305735236644403799931050076727609354198508792146137488870828995593782133922260590793385, (some (95725842246407480770276094314574096453307322869941557788788, 0))),
  (15078477136536907201681960166010381244957763416487828525424082516424507583623473722135727281406305735236644403799931050076727609323892796924781916034187147374794015291012648710181543, (some (95725842246407480770276094314574096453307322869941557788788, 0))),
  (15078477136536907201681960166010381244957763416487828525424082516424507583623473722135727281406305735237404289789303293066066849568779400784694267010467158155840063244045048419979976, (some (95725842246407480770276094314574096453307322869941557788788, 0))),
  (15078477136536907201681960166010381244957763416487828525424082516424507583623473722135727281406307313655980541096261498755592714987309919802998639515982906942281186490786500550070977, (some (95725842246407480770276094314574096453307322869941557788788, 0))),
  (15078477136536907201681960166010381244957763416487828525424082516424507583623473722135727281406307313655980541096261498755593499625026843138094118989660807900583199285217058554385089, (some (95725842246407480770276094314574096453307322869941557788788, 0))),
  (15078477136536907201681960166010381244957763416487828525424082516424507583623473722135727284716491002855647677793038829390799855869971094882871080846352915830218283482057946530058945, (some (95725842246407480770276094314574096453307322869941557788788, 0))),
  (15078477136536907201681960166010381244957763416487828525424082516424507583623473722135727284716491002855647677793038831036304413191177137037840263403703420812954149115637809878667969, (some (95725842246407480770276094314574096453307322869941557788788, 0))),
  (15078477136536907201681960166010381244957763416487828525424082516424507583623473722135727281406307268124663905606697451677391401524872262143599919555439653281956380033679044925985473, none),
  (15078477136536907201681960166010381244957763416487828525424082516424507583623473722135727281406307268124663905606697451677392186162589185478695399029117554240258392828109602930299585, none),
  (15078477136536907201681960166010381244957763416487828525424082516424507583623473722135727284621004911110897467572580685349869477811335371538508387640852658341707147667280984367174337, none),
  (15078477136536907201681960166010381244957763416487828525424082516424507583623473722135727284621004911110897467572580686995374035132541413693477570198203163324443013300860847715783361, none),
  (348757317141997287655631952242074339913948188100864193704369541957160088229499420830337688107247327598431832016416042115282574781169222886125223262615316906812401495184761562928285177112932941263875021057468689312908842120811406751334054448153363619270096657348940541832, (some (95725842246407480770276094314574096453307322869941557788788, 0))),
  (328926908311186790886395019480819649601930558890456183003519775058664085962114250385116713141356877263451755772486139979756554145744675827959047895708082148216681211415654547556389758960883283373848803248799512057911661741720732679315109417076342560120384999970312302472, none),
  (4099622561083547445530753779841333130453874636961069850075013309966393290019768374061267362796810601581065384231763311630311018056516562167897928544939185883390752147465901979105845081067278782195302535316104483960621131460241272933, (some (95725842246407480770276094314574096453307322869941557788788, 0))),
  (15078477136536907201681960166010381244957763416487828525424082516424507583623473722135727281406305735236644404158822055924931033619253940757282553399611042558152652548642878571680438, (some (95725842246407480770276094314574096453307322869941557788788, 0))),
  (15078477136536907201681960166010381244957763416487828525424082516424507583623473722135727281406305735236644404148469433113750196774594342685647280632435586383861571748489409616417462, none),
  (15078477136536907201681960166010381244957763416487828525424082516424507583623473722135727281406305735237447711784807615911809310086974195399087811752540870664660333100730851883225788, (some (95725842246407480770276094314574096453307322869941557788788, 0))),
  (46355154630916526478086382577335569582909633295981406767989449251645802222683990155704784239976517665638923492054784781695429099001608482471752441438773181219488726572275613196454269570521247624, (some (95725842246407480770276094314574096453307322869941557788788, 0))),
  (203872126096188858090802251604582873268356337182303058219609850069883284195442531389434570480695063699482622855391532129433953332177524869771272833934409513401532051312742188682118393351320401188191626866789, (some (95725842246407480770276094314574096453307322869941557788788, 0))),
  (645303718566533522565740000335323342450361600512520474045942983177259043048088889629038582231727760771928508946761542092583807735083188611417755103931667113, (some (88857337113364064297764540870161547049639305797288971393887633476, 0))),
  (645303718566533522565740000335323342450361600512520474045942983177259043048088889629038582231727760771898203234894177871129124053462388844574845492051055271, (some (88857337113364064297764540870161547049639305797288971393887633476, 0))),
  (645303718566533522565740000335323342450361600512520474045942983177259043048088889629038582231727760771898203234894177871126325079331630687738051211672162977, (some (88857337113364064297764540870161547049639305797288971393887633476, 0))),
  (645303718566533522565740000335323342450361600512520474045942983177259043048088889629038582231727760771898203234894177871126325079331630687738051211915432605, none),
  (645303718566533522565740000335323342450361600512520474045942983177259043048088889629038582231727760771898203234894177871130990035436067336226336111012614858, (some (88857337113364064297764540870161547049639305797288971393887633476, 0))),
  (645303718566533522565740000335323342450361600512520474045942983177259043048088889629038582231727760771898203256124495977331931843007500641007582523126977193, (some (88857337113364064297764540870161547049639305797288971393887633476, 4097049003047546507896468319240277))),
  (645303718566533522565740000335323342450361600512520474045942983177259043048088889629038582231727760771898203256124495977331931843007500641007582523141657258, (some (88857337113364064297764540870161547049639305797288971393887633476, 4097049003047546507896468333920342))),
  (645303718566533522565740000335323342450361600512520474045942983177259043048088889629038582231727760771898203234894186463260673659842025622111612431853687500, (some (88857337113364064297764540870161547049639305797288971393887633476, 0))),
  (645303718566533522565740000335323342450361600512520474045942983177259043048088889629387120608182790238471022158579816737773416749652265892923349950422586055, (some (88857337113364064297764540870161547049639305797288971393887633476, 0))),
  (645303718566533522565740000335323342450361600512520474045942983177259043048088889629038582420960868035472680559697563419890351152609764019106741772013802184, (some (88857337113364064297764540870161547049639305797288971393887633476, 0))),
  (13631820005894263583325099261706180492568791794736287593443090195291767601097981618697828543340551934444198606003823772494043225384444134928209442219096197822258782328756664753207428, (some (88857337113364064297764540870161547049639305797288971393887633476, 0))),
  (645303718566533522565740000335323342450361600512520474045942983177259043048088889629038582231727760771898203234894177871130543822830985604475462833703752361, (some (88857337113364064297764540870161547049639305797288971393887633476, 0))),
  (268243499442862663729471252677934365350156323828682467401139988707655609248208961218923851354252790445823205265849271908963252239998889801331813796513263834579789405406228163385717817921591577876453021201620, (some (88857337113364064297764540870161547049639305797288971393887633476, 0))),
  (645303718566533522565740000335323342450361600512520474045942983177259043048088889629038582231727760771898203234894177871130746646810965740558787895569158811, (some (88857337113364064297764540870161547049639305797288971393887633476, 0))),
  (645303718566533522565740000335323342450361600512520474045942983177259043048088889629038582231727760771898203234894177871130746646810965740558787895506244257, (some (88857337113364064297764540870161547049639305797288971393887633476, 0))),
  (645303718566533522565740000335323342450361600512520474045942983177259043048088889629038582231727760771898203234894177871126325079331630687738051211881878173, (some (88857337113364064297764540870161547049639305797288971393887633476, 0))),
  (645303718566533522565740000335323342450361600512520474045942983177259043048088889629038582231727760771942726438971243171761981457355869791866645425342648984, (some (88857337113364064297764540870161547049639305797288971393887633476, 730937967062857993317413629388270968920041172213304372216866854764184481038404))),
  (645303718566533522565740000335323342450361600512520474045942983177259043048088889629038582231727760771942726438971243171761981457355869791866772968630653597, (some (88857337113364064297764540870161547049639305797288971393887633476, 348538383037022587450701536840568050823231302363063860615413516585664585))),
  (645303718566533522565740000335323342450361600512520474045942983177259043048088889629038582231727760771898203256124495977331931843007500641007582523093422761, (some (88857337113364064297764540870161547049639305797288971393887633476, 4097049003047546507896468285685845))),
  (645303718566533522565740000335323342450361600512520474045942983177259043048088889629038582231727760771898203254697247944343645605694558635259850732647486104, (some (88857337113364064297764540870161547049639305797288971393887633476, 752648990696571507667865194803397024474268714480131260899070302490652141682756))),
  (645303718566533522565740000335323342450361600512520474045942983177259043048088889629038582231727760771898203254697247944343645605694558635259978275935490717, (some (88857337113364064297764540870161547049639305797288971393887633476, 358891005848203424295361134912203323590406758537354941415566985540927561))),
  (2838075572973711465528602331843979703148768886197076479419037085049267732319183618852101339853574584386249622113701892515795972643143890393490834741028581814394842785224, (some (88857337113364064297764540870161547049639305797288971393887633476, 752648990696571507667865218748640920940062079795808830841099536606097074815074))),
  (645303718566533522565740000335323342450361600512520474045942983177259043048088889629038582231727760771898203234894187313965982489629275475968922184312689321, (some (88857337113364064297764540870161547049639305797288971393887633476, 4218743499354916737411621998035029))),
  (4670066289350235279862045832362254016683803094437465982439698932449233352680839820699145007651255210620271847762010456567749528911081499081640664016388417818294783257435572139580572573328494527117084915892040202481174344756568789588, (some (88857337113364064297764540870161547049639305797288971393887633476, 1578419336137296330448678873736679051570008234329494665209918506973404986269503586372))),
  (4670066289350235279862045832362254016683803094437465982439698932449233352680839820699145007651255210637703924416188436226521089587602378419753328070161303329253146208576486389490615074625206264033727717167955090524013650413566825749, (some (88857337113364064297764540870161547049639305797288971393887633476, 1578419336137296330448678873736679051570008234329494665209918506973405113812791590985))),
  (645303718566533522565740000335323342450361600512520474045942983177259043048088889629038582231727847866721447896364551224886439164916871586755771817521058473, (some (88857337113364064297764540870161547049639305797288971393887633476, 38911040822613002958356556042529277513615595119050837))),
  (645303718566533522565740000335323342450361600512520474045942983177259043048088889629038582414378843529086495151313762601901138338453487498542048434695705255, (some (88857337113364064297764540870161547049639305797288971393887633476, 81602367083224504380123368217702359396233972535107675750483))),
  (645303718566533522565740000335323342450361600512520474045942983177259043048088889629038582231727760771898203234894177871130543822830985604475462833693266599, (some (88857337113364064297764540870161547049639305797288971393887633476, 0)))
]

def ptab_6 : PTable := [
  (645303718566533522565740000335323342450361600512520474045942983177259043048088889629038582402860328105216639044678660030828551904677830304910771937653822119, (some (88857337113364064297764540870161547049639305797288971393887633476, 0))),
  (3153187182398864877256280948877756877117810296580161690315459951958848511231730779835631056068355681933310280326033760442125525220481327422426259525255114540011124431333, (some (88857337113364064297764540870161547049639305797288971393887633476, 0))),
  (10957326505961892324976664510560620977132870952091198446118516533833351874008287238034277930973911108795311327167446254231016799900911951293121208689232734069848589725194825943226853, (some (88857337113364064297764540870161547049639305797288971393887633476, 0))),
  (645303718566533522565740000335323342450361600512520474045942983177259043048088889629038582231727760771898203243992891780320327808455431553786080725244580485, (some (88857337113364064297764540870161547049639305797288971393887633476, 348538376455029466572818923685638866647091670320634587219407453823172686))),
  (645303718566533522565740000335323342450361600512520474045942983177259043048088889629038582231727760771898203243992890504261451854936193566131302856113787525, none),
  (645303718566533522565740000335323342450361600512520474045942983177259043048088889629038582315648572443734017989960067019716567484996582169239575244503519877, none),
  (645303718566533522565740000335323342450361600512520474045942983177259043048088889629038582424251881857935407873311568049129442282078350044762577913943954087, (some (88857337113364064297764540870161547049639305797288971393887633476, 0))),
  (645303718566533522565740000335323342450361600512520474045942983177259043048088889629038582231727837666430379604169995803800073019812983779989798579905499841, none),
  (645303718566533522565740000335323342450361600512520474045942983177259043048088889629038582231727838451068096527505091283273750920771285792784229137909813953, none),
  (645303718566533522565740000335323342450361600512520474045942983177259043048088889629038582392987282714635382755023320486967201429931752504331057186203505345, none),
  (645303718566533522565740000335323342450361600512520474045942983177259043048088889629038582394632787271956588797178289669524551934914488369964637049552114369, none),
  (1061850264495849328250196904320219360879948739845908615488131162539661946362161457220842459391869573841678578369441336451784693204445706220098730524014488589329917224919262108290719762832441610795354465544307586115841928, none),
  (645303718566533522565740000335323342450361600512520474045942983177259043048088889629038582231727760771898203253091594545261864967450551154644539697329607350, none),
  (46355154630916526478086382577335569582909633295981406767989449251645802222683990155704784239976517665635040390570593225242562956114731565505032313846899000508012746758101441311408630196833628040, none),
  (203872126096188858090802251604582873268356337182303058219609850069883284195442531389434570480695063699482622855391528246332469140621072003628385957017442793273940177132030712702304219179435355548817939247205, none),
  (2491407600692103261502930877137892248230936913455845816619499904923297596830774490641515051839142572911471424122537114901194467171402250283488219387501037889827752653349, (some (88857337113364064297764540870161547049639305797288971393887633476, 0))),
  (645303718566533522565740000335323342450361600512520474045942983177259043048089642278029278803235428637117326018985433763941545696847807175015003943816139447, (some (88857337113364064297764540870161547049639305797288971393887633476, 0))),
  (1883626845791396008807094082015787281476716234628709688023212980731499336246232385490421543191054609557855, none),
  (1883626845791396008807094082015787281476716234628709657717501113367277881562550764690654700281442728946013, none),
  (1883626845791396008807094082015787281476716234628709657717501113376125225130735796278194121436361994021241, none),
  (2491407600692103261502930844937207124251052190713496214691812971283632287880923073707023027117925230689331679106651244507253681176447128870125281011957445759982372923254, none),
  (1883626845791396008807094082015787281476716234628709657717501113376125225130735796278194121176877363112302, none),
  (10957326505961892324976664466985242207978071956046870621939953902640873653887111636343800980429121823239399171805431999070971657625316784319570039178230465439320425849584361922373494, none),
  (211945518832081305745723091271836288054530354170577942109972165533497022105144732580479244986185673755054383246592475202975179610194913438262606008733570079514899681875762237379952691288069647229638622062454, none),
  (211945518832081305745723091271836288054530354170577942109972165533497022105144732580479252797633939418616143483307625190525018325691115971971359002415062036616626849545974675806573940412396227249855455570807, none),
  (1883626845791396008807094082015787281476716234628709657717501113377146072272064011160308670985181482461499, none),
  (1883626845791396008807094082015787281476716234628709657717501113375870013396110491922321016207312351668539, none),
  (6280317509986086320887245946643921171283310713453129541729468619796364380197178234993695194036223836377374410013673927, none),
  (918436171787700606781628969983420332807121779929437592982414245105976121721586551984869474158644666834094, (some (161259538420127738332489520670058688236793102573394066196045758532, 0))),
  (69504280700176790800551086037969858002202953265388145386942904359538987559302721, (some (161259538420127738332489520670058688236793102573394066196045758532, 0))),
  (69504280700176790800551086037969858002202953262589171256184747522744707434165828, (some (161259538420127738332489520670058688236793102573394066196045758532, 0))),
  (69504280700176790800551086037969858002202953262589171256184747522744707436262980, (some (161259538420127738332489520670058688236793102573394066196045758532, 0))),
  (69504280700176790800551086037969858002202953262589171256184747522744707438360132, (some (161259538420127738332489520670058688236793102573394066196045758532, 0))),
  (69504280700176790800551086037969858002202953262589171256184747522744707423680067, (some (161259538420127738332489520670058688236793102573394066196045758532, 0))),
  (6156569691829162237217564267133194645776779725643894274315970488744632978955366484318269377193050798961320298928941134, (some (161259538420127738332489520670058688236793102573394066196045758532, 0))),
  (69504280700176790800551086037969858002202953262589173596665927507128152097830480, none),
  (69504280700176790800551086037969858002202953262589173616008740620962218893129296, none),
  (69504280700176790800551086037969858002202953262589173635351553734796285688428112, none),
  (69504280700176790800551086037969858002202953262589173499951852714585781266560592, none),
  (1851290517993313348192684762615259358543224157509331936252259036681792183343390720120930980373490932126341, (some (0, 17078061468811731033924334625600420959905644423582241405640642147642527237309436041635329875898219364452))),
  (1851290517993313348192684762615259358554199672133012260637451609748751211889574341239620744657931776038214, (some (0, 17078061468811731033924334625600420959905644423582241405640642147642527237309436041635330144178928615529))),
  (291660183532511900010344867265445380410695308294299886009454974862577803854993284319924026163824719086411191051012906438289398407461708063021400846218918281710822684276392770363621583156495507498770903345029, none),
  (291660183532511900010344867265445380410695308294299886009454974862577803854993284319924035327253606059013248457745983466190699635109212884560458954591918259421611245935522374405876718755496135629340802034566, none),
  (656983181550013790602754605895830027221351272199751262310181786068052443123887157122701562210517151234816522173933274224874941791090735408192055756239939461, (some (0, 17078061468811731033924334625600420959905644423582241405640642147642527237309436041635329875898219364452))),
  (656983181550013790602754605895830027221351272199751262310181786502959612961680026628516791280701880441626591008402647181548661939171400946282440107883506566, (some (0, 17078061468811731033924334625600420959905644423582241405640642147642527237309436041635330144178928615529))),
  (69504280700176790800551086037969858002202953262589171256184747523237288496608861, (some (338185760225853520181149408194579637261774106712223565914110067340214389, 9527908342594203602585952053437044621421))),
  (6405294680977254456306719112375325480567595112291150272708504620815391517272182055704226300625308593718025693595445125, (some (338185760225853520181149408194579637261774106712223565914110067340214389, 4543261685500171002592177443307629))),
  (69504280700176790800551086037969858002202953262589171256184747522977803865699922, (some (338185760225853520181149408194579637261774106712223565914110067340214389, 4508745621010385689937330139416160632945))),
  (33965237012382413166108212033409695144888019541115943926294557858917403704309523393950105334137006947623795884770347995320404682629, (some (338185760225853520181149408194579637261774106712223565914110067340214389, 4338604721503650909329028770961794531441))),
  (69504280700176790800551086037969858002202953262589171256184747522969007720248882, (some (161259538420127738332489520670058688236793102573394066196045758532, 0))),
  (69504280700176790800551086037969858002202953262589171256184747523096551008253495, (some (161259538420127738332489520670058688236793102573394066196045758532, 0))),
  (1344408142117030537373099129753812367805147396976278340286083809318452476084043960742625495848819760310350, (some (161259538420127738332489520670058688236793102573394066196045758532, 0))),
  (420934781750366645810373247512315870227301300092521865687704963407569348510897120167518545401, (some (161259538420127738332489520670058688236793102573394066196045758532, 0))),
  (1883627124537812032194538670877585618888334801657961642651641595516021437322670354742962231348679585834489, (some (161259538420127738332489520670058688236793102573394066196045758532, 0))),
  (2539549557434860450643600546434334010080326834221076448331287213045059786788259704125094741897866427186171351258706616939756893355964284813498816927604644459995390284421, (some (161259538420127738332489520670058688236793102573394066196045758532, 85525547810816405835538683818416701614737620165505518141508))),
  (2539549557434860450643600546434334010080326834221076448331287213045060193293314630594029870134405123430336288026774035179246093068107293462028115646710582017853573043526, (some (161259538420127738332489520670058688236793102573394066196045758532, 85525547810816405835538683818416701614737620293048806146121))),
  (918436171787700606781628969983420332807121779929437592982414245097639198985937816780025228871857709522080, (some (169092871062696811513803732080389628631898209492008536623293510673498180, 0))),
  (7834256184653379645914447614150598061271183685205748970617946774352, (some (169092871062696811513803732080389628631898209492008536623293510673498180, 0))),
  (1245519691892121849168411881250604995062341, (some (0, 77))),
  (1245519691892121849168411881250604995062309, (some (169092871062696811513803732080389628631898209492008536623293510673498180, 0))),
  (1245519691892121849168411881250605238331937, none),
  (1245519691892121849168411881769574688893517, (some (169092871062696811513803732080389628631898209492008536623293510673498180, 0))),
  (21761815456320750877644689240855359058265521029984997207448850806475, (some (169092871062696811513803732080389628631898209492008536623293510673498180, 0))),
  (450726406890681621231210044109668274035484357563774274929782361641521829680543047716261862560, (some (169092871062696811513803732080389628631898209492008536623293510673498180, 4097049003047546507896468319240277))),
  (1982315860152100543716389729592865619425177306873125488717839767455369793991927092099931629364721213250720, none),
  (1982315860152100543716389731315273719826175655404002857189564844890717383451031123811464276886237166443680, none),
  (1982315860152100543716389733037681820227174003934880226409578760639487267030421789873733830471590581640352, none),
  (450726406890681621231210044109668274035929589647005564148550138949115960628371021157397175627, none),
  (1982315860152100543716389731315273719826175656337722248416673192320694723374216374703189088745589926010187, none),
  (1982315860152100543716389733037681820227174004868599617636687108069464607359255271524118278478021957524811, none),
  (450726406890681621231210044109668274036018636055159694749821451705164438836628829709321379147, none),
  (1982315860152100543716389733037681820227174005055343478072826433105527496759966750043423367177095375494475, none),
  (450726406890681621231210044109668274036107682463313825351092764461212917044886647057338604875, (some (169092871062696811513803732080389628631898209492008536623293510673498180, 4097049003047546507896468333920342))),
  (73824772664057031711710344881072867301828609268701417696263418133510609549932711, (some (169092871062696811513803732080389628631898209492008536623293510673498180, 0))),
  (121478999861907838829925002256465144454179321844279617595070974158158344113503335680122709969967083446713148356540066862842237766627120704926736, (some (169092871062696811513803732080389628631898209492008536623293510673498180, 0))),
  (523743026712335006519144104743896197835365519695010825414418077874334115609373980637565956466857471023903027234039347958753150369785123477185293803797362855, none),
  (35809168884627483609618690720066327380537773292206662862013527200776157495981965596796747565493522189457403783082017170909516805367, (some (169092871062696811513803732080389628631898209492008536623293510673498180, 0))),
  (13631820005894263583325099261706180492568791794736287593443090195291767601097981618697828543340551934443395298018947154002848645136607919612478606686151706208151562200858848145717415, (some (169092871062696811513803732080389628631898209492008536623293510673498180, 0))),
  (17797796713349368358409107044594804836234217708219432365921451121995, none),
  (17797796713349368358409107062289497570552542399611948347883769568587, none),
  (17797796713349368358409107079984190304870867091004464338642181037387, none),
  (17797796713349368358409106956121332727155595541423377764807191043232, (some (169092871062696811513803732080389628631898209492008536623293510673498180, 0))),
  (577426716844232585343294903100732060487875271601250086905789417388032175994889714309102899942197403538249816046209123835837215192466604274576102927858939127, none),
  (268243499442862663729471252677934365350156323828682467401139988707655609248208961218923851354252790445823205265849271908963252239195581816455195305318683586743574089675392630441226203814371449978636413711607, none),
  (268243499442862663729471249122073001329570429925760535351024519211951836361115931695062593907426304955286815133014495204786559962259895106618053953697242058993043367281092973148242799068435996984693141549192, none),
  (100361808291613421506973316277645560878639889484976022511428407122722700158481871881780818177872017348077266186156918122992239386460745099663821804522285731735051884136849484930911963776992534639312147274605295292082938752984336647329088625526549752301236360, none),
  (37065537199951115400019262102966886913268110272747050416904043058242403062479797262527474292907934299490259430299343999905583605227, none),
  (37065537199951115400019262102966886913238318607994471391145820685721813123013788731669202025320766884595471827518479791948801517035, none),
  (716951759022518871746861100000161657770465140875723475482291088147603780484363650679654824544496389331581597849884601205424970952107625701201729316641060087, none),
  (37065537199951115400019262102966886913089360284231569488507936420264928797607750253849133597087737407177039398206480527691136116800, none),
  (163015956564440528324408001026350042995975146978761127337144485494301330112612034356343368752418197905660701162872287099959990732866080791864811, none),
  (5188583878724145122184574168337154040071810836482095747881422541284420072903226162172490824513758580235053603824043318435593889410492088778383976725155867500806420094623168000937182410759102363253350852400594637754744639214917268727, none),
  (19550258974313332752945337075203820181973580183247150543519495492632, (some (169092871062696811513803732080389628631898209492008536623293510673498180, 0))),
  (19550258974313332752945336518841928295435450617066316864801239734160, (some (169092871062696811513803732080389628631898209492008536623293510673498180, 0))),
  (1245519691892121849168411881250605204777505, (some (169092871062696811513803732080389628631898209492008536623293510673498180, 0))),
  (1982315701288004208984377747412728498551103402638350977028116774605772364138243630789218076950801982427767, (some (169092871062696811513803732080389628631898209492008536623293510673498180, 730937967062857993317413629388270968920041172213304372216866854764184481038404)))
]

def ptab_7 : PTable := [
  (8718317352648070575068889280298640619882412851084910406115300891641025505744187927950997581676078030967952995619181175, none),
  (8718317352648070575068889287873871556548291781199601420538444016927820184497561083937435365737561054045826799223444087, none),
  (8718317352648070575068889295449102493214170711314292438252596256857026947560872605038574159764515808390860329524925047, none),
  (1982315701288004208984377747412728498562460674319329575776491988052201727959382089712840202247709380318520, (some (169092871062696811513803732080389628631898209492008536623293510673498180, 348538383037022587450701536840568050823231302363063860615413516585664585))),
  (8718317352648070575068889280298640619882412874902836380815073861033115680387555870401433192557808497625712548909159736, none),
  (8718317352648070575068889287873871556548291805017527395238216986319910369488469864412165408876217613689097275674989880, none),
  (8718317352648070575068889295449102493214170735132218412952369226249117142899322223537598635160098461019641729138038072, none),
  (450726406890681621231210044109668274034059615033308185309441357544746178348420010841634512032, (some (169092871062696811513803732080389628631898209492008536623293510673498180, 4097049003047546507896468285685845))),
  (1982315860152100543716389729592865619425177303885223721739610566878363566176691865058464026344750850251936, none),
  (1982315860152100543716389731315273719826175652416101090211335644313711154337721682136289766733642721139872, none),
  (1982315860152100543716389733037681820227174000946978459431349560062481036619038133564852413186372054031520, none),
  (392161584324755452552779840159627185278907109857091944394485160324268442252363914941405598327, (some (169092871062696811513803732080389628631898209492008536623293510673498180, 752648990696571507667865194803397024474268714480131260899070302490652141682756))),
  (392161584324755452552779840159632236776246557635813404334507804608434140438890555544350758200, (some (169092871062696811513803732080389628631898209492008536623293510673498180, 358891005848203424295361134912203323590406758537354941415566985540927561))),
  (2838075572973711465528602331843979703148768886197076479419037085049267732319183618852101339050266599509631130919121644679580656912308357448999220633808453916578235295211, (some (169092871062696811513803732080389628631898209492008536623293510673498180, 752648990696571507667865218748640920940062079795808830841099536606097074815074))),
  (89167220795560627391928355827902969524984742854047199581871311254711949143841952, (some (169092871062696811513803732080389628631898209492008536623293510673498180, 4218743499354916737411621998035029))),
  (7585508236018823974033214392292896865497980057142758022505262780429865840167455651746844260918239905339109848479970320, none),
  (69504271907352700277508799067953068073541061448779469351477268919754938820596760, none),
  (69504271907352700277508799067952019046056124862472528929615907410803810788972432, none),
  (3016719264075293955430267366342426877275387558755762138669798548546289998214480666386899836929815863911851272530039415, none),
  (745975918754716503713005337999071552569176406622960919947407971424108761173600445345405290837922365313655, none),
  (3016719264075293955430267366342426877275387572766307890730907227184589670851245731616814730693530063555243599676314936, none),
  (745975918754716503713005337999071552576143473965366175936151816905495489406973443711817383245078415283512, none),
  (60991510382078255072308650750968437330392663131688656767696554358657433396776399154315422458134769900481455580742730202755570488453779845466953459725773204434943019887154392972990065811092679755, none),
  (60991510382078255072308649942459169626447517186025046464922714079528133111828203606748167221353746092063471905437423990148623896160363246153735284367202345164230532797440914124927037828379979912, none),
  (22819633225393186309468846110950280689994517498456849014342886717612902003671461334600705971394882917985963334011770874365459133171154390883784423170901205443222961037951025501998175740325654095700758105330690374791653275447362268585789684199560, none),
  (5188583878724145122184574168337154040054086816908646268491051453257313817309384790862516196245365076209936387813850770777730795568321185354766165806482020763542213325608924770510194476101134527067113909628834663497616684605102894155, none),
  (5188583878724145122184574168337154040073896012389549483059263860325163527721085297977371801202721560647579900616998848142277463810182881343814562117022657377228117157632889170031168560079061861883064208505669416439608726768003852967, none),
  (268243499442862663729471249596187563503829980516308179864149650179599778307432946525338068049662662656252346543241477961224570587639853962287856179133538162296571352065522587161476408080974805406944174552311, none),
  (13867863886407179750746911406681724704190084694217283231093928998478186098598535540955714454854857134614624204811117252230701347937548228576742288717987201429402899213087827183021995, none),
  (3153187182398864877256280898719006632797822258472310166907576341211242467311291492652648558710769663637844921726174785170669327468324114251193613440487358823298125280736, none),
  (716951759022518871746861100000161657771473587806025128565981000347816765963219232458113519679807036645073926807738602366256128335588602932359223852385973495, none),
  (3153187182398864877256280898719006632797822258472310166907576341211242467311388315559542997354793889419580047566470810058921803635947982651209711312872140744649240229111, none),
  (3153187182398864877256280898719006632797822259076558066702095644000696802038866900661883683253851984839249252837896127327377724858168520094274440536557587195762023871735, none),
  (3153187182398864877256280898719006632790219071803684704514857370804813741226120586570505462589644150161802448185890880508680524365014718740870190445588108817070511107147, none),
  (13867863886407179750746911406681724704187298095283640447867526294098573519792691794868954417469056020343244452170785042492911915529725230440055202774479384117504141893427870457408587, none),
  (3153187182398864877256280898719006632797822258472310166907576341211242451691938746114524039431284922657648881041468974785442853517441358983848077101573462083069120882155, none),
  (13867863886407179750746911406681724704231883642345651599968001830841596300965664113440540846692651139619779705676862231060250197522065463879597716803079778285731549667489546984498667, none),
  (37065537199951115400019262102966886913007433206161878946970530465964822948815208220775805156661305075410316292321438726397402026615, none),
  (163015956564440528324408001026350042996237196733389904216300029890208658419633370218687141891304838268787409060594295536369534633581924843524727, none),
  (37065537199951115400019262102966886913007433206161928057289377488824303913804425674953721023718281328372893204514758031596217963832, none),
  (163015956564440528324408001026350042996237196733389904216403021693599330103439594907754504355429847905502566885228874503143746955253005586273592, none),
  (60991510382078255072308650050260340209192186472195802397757687558856706065727419681340690264025086241953205923318431789763239394889870030497226228332849742635237201560736992082007782834867016311, none),
  (60991510382078255072308650050260340209192186472195802397757687558856706065727419683332841469267590392754141852966456378493595707375988603719751851344799663486694638830435906809792437793700451640, none),
  (22819633225393186309468846211783142711068592294664432328585041739148367840065993394807988649679686926946555271698628614437966273396183322293881907738734433017376783287076031353281347631355652892676319675752008010569242300014644784403319934161527, none),
  (22819633225393186309468846211783142711068592294664432328585041739148367840065993394807988649679686926946555310232437071943017077972745564341014831307593641403176087018217056424243417782557904709811068964228022762333978993368483847927260268991800, none),
  (4670066289350235279862045832362254016683803094437465982439698932449233352680839820699145007651255210620271847762010456567749528911081499081640664016388417014986798380817080945000324737113178796281551971400426095261046446939961299575, (some (169092871062696811513803732080389628631898209492008536623293510673498180, 1578419336137296330448678873736679051570008234329494665209918506973404986269503586372))),
  (4670066289350235279862045832362254016683803094437465982439698932449233352680839820699145007651255210637703924416188436226521089587602378419753328070161302525945161331957995194910367238409890533198194772676340983303885752596959335736, (some (169092871062696811513803732080389628631898209492008536623293510673498180, 1578419336137296330448678873736679051570008234329494665209918506973405113812791590985))),
  (7585508236018823974033214392292947405287148791523539754804133252283615454121760199058870036470933282019922453003771040, (some (169092871062696811513803732080389628631898209492008536623293510673498180, 38911040822613002958356556042529277513615595119050837))),
  (7585508236018823974033214392292947405287148791523539754807094476273933944114454226902748946369123848622423051866220811, (some (169092871062696811513803732080389628631898209492008536623293510673498180, 38911040822613002958356556042529277513615595119050854))),
  (2838075572973711465528602331843975921310832778492351985769828064305738838553944567309062787185392240939960764552118147705743003091669571118712370290062487079190515427595, (some (169092871062696811513803732080389628631898209492008536623293510673498180, 752648990696571507667865217626206593034414320149927301880622047389674524115046))),
  (146725068182761227824897426145529596464759947510342455636477793535548750117302988753262381750648123780665012457801048155632269342057410108331320, none),
  (33361418032373246165865890849438436922528114225847833867295368773400593655818182002044867440845943596277189943921114850001623718736, (some (169092871062696811513803732080389628631898209492008536623293510673498180, 81602367083224504380123368217702359396233972535107675750483))),
  (2941270198960924084177668027106641281096103659177907268060434254603033458704428321073633609689317518530649901337820992967795113495892695570866811088664047875204990383120, none),
  (17797796713349368358409106867647852180589974664793848560351256255312, (some (169092871062696811513803732080389628631898209492008536623293510673498180, 0))),
  (29286355602092768208207463948192510281741151777898291213133665376581858520602260109658012877152576156540468270772009417801392462672, (some (169092871062696811513803732080389628631898209492008536623293510673498180, 0))),
  (3153187182398864877256280948877756877117810296580161690315459951958849011053163666872170084801717163574496117374277742252866166785321260730536757383294349603789057569352, (some (0, 1775721594844998464478395745607774098072814247846421352043459416373287052244015906897))),
  (3153187182398864877256280948877756877117810296580161690315459951958848511231730779835631055265047697056691789131453512605910209489645794477934645418034986642194516941320, (some (169092871062696811513803732080389628631898209492008536623293510673498180, 0))),
  (10957326505961892324976664510560620977132870952091198446118516533833351874009218972799674704249899007306001694037537115585680583998685252581535513268385860799256490807986800075747912, (some (0, 3310185267619003273993107808933166047893540906773966898163893018742118856024306265721143377))),
  (10957326505961892324976664510560620977132870952091198446118516533833351874008287238034277930973911108794508019182569635739822219653075735977390373156288242455741369597297009335736840, (some (169092871062696811513803732080389628631898209492008536623293510673498180, 0))),
  (1514069097899055601957613213547222804682928396869519767670202009056485874541451886044564293977536513187495, none),
  (21006663111639405338812115413464320117559790613111584053769042463560085380506585365744150438544798912149172079866265780299208192365190174482087, (some (0, 9868193508487377227810807498019132407857))),
  (97381243120952411655096831770568798323701865475330400748569981501137835740105160, (some (169092871062696811513803732080389628631898209492008536623293510673498180, 348538376455029466572818923685638866647091670320634587219407453823172686))),
  (21006663588627591634120074355275344752352490968213535698624879896548315049822835839179813753370102066638897604356161906155682129803853869096615, (some (0, 8592134632533857989823152720150001614897))),
  (73824777543587734870143832437749683653740781307449676598903332652687137037093320, none),
  (21006664065615783344798529626802892001235394727775845617771880172928293098982017200547718876057950221078635050993671503479364976233868792176295, (some (0, 79248454306605162460838165366651545422334188951002052296753))),
  (6280317509986086320887245946643921171283310713453129541729468619752963610091206658941275857340331171792663391519115720, none),
  (29852261583980998327475383445139913810848412821705204617079666976052255651329654129221154747632787335877310152228652012450380522987, none),
  (22141931167641908281523476399960631711934713661286679382345635603947, none),
  (16785811008864524153808205400079166875599916277655209844458787972587, none),
  (1427978875196023709779011812007393284896703310039328145920176402359652855897882543938438542241034529678827, none),
  (78275537740495379973620589311401282792842264027647184913590989534789393899857387, none),
  (78275537740495379973783794045567743219582436069950856442866769740188870309324267, none),
  (78275537740495379973946998779734203646322778253437988441374281632892062602896875, none),
  (1514069097899267453868407085564341040674694479339889733654582741080312607328674037603233331360272083854827, none),
  (37065537199951115400019262332261078228799246956199593089462379216361992039357405703403367395211763443815914143721001956426475641680, (some (169092871062696811513803732080389628631898209492008536623293510673498180, 0))),
  (5912769078622689877503821763255149559486960565126767841321158177881207735967235642916638445468755605590824133180010192, none),
  (6034053435311017177160061845590447510135526406035542152182935674852777267922854763725647004191762187563525608136781520, none),
  (26004633417200133885367460442310575986263349378965761216460066726850136472227388993519150693242524205539852428520560393083003350736, none),
  (26538047658984724853142224674967934838821595549201223560515463677699948006790454488624964156122637813746915430482048339122940030672, none),
  (3816650895696680846038573180756074376096401592445580535, none),
  (17119847982050572860814052710470227418888148628461515890581311596407, none),
  (1061850264495849328250196904320219360879948739845908615488131162539661946362161457220842459391869573841678578369441336451784693204445706220097927216029611970838722644671425892974988927299497119181247245416409769508351915, none),
  (40301224092744861244402381234062404296871241283873161661917402989739185930454704421138014567400133492193034786186671126084719749592, none),
  (13631818436892341585251968098912069664989674582921624307541596772394029798666914694677370246076091583262625455761032660458392136884309886772743642925479111210378351177087516007215240, none),
  (331145973612106173916113046659999287012928547362405375077336199795355755388365085133980575211, none),
  (1245519691892121849168411881760778627328585, none),
  (2303446279216731251335264608553511571490202413046565356157989018081909285621962552728794721905149540099216516285870056985188400853516745759302065018231498335471477467200, none),
  (2083524191389004178144185287556709507919122313642050462140420675376426555396124533268004811211081615682215, none),
  (46355154630916526478086382577335569582909633295981406767989449251645802222683990155704784239976517665635040390570592421934578079496240370924784477631583269672479802266487334091280732380226138027, none),
  (203872126096188858090802251604582873268356337182303058219609850069883284195442531389434570480695063699482622855391528246332469139817764018751767465822862545437724861401195179757812605072215227651001331757192, none),
  (2491407600692103261502930877137892248230936913455845816619499904923297596830774490641515051035834588034852932927956867064979151440566717338996605280280909992011145163336, (some (169092871062696811513803732080389628631898209492008536623293510673498180, 0))),
  (566480503196567783903203890552467078304160933725518772318221396141177408754508902061077516164633939232990023278821200580720701398323715114120417483230815920, (some (169092871062696811513803732080389628631898209492008536623293510673498180, 0))),
  (60991510382078255072308649996359832023293004877668917048711059397246414568705213968495004770325478962608544245597204604071127854133173663078404312423257104490598079922106620494665243164783162615, none)
]

/-- The encoded image of `col_alias` (all chunks). -/
def ptab : PTable :=
  appendP ptab_0 (appendP ptab_1 (appendP ptab_2 (appendP ptab_3 (appendP ptab_4 (appendP ptab_5 (appendP ptab_6 (ptab_7)))))))

set_option maxRecDepth 100000 in
set_option maxHeartbeats 4000000 in
/-- The literal table `ptab` is exactly the encoded image of `col_alias`. -/
theorem ptab_eq : ptab = encTable col_alias := by decide!

/-- Per-key Boolean check behind claims C1 and C10, on the encoded table:
at fuel 8 the resolver returns, and the result is either the retirement
marker or a pair that is stored in the dictionary with the canonical
sentinel value `(0, 0)` (the code of `("", "")`) and has two non-blank
components. -/
def resolutionChk (tbl : PTable) (tc : Nat × Nat) : Bool :=
  match cnP tbl 8 tc.1 tc.2 with
  | some (.ok none) => true
  | some (.ok (some p)) =>
    (match pget tbl (Nat.pair p.1 p.2) with
     | some (some v) => Nat.beq v.1 0 && Nat.beq v.2 0 && !(Nat.beq p.1 0) && !(Nat.beq p.2 0)
     | _ => false)
  | _ => false

set_option maxRecDepth 1000000 in
set_option maxHeartbeats 64000000 in
/-- Bulk evaluation: the check above holds for every key of `col_alias`
(encoded). -/
theorem resolution_bulk : allP (resolutionChk ptab) (encKeys col_alias) = true := by decide!

/-- Per-entry Boolean check behind claim C8, on the encoded table: every
column of a schema list resolves, at fuel 8, to exactly its own
table/column pair. -/
def tableDefChk (tbl : PTable) (e : Nat × List Nat) : Bool :=
  allP (fun cn =>
    match cnP tbl 8 e.1 cn with
    | some (.ok (some q)) => Nat.beq q.1 e.1 && Nat.beq q.2 cn
    | _ => false) e.2

/-- The encoded image of `table_definitions`. -/
def encTD : List (Nat × List Nat) :=
  mapP (fun e => (strCode e.1, mapP strCode e.2)) table_definitions

set_option maxRecDepth 1000000 in
set_option maxHeartbeats 64000000 in
/-- Bulk evaluation: the check above holds for every entry of
`table_definitions` (encoded). -/
theorem tableDef_bulk : allP (tableDefChk ptab) encTD = true := by decide!

/-! ## Unfolding equations for the recursor-based helpers -/

theorem pget_nil (k : Nat) : pget [] k = none := rfl

theorem pget_cons (e : Nat × Option (Nat × Nat)) (l : PTable) (k : Nat) :
    pget (e :: l) k = cond (Nat.beq e.1 k) (some e.2) (pget l k) := rfl

theorem mapP_nil {α β : Type} (f : α → β) : mapP f [] = [] := rfl

theorem mapP_cons {α β : Type} (f : α → β) (x : α) (l : List α) :
    mapP f (x :: l) = f x :: mapP f l := rfl

theorem allP_nil {α : Type} (p : α → Bool) : allP p [] = true := rfl

theorem allP_cons {α : Type} (p : α → Bool) (x : α) (l : List α) :
    allP p (x :: l) = (p x && allP p l) := rfl

theorem listCode_nil : listCode [] = 0 := rfl

theorem listCode_cons (c : Char) (l : List Char) :
    listCode (c :: l) = listCode l * 2097152 + (c.toNat + 1) := rfl

theorem cnP_zero (tbl : PTable) (t c : Nat) : cnP tbl 0 t c = none := rfl

theorem cnP_succ (tbl : PTable) (n t c : Nat) :
    cnP tbl (n + 1) t c =
      (match pget tbl (Nat.pair t c) with
       | none => some (.error .columnNotFoundError)
       | some none => some (.ok none)
       | some (some (tb, co)) =>
         cond (Nat.beq tb 0 && Nat.beq co 0) (some (.ok (some (t, c))))
           (cond (Nat.beq tb 0) (cnP tbl n t co)
             (cond (Nat.beq co 0) (cnP tbl n tb c) (cnP tbl n tb co)))) := rfl

/-! ## Injectivity of the encoding -/

theorem char_toNat_lt (c : Char) : c.toNat < 1114112 := by
  rcases c.valid with h | ⟨_, h⟩
  · exact Nat.lt_trans h (by norm_num)
  · exact h

theorem char_toNat_inj {a b : Char} (h : a.toNat = b.toNat) : a = b := by
  apply Char.ext
  apply UInt32.ext
  simpa [Char.toNat, UInt32.toNat] using h

theorem listCode_inj : ∀ {l₁ l₂ : List Char}, listCode l₁ = listCode l₂ → l₁ = l₂ := by
  intro l₁
  induction l₁ with
  | nil =>
    intro l₂ h
    cases l₂ with
    | nil => rfl
    | cons c cs =>
      rw [listCode_nil, listCode_cons] at h
      omega
  | cons c cs ih =>
    intro l₂ h
    cases l₂ with
    | nil =>
      rw [listCode_nil, listCode_cons] at h
      omega
    | cons d ds =>
      rw [listCode_cons, listCode_cons] at h
      have hc := char_toNat_lt c
      have hd := char_toNat_lt d
      have hcd : c.toNat = d.toNat ∧ listCode cs = listCode ds := by omega
      rw [ih hcd.2, char_toNat_inj hcd.1]

theorem strCode_inj {s t : String} (h : strCode s = strCode t) : s = t :=
  String.ext (listCode_inj h)

theorem strCode_empty : strCode "" = 0 := rfl

theorem strCode_eq_zero {s : String} : strCode s = 0 ↔ s = "" := by
  constructor
  · intro h
    exact strCode_inj (h.trans strCode_empty.symm)
  · intro h
    rw [h, strCode_empty]

theorem keyCode_inj {k₁ k₂ : ColKey} (h : keyCode k₁ = keyCode k₂) : k₁ = k₂ := by
  obtain ⟨h₁, h₂⟩ := Nat.pair_eq_pair.mp h
  obtain ⟨a₁, b₁⟩ := k₁
  obtain ⟨a₂, b₂⟩ := k₂
  simp only [Prod.mk.injEq]
  exact ⟨strCode_inj h₁, strCode_inj h₂⟩

theorem encVal_inj {v w : ColVal} (h : encVal v = encVal w) : v = w := by
  cases v with
  | none => cases w with
    | none => rfl
    | some q => simp [encVal, Option.map] at h
  | some p =>
    cases w with
    | none => simp [encVal, Option.map] at h
    | some q =>
      obtain ⟨p₁, p₂⟩ := p
      obtain ⟨q₁, q₂⟩ := q
      simp only [encVal, Option.map, Option.some.injEq, Prod.mk.injEq] at h
      simp only [Option.some.injEq, Prod.mk.injEq]
      exact ⟨strCode_inj h.1, strCode_inj h.2⟩

theorem encRes_inj {r₁ r₂ : CNResult} (h : encRes r₁ = encRes r₂) : r₁ = r₂ := by
  cases r₁ with
  | error e₁ =>
    cases r₂ with
    | error e₂ => simpa [encRes, Except.map] using h
    | ok v₂ => simp [encRes, Except.map] at h
  | ok v₁ =>
    cases r₂ with
    | error e₂ => simp [encRes, Except.map] at h
    | ok v₂ =>
      simp only [encRes, Except.map, Except.ok.injEq] at h
      have hv : v₁ = v₂ := encVal_inj h
      rw [hv]

/-! ## The encoded mirror agrees with the source embedding -/

theorem beq_strCode_zero_of_empty {s : String} (h : s = "") : Nat.beq (strCode s) 0 = true := by
  subst h
  rfl

theorem beq_strCode_zero_of_ne {s : String} (h : s ≠ "") : Nat.beq (strCode s) 0 = false := by
  cases hb : Nat.beq (strCode s) 0 with
  | false => rfl
  | true => exact absurd (strCode_eq_zero.mp (Nat.eq_of_beq_eq_true hb)) h

theorem beq_strCode_empty_zero : (strCode "").beq 0 = true := rfl

theorem pget_encTable (tbl : AliasTable) (k : ColKey) :
    pget (encTable tbl) (keyCode k) = Option.map encVal (dictGet tbl k) := by
  induction tbl with
  | nil => rfl
  | cons e rest ih =>
    obtain ⟨k₂, v⟩ := e
    show pget (encEntry (k₂, v) :: encTable rest) (keyCode k) = _
    rw [pget_cons]
    by_cases h : k₂ = k
    · subst h
      have hb : Nat.beq (keyCode k₂) (keyCode k₂) = true := Nat.beq_refl _
      simp [dictGet, encEntry, hb]
    · have hb : Nat.beq (keyCode k₂) (keyCode k) = false := by
        cases hb : Nat.beq (keyCode k₂) (keyCode k) with
        | false => rfl
        | true => exact absurd (keyCode_inj (Nat.eq_of_beq_eq_true hb)) h
      simp [dictGet, encEntry, hb, h, ih]

theorem cnP_encTable (tbl : AliasTable) :
    ∀ (n : Nat) (t c : String),
      cnP (encTable tbl) n (strCode t) (strCode c) =
        Option.map encRes (definitions.current_names tbl n t c) := by
  intro n
  induction n with
  | zero => intro t c; rfl
  | succ n ih =>
    intro t c
    have hkey : Nat.pair (strCode t) (strCode c) = keyCode (t, c) := rfl
    cases hd : dictGet tbl (t, c) with
    | none =>
      have hp : pget (encTable tbl) (keyCode (t, c)) = none := by
        rw [pget_encTable, hd]; rfl
      rw [cnP_succ, hkey, hp]
      simp [definitions.current_names, hd, Option.map, encRes, Except.map]
    | some v =>
      cases v with
      | none =>
        have hp : pget (encTable tbl) (keyCode (t, c)) = some none := by
          rw [pget_encTable, hd]; rfl
        rw [cnP_succ, hkey, hp]
        simp [definitions.current_names, hd, Option.map, encRes, Except.map]
      | some p =>
        obtain ⟨tb, co⟩ := p
        have hp : pget (encTable tbl) (keyCode (t, c)) =
            some (some (strCode tb, strCode co)) := by
          rw [pget_encTable, hd]; rfl
        rw [cnP_succ, hkey, hp]
        by_cases htb : tb = ""
        · by_cases hco : co = ""
          · subst htb; subst hco
            have hstring : definitions.current_names tbl (n + 1) t c =
                some (.ok (some (t, c))) := by
              simp [definitions.current_names, hd]
            rw [hstring]
            simp [encRes, Except.map, Option.map, beq_strCode_empty_zero]
          · subst htb
            have hbco := beq_strCode_zero_of_ne hco
            have hstring : definitions.current_names tbl (n + 1) t c =
                definitions.current_names tbl n t co := by
              simp [definitions.current_names, hd, hco]
            rw [hstring, ← ih t co]
            simp [hbco, beq_strCode_empty_zero]
        · have hbtb := beq_strCode_zero_of_ne htb
          by_cases hco : co = ""
          · subst hco
            have hstring : definitions.current_names tbl (n + 1) t c =
                definitions.current_names tbl n tb c := by
              simp [definitions.current_names, hd, htb]
            rw [hstring, ← ih tb c]
            simp [hbtb, beq_strCode_empty_zero]
          · have hbco := beq_strCode_zero_of_ne hco
            have hstring : definitions.current_names tbl (n + 1) t c =
                definitions.current_names tbl n tb co := by
              simp [definitions.current_names, hd, htb, hco]
            rw [hstring, ← ih tb co]
            simp [hbtb, hbco]

/-! ## Transferring evaluated facts back to the source embedding -/

theorem dictGet_of_pget {tbl : AliasTable} {k : ColKey} {v : ColVal}
    (h : pget (encTable tbl) (keyCode k) = some (encVal v)) : dictGet tbl k = some v := by
  rw [pget_encTable] at h
  cases hd : dictGet tbl k with
  | none => rw [hd] at h; simp [Option.map] at h
  | some w =>
    rw [hd] at h
    simp only [Option.map, Option.some.injEq] at h
    rw [encVal_inj h]

theorem dictGet_none_of_pget {tbl : AliasTable} {k : ColKey}
    (h : pget (encTable tbl) (keyCode k) = none) : dictGet tbl k = none := by
  rw [pget_encTable] at h
  cases hd : dictGet tbl k with
  | none => rfl
  | some w => rw [hd] at h; simp [Option.map] at h

theorem cn_of_cnP {tbl : AliasTable} {n : Nat} {t c : String} {r : CNResult}
    (h : cnP (encTable tbl) n (strCode t) (strCode c) = some (encRes r)) :
    definitions.current_names tbl n t c = some r := by
  rw [cnP_encTable] at h
  cases hd : definitions.current_names tbl n t c with
  | none => rw [hd] at h; simp [Option.map] at h
  | some r₂ =>
    rw [hd] at h
    simp only [Option.map, Option.some.injEq] at h
    rw [encRes_inj h]

theorem resolvesTo_of_cnP {tbl : AliasTable} {t c : String} {r : CNResult} (n : Nat)
    (h : cnP (encTable tbl) n (strCode t) (strCode c) = some (encRes r)) :
    resolvesTo tbl t c r :=
  ⟨n, cn_of_cnP h⟩

/-! ## Unfolding the resolver one step at a known dictionary entry -/

theorem current_names_succ_absent {tbl : AliasTable} {t c : String}
    (hd : dictGet tbl (t, c) = none) (n : Nat) :
    definitions.current_names tbl (n + 1) t c = some (.error .columnNotFoundError) := by
  rw [definitions.current_names, hd]

theorem current_names_succ_retired {tbl : AliasTable} {t c : String}
    (hd : dictGet tbl (t, c) = some none) (n : Nat) :
    definitions.current_names tbl (n + 1) t c = some (.ok none) := by
  rw [definitions.current_names, hd]

theorem current_names_succ_entry {tbl : AliasTable} {t c tb co : String}
    (hd : dictGet tbl (t, c) = some (some (tb, co))) (n : Nat) :
    definitions.current_names tbl (n + 1) t c =
      (if tb = "" ∧ co = "" then some (.ok (some (t, c)))
       else if tb = "" then definitions.current_names tbl n t co
       else if co = "" then definitions.current_names tbl n tb c
       else definitions.current_names tbl n tb co) := by
  rw [definitions.current_names, hd]

/-! ## Fuel monotonicity and determinism of the resolver -/

theorem current_names_mono {tbl : AliasTable} :
    ∀ {n : Nat} {t c : String} {r : CNResult},
      definitions.current_names tbl n t c = some r →
      definitions.current_names tbl (n + 1) t c = some r := by
  intro n
  induction n with
  | zero => intro t c r h; exact absurd h (by simp [definitions.current_names])
  | succ n ih =>
    intro t c r h
    cases hd : dictGet tbl (t, c) with
    | none => rwa [current_names_succ_absent hd] at h ⊢
    | some v =>
      cases v with
      | none => rwa [current_names_succ_retired hd] at h ⊢
      | some p =>
        obtain ⟨tb, co⟩ := p
        rw [current_names_succ_entry hd] at h ⊢
        by_cases hb : tb = "" ∧ co = ""
        · rwa [if_pos hb] at h ⊢
        · rw [if_neg hb] at h ⊢
          by_cases htb : tb = ""
          · rw [if_pos htb] at h ⊢; exact ih h
          · rw [if_neg htb] at h ⊢
            by_cases hco : co = ""
            · rw [if_pos hco] at h ⊢; exact ih h
            · rw [if_neg hco] at h ⊢; exact ih h

theorem current_names_le_mono {tbl : AliasTable} {n m : Nat} {t c : String} {r : CNResult}
    (hnm : n ≤ m) (h : definitions.current_names tbl n t c = some r) :
    definitions.current_names tbl m t c = some r := by
  induction hnm with
  | refl => exact h
  | step _ ih => exact current_names_mono ih

theorem resolvesTo_unique {tbl : AliasTable} {t c : String} {r₁ r₂ : CNResult}
    (h₁ : resolvesTo tbl t c r₁) (h₂ : resolvesTo tbl t c r₂) : r₁ = r₂ := by
  obtain ⟨n, hn⟩ := h₁
  obtain ⟨m, hm⟩ := h₂
  rcases Nat.le_total n m with h | h
  · have h₂ := current_names_le_mono h hn
    rw [h₂] at hm
    exact Option.some_inj.mp hm
  · have h₂ := current_names_le_mono h hm
    rw [h₂] at hn
    exact (Option.some_inj.mp hn).symm

/-! ## One resolution step -/

theorem current_names_step {tbl : AliasTable} {t c tb co : String}
    (h : dictGet tbl (t, c) = some (some (tb, co))) (hne : ¬(tb = "" ∧ co = "")) (n : Nat) :
    definitions.current_names tbl (n + 1) t c =
      definitions.current_names tbl n (if tb = "" then t else tb) (if co = "" then c else co) := by
  rw [current_names_succ_entry h, if_neg hne]
  by_cases htb : tb = ""
  · have hco : ¬co = "" := fun hc => hne ⟨htb, hc⟩
    rw [if_pos htb, if_pos htb, if_neg hco]
  · by_cases hco : co = ""
    · rw [if_neg htb, if_neg htb, if_pos hco, if_pos hco]
    · rw [if_neg htb, if_neg htb, if_neg hco, if_neg hco]

theorem resolvesTo_step_iff {tbl : AliasTable} {t c tb co : String}
    (h : dictGet tbl (t, c) = some (some (tb, co))) (hne : ¬(tb = "" ∧ co = "")) (r : CNResult) :
    resolvesTo tbl t c r ↔
      resolvesTo tbl (if tb = "" then t else tb) (if co = "" then c else co) r := by
  constructor
  · rintro ⟨n, hn⟩
    cases n with
    | zero => exact absurd hn (by simp [definitions.current_names])
    | succ n =>
      rw [current_names_step h hne] at hn
      exact ⟨n, hn⟩
  · rintro ⟨n, hn⟩
    exact ⟨n + 1, (current_names_step h hne n).trans hn⟩

/-- `current_names` returns a key unchanged as soon as the key is stored
with the canonical sentinel value `('', '')`. -/
theorem current_names_canonical {tbl : AliasTable} {p : ColKey}
    (h : dictGet tbl p = some (some ("", ""))) :
    definitions.current_names tbl 1 p.1 p.2 = some (.ok (some p)) := by
  have hp : dictGet tbl (p.1, p.2) = some (some ("", "")) := h
  have h₂ := current_names_succ_entry hp 0
  rw [if_pos ⟨rfl, rfl⟩] at h₂
  exact h₂

/-! ## Which pairs a resolution visits -/

/-- `Reaches tbl k p`: starting from key `k`, repeatedly applying the
resolution step of `current_names` (look the key up; substitute blank
components of the stored value with the key's components) can visit pair
`p`. -/
inductive Reaches (tbl : AliasTable) : ColKey → ColKey → Prop where
  | refl (k : ColKey) : Reaches tbl k k
  | step (k p : ColKey) (tb co : String) :
      dictGet tbl k = some (some (tb, co)) → ¬(tb = "" ∧ co = "") →
      Reaches tbl (if tb = "" then k.1 else tb, if co = "" then k.2 else co) p →
      Reaches tbl k p

/-- Every error the `definitions.py` resolver returns is
`ColumnNotFoundError`, and it arises only because some pair visited by
the resolution is absent from the dictionary. -/
theorem current_names_error_shape {tbl : AliasTable} :
    ∀ {n : Nat} {t c : String} {e : PyExc},
      definitions.current_names tbl n t c = some (.error e) →
      e = .columnNotFoundError ∧ ∃ p, Reaches tbl (t, c) p ∧ dictGet tbl p = none := by
  intro n
  induction n with
  | zero => intro t c e h; exact absurd h (by simp [definitions.current_names])
  | succ n ih =>
    intro t c e h
    cases hd : dictGet tbl (t, c) with
    | none =>
      rw [current_names_succ_absent hd] at h
      have he : PyExc.columnNotFoundError = e := by simpa using h
      exact ⟨he.symm, (t, c), Reaches.refl _, hd⟩
    | some v =>
      cases v with
      | none => rw [current_names_succ_retired hd] at h; simp at h
      | some p =>
        obtain ⟨tb, co⟩ := p
        rw [current_names_succ_entry hd] at h
        by_cases hb : tb = "" ∧ co = ""
        · rw [if_pos hb] at h; simp at h
        · rw [if_neg hb] at h
          by_cases htb : tb = ""
          · rw [if_pos htb] at h
            obtain ⟨he, q, hq, hqn⟩ := ih h
            have hco : ¬co = "" := fun hc => hb ⟨htb, hc⟩
            refine ⟨he, q, Reaches.step _ _ tb co hd hb ?_, hqn⟩
            simpa [htb, hco] using hq
          · rw [if_neg htb] at h
            by_cases hco : co = ""
            · rw [if_pos hco] at h
              obtain ⟨he, q, hq, hqn⟩ := ih h
              refine ⟨he, q, Reaches.step _ _ tb co hd hb ?_, hqn⟩
              simpa [htb, hco] using hq
            · rw [if_neg hco] at h
              obtain ⟨he, q, hq, hqn⟩ := ih h
              refine ⟨he, q, Reaches.step _ _ tb co hd hb ?_, hqn⟩
              simpa [htb, hco] using hq

/-! ## The two copies of the resolver -/

/-- Replace any raised exception with `KeyError`, keeping returns as they
are: the exact relation between the two copies of the resolver. -/
def errAsKey (r : Option CNResult) : Option CNResult :=
  Option.map (fun x => match x with
    | Except.error _ => Except.error PyExc.keyError
    | Except.ok v => Except.ok v) r

theorem obj2_succ_absent {tbl : AliasTable} {t c : String}
    (hd : dictGet tbl (t, c) = none) (n : Nat) :
    obj2core.current_names tbl (n + 1) t c = some (.error .keyError) := by
  rw [obj2core.current_names, hd]

theorem obj2_succ_retired {tbl : AliasTable} {t c : String}
    (hd : dictGet tbl (t, c) = some none) (n : Nat) :
    obj2core.current_names tbl (n + 1) t c = some (.ok none) := by
  rw [obj2core.current_names, hd]

theorem obj2_succ_entry {tbl : AliasTable} {t c tb co : String}
    (hd : dictGet tbl (t, c) = some (some (tb, co))) (n : Nat) :
    obj2core.current_names tbl (n + 1) t c =
      (if tb = "" ∧ co = "" then some (.ok (some (t, c)))
       else if tb = "" then obj2core.current_names tbl n t co
       else if co = "" then obj2core.current_names tbl n tb c
       else obj2core.current_names tbl n tb co) := by
  rw [obj2core.current_names, hd]

/-- The `obj2core.py` copy computes exactly the `definitions.py` copy's
result with every raised exception replaced by `KeyError`. -/
theorem obj2_eq_defs (tbl : AliasTable) :
    ∀ (n : Nat) (t c : String),
      obj2core.current_names tbl n t c = errAsKey (definitions.current_names tbl n t c) := by
  intro n
  induction n with
  | zero => intro t c; rfl
  | succ n ih =>
    intro t c
    cases hd : dictGet tbl (t, c) with
    | none =>
      rw [obj2_succ_absent hd, current_names_succ_absent hd]
      rfl
    | some v =>
      cases v with
      | none =>
        rw [obj2_succ_retired hd, current_names_succ_retired hd]
        rfl
      | some p =>
        obtain ⟨tb, co⟩ := p
        rw [obj2_succ_entry hd, current_names_succ_entry hd]
        by_cases hb : tb = "" ∧ co = ""
        · rw [if_pos hb, if_pos hb]; rfl
        · rw [if_neg hb, if_neg hb]
          by_cases htb : tb = ""
          · rw [if_pos htb, if_pos htb]; exact ih t co
          · rw [if_neg htb, if_neg htb]
            by_cases hco : co = ""
            · rw [if_pos hco, if_pos hco]; exact ih tb c
            · rw [if_neg hco, if_neg hco]; exact ih tb co

/-! ## Membership through the recursor-based list helpers -/

theorem allP_mem {α : Type} {p : α → Bool} :
    ∀ {l : List α}, allP p l = true → ∀ x ∈ l, p x = true := by
  intro l
  induction l with
  | nil => intro _ x hx; exact absurd hx (List.not_mem_nil x)
  | cons a l ih =>
    intro h x hx
    rw [allP_cons, Bool.and_eq_true] at h
    rcases List.mem_cons.mp hx with hxa | hxl
    · rw [hxa]; exact h.1
    · exact ih h.2 x hxl

theorem mapP_mem {α β : Type} (f : α → β) {x : α} :
    ∀ {l : List α}, x ∈ l → f x ∈ mapP f l := by
  intro l
  induction l with
  | nil => intro hx; exact absurd hx (List.not_mem_nil x)
  | cons a l ih =>
    intro hx
    rw [mapP_cons]
    rcases List.mem_cons.mp hx with hxa | hxl
    · rw [hxa]; exact List.mem_cons_self _ _
    · exact List.mem_cons_of_mem _ (ih hxl)

/-- A key that `dictGet` finds is a key of the dictionary's entry list. -/
theorem dictGet_some_mem {tbl : AliasTable} {k : ColKey} {v : ColVal} :
    dictGet tbl k = some v → (k, v) ∈ tbl := by
  induction tbl with
  | nil => intro h; exact absurd h (by simp [dictGet])
  | cons e rest ih =>
    obtain ⟨k₂, w⟩ := e
    intro h
    rw [dictGet] at h
    by_cases hk : k₂ = k
    · rw [if_pos hk] at h
      rw [Option.some_inj.mp h] at *
      rw [hk]
      exact List.mem_cons_self _ _
    · rw [if_neg hk] at h
      exact List.mem_cons_of_mem _ (ih h)

/-! ## Claim C2: the resolution step, corrected -/

/-- On `self_alias_table` the resolver never returns: every fuel runs out,
because the stored value equals the key without being the `('', '')`
sentinel, so each step recurses on the same pair. -/
theorem self_alias_no_fuel :
    ∀ n, definitions.current_names self_alias_table n "a" "b" = none := by
  intro n
  induction n with
  | zero => rfl
  | succ n ih =>
    have hd : dictGet self_alias_table ("a", "b") = some (some ("a", "b")) := by decide
    rw [current_names_succ_entry hd, if_neg (by simp), if_neg (by simp), if_neg (by simp)]
    exact ih

/-- Counterexample to claim C2 as stated: in the one-entry table that maps
`("a", "b")` to `("a", "b")`, the stored value after blank substitution
equals the key, yet `current_names` does not return that key (it does not
return at all: the call diverges). -/
theorem current_names_self_value_diverges :
    ¬ resolvesTo self_alias_table "a" "b" (Except.ok (some ("a", "b"))) := by
  rintro ⟨n, hn⟩
  rw [self_alias_no_fuel n] at hn
  exact Option.noConfusion hn

/-- C2 (amended): `current_names` performs exactly the source's resolution
step: an absent key raises `ColumnNotFoundError`; the stored value
`(None, None)` returns the retirement marker; the stored value `('', '')`
— and only that sentinel, not every value that equals the key after blank
substitution — returns the input pair unchanged; any other stored value
continues with the pair obtained by substituting blank components with
the key's components, and the call returns a result exactly when the
continuation does. -/
theorem current_names_resolution_step :
    ∀ (tbl : AliasTable) (t c : String),
      (dictGet tbl (t, c) = none → resolvesTo tbl t c (Except.error PyExc.columnNotFoundError)) ∧
      (dictGet tbl (t, c) = some none → resolvesTo tbl t c (Except.ok none)) ∧
      (dictGet tbl (t, c) = some (some ("", "")) → resolvesTo tbl t c (Except.ok (some (t, c)))) ∧
      (∀ tb co, dictGet tbl (t, c) = some (some (tb, co)) → ¬(tb = "" ∧ co = "") →
        ∀ r, (resolvesTo tbl t c r ↔
          resolvesTo tbl (if tb = "" then t else tb) (if co = "" then c else co) r)) := by
  intro tbl t c
  refine ⟨?_, ?_, ?_, ?_⟩
  · intro h; exact ⟨1, current_names_succ_absent h 0⟩
  · intro h; exact ⟨1, current_names_succ_retired h 0⟩
  · intro h; exact ⟨1, current_names_canonical h⟩
  · intro tb co h hne r; exact resolvesTo_step_iff h hne r

/-! ## Claim C3: behaviour on unknown aliases -/

/-- C3: an absent key makes `current_names` raise (`ColumnNotFoundError`,
the `LookupError`-equivalent of `definitions.py`) rather than return; the
resolver raises only when a pair visited by the resolution is absent from
the table; and concretely `("bogus_table", "x")` is absent from
`col_alias` and resolving it raises. -/
theorem current_names_unknown_alias :
    (∀ (tbl : AliasTable) (t c : String), dictGet tbl (t, c) = none →
        resolvesTo tbl t c (Except.error PyExc.columnNotFoundError)) ∧
    (∀ (tbl : AliasTable) (n : Nat) (t c : String) (e : PyExc),
        definitions.current_names tbl n t c = some (Except.error e) →
        e = PyExc.columnNotFoundError ∧ ∃ p, Reaches tbl (t, c) p ∧ dictGet tbl p = none) ∧
    dictGet col_alias ("bogus_table", "x") = none ∧
    resolvesTo col_alias "bogus_table" "x" (Except.error PyExc.columnNotFoundError) := by
  refine ⟨fun tbl t c h => ⟨1, current_names_succ_absent h 0⟩,
    fun tbl n t c e h => current_names_error_shape h, ?_, ?_⟩
  · have h : pget ptab (keyCode ("bogus_table", "x")) = none := by decide!
    exact dictGet_none_of_pget (ptab_eq ▸ h)
  · have h : cnP ptab 1 (strCode "bogus_table") (strCode "x") =
        some (encRes (Except.error PyExc.columnNotFoundError)) := by decide!
    exact resolvesTo_of_cnP 1 (ptab_eq ▸ h)

/-! ## Claim C4: the checker does not catch the resolver's exception -/

/-- C4: on a table with one key whose value points at an absent pair,
`_verify_col_alias` does not catch the resolver's failure and return
`False` — the `ColumnNotFoundError` propagates out of the function,
because the checker's `except KeyError` clause does not match it. -/
theorem verify_col_alias_uncaught :
    _verify_col_alias missing_link_table 2 = some (Except.error PyExc.columnNotFoundError) := by
  rfl

/-! ## Claims C5 and C6: concrete resolutions -/

/-- C5: `current_names('flux', 'l')` returns `('stats30', 'L')`, and the
table stores exactly the claimed chain
`('flux','l') -> ('flux','L') -> ('CFNT_stats30','L') -> ('stats30','L')`:
a cross-table, case-changing rename via intermediate links. -/
theorem current_names_flux_l_chain :
    resolvesTo col_alias "flux" "l" (Except.ok (some ("stats30", "L"))) ∧
    dictGet col_alias ("flux", "l") = some (some ("", "L")) ∧
    dictGet col_alias ("flux", "L") = some (some ("CFNT_stats30", "")) ∧
    dictGet col_alias ("CFNT_stats30", "L") = some (some ("stats30", "")) ∧
    dictGet col_alias ("stats30", "L") = some (some ("", "")) := by
  refine ⟨?_, ?_, ?_, ?_, ?_⟩
  · have h : cnP ptab 8 (strCode "flux") (strCode "l") =
        some (encRes (Except.ok (some ("stats30", "L")))) := by decide!
    exact resolvesTo_of_cnP 8 (ptab_eq ▸ h)
  · have h : pget ptab (keyCode ("flux", "l")) = some (encVal (some ("", "L"))) := by decide!
    exact dictGet_of_pget (ptab_eq ▸ h)
  · have h : pget ptab (keyCode ("flux", "L")) =
        some (encVal (some ("CFNT_stats30", ""))) := by decide!
    exact dictGet_of_pget (ptab_eq ▸ h)
  · have h : pget ptab (keyCode ("CFNT_stats30", "L")) =
        some (encVal (some ("stats30", ""))) := by decide!
    exact dictGet_of_pget (ptab_eq ▸ h)
  · have h : pget ptab (keyCode ("stats30", "L")) = some (encVal (some ("", ""))) := by decide!
    exact dictGet_of_pget (ptab_eq ▸ h)

/-- C6: `current_names('flux', 'gps_ready')` returns the retirement
marker `(None, None)`. -/
theorem current_names_flux_gps_ready_retired :
    resolvesTo col_alias "flux" "gps_ready" (Except.ok none) := by
  have h : cnP ptab 1 (strCode "flux") (strCode "gps_ready") =
      some (encRes (Except.ok none)) := by decide!
  exact resolvesTo_of_cnP 1 (ptab_eq ▸ h)

/-! ## Claim C9: the two copies of the resolver are equivalent -/

/-- C9: on every table, fuel and input, the two copies return the same
successful results (same canonical pair or retirement marker), diverge
together, and differ only in the exception raised on a missing key:
`definitions.py` raises `ColumnNotFoundError` exactly when `obj2core.py`
raises `KeyError`. -/
theorem current_names_copies_equivalent :
    ∀ (tbl : AliasTable) (n : Nat) (t c : String),
      (∀ r : Option (String × String),
        definitions.current_names tbl n t c = some (Except.ok r) ↔
        obj2core.current_names tbl n t c = some (Except.ok r)) ∧
      (definitions.current_names tbl n t c = some (Except.error PyExc.columnNotFoundError) ↔
        obj2core.current_names tbl n t c = some (Except.error PyExc.keyError)) ∧
      (definitions.current_names tbl n t c = none ↔ obj2core.current_names tbl n t c = none) := by
  intro tbl n t c
  have ho := obj2_eq_defs tbl n t c
  refine ⟨?_, ?_, ?_⟩
  · intro r
    constructor
    · intro h; rw [ho, h]; rfl
    · intro h
      rw [ho] at h
      cases hd : definitions.current_names tbl n t c with
      | none => rw [hd] at h; exact absurd h (by simp [errAsKey, Option.map])
      | some x =>
        rw [hd] at h
        cases x with
        | error e => simp [errAsKey, Option.map] at h
        | ok v =>
          have hv : v = r := by simpa [errAsKey, Option.map] using h
          rw [hv]
  · constructor
    · intro h; rw [ho, h]; rfl
    · intro h
      rw [ho] at h
      cases hd : definitions.current_names tbl n t c with
      | none => rw [hd] at h; simp [errAsKey, Option.map] at h
      | some x =>
        rw [hd] at h
        cases x with
        | ok v => simp [errAsKey, Option.map] at h
        | error e => rw [(current_names_error_shape hd).1]
  · constructor
    · intro h; rw [ho, h]; rfl
    · intro h
      rw [ho] at h
      cases hd : definitions.current_names tbl n t c with
      | none => rfl
      | some x => rw [hd] at h; simp [errAsKey, Option.map] at h

/-! ## Decoding the bulk evaluation -/

/-- What `resolution_bulk` says about the source embedding: every key of
`col_alias` resolves at fuel 8, to the retirement marker or to a pair
stored with the canonical sentinel `('', '')` and with two non-blank
components. -/
theorem resolution_bulk_spec :
    ∀ k : ColKey, k ∈ col_alias.map Prod.fst →
      definitions.current_names col_alias 8 k.1 k.2 = some (Except.ok none) ∨
      ∃ p : String × String,
        definitions.current_names col_alias 8 k.1 k.2 = some (Except.ok (some p)) ∧
        dictGet col_alias p = some (some ("", "")) ∧ p.1 ≠ "" ∧ p.2 ≠ "" := by
  intro k hk
  have hk₂ : (strCode k.1, strCode k.2) ∈ encKeys col_alias := by
    obtain ⟨e, he, hek⟩ := List.mem_map.mp hk
    have h₃ : (strCode e.1.1, strCode e.1.2) ∈ encKeys col_alias :=
      mapP_mem (fun e => (strCode e.1.1, strCode e.1.2)) he
    rwa [hek] at h₃
  have hchk := allP_mem resolution_bulk _ hk₂
  simp only [resolutionChk] at hchk
  have hcn := cnP_encTable col_alias 8 k.1 k.2
  rw [← ptab_eq] at hcn
  rw [hcn] at hchk
  cases hd : definitions.current_names col_alias 8 k.1 k.2 with
  | none => rw [hd] at hchk; simp [Option.map] at hchk
  | some r =>
    rw [hd] at hchk
    cases r with
    | error e => simp [Option.map, encRes, Except.map] at hchk
    | ok v =>
      cases v with
      | none => exact Or.inl rfl
      | some p =>
        right
        refine ⟨p, rfl, ?_⟩
        simp only [Option.map, encRes, Except.map, Option.map] at hchk
        have hpg := pget_encTable col_alias p
        rw [← ptab_eq] at hpg
        rw [show Nat.pair (strCode p.1) (strCode p.2) = keyCode p from rfl] at hchk
        rw [hpg] at hchk
        cases hg : dictGet col_alias p with
        | none => rw [hg] at hchk; simp [Option.map] at hchk
        | some w =>
          rw [hg] at hchk
          cases w with
          | none => simp [Option.map, encVal] at hchk
          | some q =>
            obtain ⟨q₁, q₂⟩ := q
            simp only [Option.map, encVal, Bool.and_eq_true] at hchk
            obtain ⟨⟨⟨hq₁, hq₂⟩, hp₁⟩, hp₂⟩ := hchk
            have e₁ : q₁ = "" := strCode_eq_zero.mp (Nat.eq_of_beq_eq_true hq₁)
            have e₂ : q₂ = "" := strCode_eq_zero.mp (Nat.eq_of_beq_eq_true hq₂)
            refine ⟨by rw [e₁, e₂], ?_, ?_⟩
            · intro hp
              rw [hp] at hp₁
              rw [beq_strCode_empty_zero] at hp₁
              exact Bool.noConfusion hp₁
            · intro hp
              rw [hp] at hp₂
              rw [beq_strCode_empty_zero] at hp₂
              exact Bool.noConfusion hp₂

/-! ## Claim C1: every key resolves to retirement or a fixed point -/

/-- C1: for every key present in `col_alias`, `current_names` terminates
and returns either the retirement marker `(None, None)` or a pair whose
own resolution is that same pair (resolving an already-canonical pair
returns it unchanged). -/
theorem current_names_terminates_on_all_keys :
    ∀ k : ColKey, k ∈ col_alias.map Prod.fst →
      resolvesTo col_alias k.1 k.2 (Except.ok none) ∨
      ∃ p : String × String, resolvesTo col_alias k.1 k.2 (Except.ok (some p)) ∧
        resolvesTo col_alias p.1 p.2 (Except.ok (some p)) := by
  intro k hk
  rcases resolution_bulk_spec k hk with h | ⟨p, h, hcan, _, _⟩
  · exact Or.inl ⟨8, h⟩
  · exact Or.inr ⟨p, ⟨8, h⟩, ⟨1, current_names_canonical hcan⟩⟩

/-- Witness for C1 at the concrete key `("flux", "l")`. -/
theorem current_names_terminates_on_all_keys_witness :
    (("flux", "l") ∈ col_alias.map Prod.fst) ∧
    (resolvesTo col_alias "flux" "l" (Except.ok none) ∨
      ∃ p : String × String, resolvesTo col_alias "flux" "l" (Except.ok (some p)) ∧
        resolvesTo col_alias p.1 p.2 (Except.ok (some p))) := by
  have hp : pget ptab (keyCode ("flux", "l")) = some (encVal (some ("", "L"))) := by decide!
  have hd : dictGet col_alias ("flux", "l") = some (some ("", "L")) :=
    dictGet_of_pget (ptab_eq ▸ hp)
  have hmem : ("flux", "l") ∈ col_alias.map Prod.fst :=
    List.mem_map_of_mem Prod.fst (dictGet_some_mem hd)
  exact ⟨hmem, current_names_terminates_on_all_keys ("flux", "l") hmem⟩

/-! ## Claim C10: successful resolutions land on canonical entries -/

/-- C10: whenever resolving a key of `col_alias` returns a pair (rather
than raising or returning the retirement marker), that pair is itself a
key of `col_alias` stored with the canonical sentinel `('', '')`, and
both of its components are non-empty strings. -/
theorem current_names_lands_on_canonical :
    ∀ k : ColKey, k ∈ col_alias.map Prod.fst →
      ∀ p : String × String, resolvesTo col_alias k.1 k.2 (Except.ok (some p)) →
        dictGet col_alias p = some (some ("", "")) ∧ p.1 ≠ "" ∧ p.2 ≠ "" := by
  intro k hk p hres
  rcases resolution_bulk_spec k hk with h | ⟨q, h, hcan, h₁, h₂⟩
  · have := resolvesTo_unique hres ⟨8, h⟩
    exact absurd this (by simp)
  · have heq := resolvesTo_unique hres ⟨8, h⟩
    have hpq : p = q := by simpa using heq
    rw [hpq]
    exact ⟨hcan, h₁, h₂⟩

/-- Witness for C10 at the concrete key `("flux", "l")`, which resolves to
`("stats30", "L")`. -/
theorem current_names_lands_on_canonical_witness :
    (("flux", "l") ∈ col_alias.map Prod.fst) ∧
    resolvesTo col_alias "flux" "l" (Except.ok (some ("stats30", "L"))) ∧
    (dictGet col_alias ("stats30", "L") = some (some ("", "")) ∧
      "stats30" ≠ "" ∧ "L" ≠ "") := by
  have hp : pget ptab (keyCode ("flux", "l")) = some (encVal (some ("", "L"))) := by decide!
  have hd : dictGet col_alias ("flux", "l") = some (some ("", "L")) :=
    dictGet_of_pget (ptab_eq ▸ hp)
  have hmem : ("flux", "l") ∈ col_alias.map Prod.fst :=
    List.mem_map_of_mem Prod.fst (dictGet_some_mem hd)
  have hc : cnP ptab 8 (strCode "flux") (strCode "l") =
      some (encRes (Except.ok (some ("stats30", "L")))) := by decide!
  have hres : resolvesTo col_alias "flux" "l" (Except.ok (some ("stats30", "L"))) :=
    resolvesTo_of_cnP 8 (ptab_eq ▸ hc)
  exact ⟨hmem, hres,
    current_names_lands_on_canonical ("flux", "l") hmem ("stats30", "L") hres⟩

/-! ## Claim C7: resolving a chain equals resolving its next link -/

/-- C7: for every key of `col_alias` whose stored value is a pointer
(neither the retirement sentinel nor `('', '')`), `current_names` on the
key returns a result exactly when it returns the same result on the
successor pair obtained by substituting blank components of the value
with the key's components; hence resolving a chain yields the same result
as resolving any intermediate link. -/
theorem current_names_chain_step :
    ∀ (t c tb co : String), dictGet col_alias (t, c) = some (some (tb, co)) →
      ¬(tb = "" ∧ co = "") →
      ∀ r, (resolvesTo col_alias t c r ↔
        resolvesTo col_alias (if tb = "" then t else tb) (if co = "" then c else co) r) := by
  intro t c tb co h hne r
  exact resolvesTo_step_iff h hne r

/-- Witness for C7 at the concrete key `("flux", "l")`, whose stored value
`("", "L")` points at the successor `("flux", "L")`. -/
theorem current_names_chain_step_witness :
    dictGet col_alias ("flux", "l") = some (some ("", "L")) ∧
    ¬("" = "" ∧ "L" = "") ∧
    (resolvesTo col_alias "flux" "l" (Except.ok (some ("stats30", "L"))) ↔
      resolvesTo col_alias "flux" "L" (Except.ok (some ("stats30", "L")))) := by
  have hp : pget ptab (keyCode ("flux", "l")) = some (encVal (some ("", "L"))) := by decide!
  have hd : dictGet col_alias ("flux", "l") = some (some ("", "L")) :=
    dictGet_of_pget (ptab_eq ▸ hp)
  have hne : ¬("" = "" ∧ "L" = "") := by simp
  exact ⟨hd, hne,
    current_names_chain_step "flux" "l" "" "L" hd hne (Except.ok (some ("stats30", "L")))⟩

/-! ## Claim C8: schema definitions are fixed points of the resolver -/

/-- C8: every column of every schema list in `table_definitions` resolves
to exactly its own `(table, column)` pair. -/
theorem table_definitions_canonical :
    ∀ (t : String) (cols : List String), (t, cols) ∈ table_definitions →
      ∀ col ∈ cols, resolvesTo col_alias t col (Except.ok (some (t, col))) := by
  intro t cols hmem col hcol
  have hmem₂ : (strCode t, mapP strCode cols) ∈ encTD :=
    mapP_mem (fun e => (strCode e.1, mapP strCode e.2)) hmem
  have hchk := allP_mem tableDef_bulk _ hmem₂
  simp only [tableDefChk] at hchk
  have hc := allP_mem hchk _ (mapP_mem strCode hcol)
  have hcn := cnP_encTable col_alias 8 t col
  rw [← ptab_eq] at hcn
  rw [hcn] at hc
  cases hd : definitions.current_names col_alias 8 t col with
  | none => rw [hd] at hc; simp [Option.map] at hc
  | some r =>
    rw [hd] at hc
    cases r with
    | error e => simp [Option.map, encRes, Except.map] at hc
    | ok v =>
      cases v with
      | none => simp [Option.map, encRes, Except.map] at hc
      | some p =>
        obtain ⟨p₁, p₂⟩ := p
        simp only [Option.map, encRes, Except.map, Bool.and_eq_true] at hc
        obtain ⟨h₁, h₂⟩ := hc
        have e₁ : p₁ = t := strCode_inj (Nat.eq_of_beq_eq_true h₁)
        have e₂ : p₂ = col := strCode_inj (Nat.eq_of_beq_eq_true h₂)
        rw [e₁, e₂] at hd
        exact ⟨8, hd⟩

/-- Witness for C8 at the concrete entry `("tsdata_extra", ...)` and its
column `"lgr_n2o"`. -/
theorem table_definitions_canonical_witness :
    (("tsdata_extra", cols_tsdata_extra) ∈ table_definitions) ∧
    ("lgr_n2o" ∈ cols_tsdata_extra) ∧
    resolvesTo col_alias "tsdata_extra" "lgr_n2o"
      (Except.ok (some ("tsdata_extra", "lgr_n2o"))) := by
  have h₁ : ("tsdata_extra", cols_tsdata_extra) ∈ table_definitions := by decide!
  have h₂ : "lgr_n2o" ∈ cols_tsdata_extra := by decide!
  exact ⟨h₁, h₂,
    table_definitions_canonical "tsdata_extra" cols_tsdata_extra h₁ "lgr_n2o" h₂⟩
